import Mathlib

/-!
AutoGeneratorControl: the generator / ATS controller of `src/main.cpp`.

A shallow embedding of the Arduino sketch.  The globals of the sketch, the four relay
outputs and the output produced by one pass of `loop()` are the fields of `Controller`;
every C++ function is a Lean function that passes the `Controller` along.

Modelling conventions

* `unsigned long` values are natural numbers below `2^32`; `millis()` is reduced modulo
  `2^32` where it is read and every subtraction of two timestamps is `usub`, the
  subtraction modulo `2^32`.
* `millis()` is called several times during one pass of `loop()` (line 233, every
  `changeState`, every `logEvent`).  `Inputs.clock k` is the value of the hardware counter
  at the `k`-th call made during the pass; `Controller.reads` counts the calls.
* `float` voltages are kept exactly, in thousandths of a volt: `readVoltage` multiplies the
  raw ADC value by 465 and `minGenVoltage` is 210000.  The only use the state machine makes
  of a voltage is the comparison `genVoltage >= minGenVoltage`; the products next to the
  threshold are 451 * 0.465 = 209.715 and 452 * 0.465 = 210.18, both farther from 210 than
  any single-precision rounding error, so the comparison has the same outcome in exact and
  in single-precision arithmetic for every raw value.
* C strings are lists of characters.
* `startAttempts` is a C `int`; it is an `Int` here and `++` is `+ 1` (the counter stays
  between 0 and 3 in every reachable state, far from the width of an `int`).
* The two debounced inputs are embedded as the sketch writes them (`debounceGrid`,
  `debounceGen`, `updateTrusted`); `Debouncer.observe` is the update they share, and every
  tick is proved to apply it to the grid and to the generator variables.
* Only the four relay pins are outputs of the model; the two sensing pins that `setup()`
  drives HIGH are never written again and are left out.
-/

namespace AutoGen

/-- The enumeration `GeneratorState` (lines 27-40). -/
inductive GeneratorState where
  | IDLE
  | GRID_LOSS_DETECTED
  | START_POWER_ON
  | START_CHOKE_ON
  | START_CRANKING
  | START_CHOKE_OFF
  | CHECK_RUNNING
  | RUNNING_WAIT_ATS
  | RUNNING_WITH_ATS
  | GRID_RESTORED_WAIT
  | COOLING_DOWN
  | SHUTTING_DOWN
  deriving DecidableEq, Repr

/-- The integer value of an enumerator, as printed by the `%d` of the status line. -/
def GeneratorState.toNat : GeneratorState → Nat
  | .IDLE => 0
  | .GRID_LOSS_DETECTED => 1
  | .START_POWER_ON => 2
  | .START_CHOKE_ON => 3
  | .START_CRANKING => 4
  | .START_CHOKE_OFF => 5
  | .CHECK_RUNNING => 6
  | .RUNNING_WAIT_ATS => 7
  | .RUNNING_WITH_ATS => 8
  | .GRID_RESTORED_WAIT => 9
  | .COOLING_DOWN => 10
  | .SHUTTING_DOWN => 11

/-- The four relay output pins (lines 6-9). -/
inductive Pin where
  | powerOnRelayPin
  | chokeRelayPin
  | startRelayPin
  | atsRelayPin
  deriving DecidableEq, Repr

/-- Number of values of an `unsigned long` (32 bits on the target). -/
@[simp] def ULONG_SIZE : Nat := 4294967296

/-- Subtraction of two `unsigned long` values: the difference modulo `2^32`. -/
def usub (a b : Nat) : Nat := (a % ULONG_SIZE + (ULONG_SIZE - b % ULONG_SIZE)) % ULONG_SIZE

/-! Timing constants (lines 50-58) and the other constants of the sketch. -/

@[simp] def chokeOnTime : Nat := 3500
@[simp] def atsDelayTime : Nat := 120000
@[simp] def generatorRunTime : Nat := 14400000
@[simp] def shutdownDelayTime : Nat := 120000
@[simp] def gridLossWaitTime : Nat := 300000
@[simp] def startCheckDelay : Nat := 5000
@[simp] def startRetryDelay : Nat := 5000
@[simp] def debounceDelay : Nat := 50
@[simp] def logInterval : Nat := 60000
@[simp] def maxEventLogs : Nat := 10
@[simp] def maxStartAttempts : Int := 3

/-- The constant `minGenVoltage = 210.0`, in thousandths of a volt. -/
@[simp] def minGenVoltage : Int := 210000

/-- The constant `voltageFactor = 0.465`, in thousandths. -/
@[simp] def voltageFactor : Int := 465

/-- What one pass of `loop()` reads from its environment. -/
structure Inputs where
  /-- Value of the millisecond counter at the `k`-th call of `millis()` of the pass. -/
  clock : Nat → Nat
  /-- Level read by `digitalRead(gridCheckInPin)`; `true` is HIGH. -/
  gridCheckIn : Bool
  /-- Level read by `digitalRead(genCheckInPin)`; `true` is HIGH. -/
  genCheckIn : Bool
  /-- Value of `analogRead(genVoltagePin)`. -/
  genVoltageRaw : Int
  /-- Value of `analogRead(gridVoltagePin)`. -/
  gridVoltageRaw : Int
  /-- Characters that the `%.1f` conversion of the platform prints for a voltage. -/
  fmtVolt : Int → List Char

/-- The globals of the sketch (lines 43-91), the levels of the four relay outputs, and the
output of the current pass of `loop()`. -/
structure Controller where
  currentState : GeneratorState
  currentMillis : Nat
  previousMillis : Nat
  gridLossTime : Nat
  gridRestoreTime : Nat
  stateStartTime : Nat
  atsEngaged : Bool
  generatorRunning : Bool
  gridWasLost : Bool
  lastGridState : Bool
  lastGenState : Bool
  lastGridDebounceTime : Nat
  lastGenDebounceTime : Nat
  gridStateStable : Bool
  genStateStable : Bool
  gridPresent : Bool
  generatorConfirmed : Bool
  genVoltage : Int
  gridVoltage : Int
  lastLogTime : Nat
  eventLogIndex : Nat
  eventLog : List (List Char)
  startAttempts : Int
  /-- Last level written to `powerOnRelayPin`. -/
  powerOnRelay : Bool
  /-- Last level written to `chokeRelayPin`. -/
  chokeRelay : Bool
  /-- Last level written to `startRelayPin`. -/
  startRelay : Bool
  /-- Last level written to `atsRelayPin`. -/
  atsRelay : Bool
  /-- Number of calls of `millis()` made so far in the current pass. -/
  reads : Nat
  /-- The calls of `digitalWrite` on a relay pin made so far in the current pass, in order. -/
  writes : List (Pin × Bool)
  /-- The lines sent to `Serial` so far in the current pass, in order. -/
  serial : List (List Char)

/-- The static initialisers of the globals (lines 43-91); the outputs are LOW at reset. -/
def boot : Controller where
  currentState := .IDLE
  currentMillis := 0
  previousMillis := 0
  gridLossTime := 0
  gridRestoreTime := 0
  stateStartTime := 0
  atsEngaged := false
  generatorRunning := false
  gridWasLost := false
  lastGridState := false
  lastGenState := false
  lastGridDebounceTime := 0
  lastGenDebounceTime := 0
  gridStateStable := false
  genStateStable := false
  gridPresent := false
  generatorConfirmed := false
  genVoltage := 0
  gridVoltage := 0
  lastLogTime := 0
  eventLogIndex := 0
  eventLog := List.replicate 10 []
  startAttempts := 0
  powerOnRelay := false
  chokeRelay := false
  startRelay := false
  atsRelay := false
  reads := 0
  writes := []
  serial := []

/-- The call `millis()`: the counter value of the next read, as an `unsigned long`. -/
def millis (i : Inputs) (s : Controller) : Nat := i.clock s.reads % ULONG_SIZE

/-- The function `readVoltage` (lines 100-109), applied to the raw value of the pin. -/
def readVoltage (rawValue : Int) : Int := rawValue * voltageFactor

/-- The call `digitalWrite(pin, level)` on a relay pin. -/
def digitalWrite (pin : Pin) (level : Bool) (s : Controller) : Controller :=
  let s := { s with writes := s.writes ++ [(pin, level)] }
  match pin with
  | .powerOnRelayPin => { s with powerOnRelay := level }
  | .chokeRelayPin => { s with chokeRelay := level }
  | .startRelayPin => { s with startRelay := level }
  | .atsRelayPin => { s with atsRelay := level }

/-- The line that `logEvent` sends to `Serial` (lines 117-128) when `millis()` returns
`currentTime`: hours modulo 24, minutes, seconds, then the text of the event. -/
def logLine (currentTime : Nat) (event : List Char) : List Char :=
  let seconds := currentTime / 1000
  let minutes := seconds / 60
  let hours := minutes / 60
  Nat.toDigits 10 (hours % 24) ++ ":".toList ++ Nat.toDigits 10 (minutes % 60)
    ++ ":".toList ++ Nat.toDigits 10 (seconds % 60) ++ " - ".toList ++ event

/-- The function `logEvent` (lines 112-134): one line to `Serial`, then the first 49
characters of the event into the slot `eventLogIndex` of the circular buffer. -/
def logEvent (i : Inputs) (event : List Char) (s : Controller) : Controller :=
  { s with
    reads := s.reads + 1
    serial := s.serial ++ [logLine (millis i s) event]
    eventLog := s.eventLog.set s.eventLogIndex (event.take 49)
    eventLogIndex := (s.eventLogIndex + 1) % maxEventLogs }

/-- The names copied into `stateBuffer` by the switch of `changeState` (lines 143-180). -/
def stateName : GeneratorState → List Char
  | .IDLE => "IDLE".toList
  | .GRID_LOSS_DETECTED => "GRID_LOSS_DETECTED".toList
  | .START_POWER_ON => "START_POWER_ON".toList
  | .START_CHOKE_ON => "START_CHOKE_ON".toList
  | .START_CRANKING => "START_CRANKING".toList
  | .START_CHOKE_OFF => "START_CHOKE_OFF".toList
  | .CHECK_RUNNING => "CHECK_RUNNING".toList
  | .RUNNING_WAIT_ATS => "RUNNING_WAIT_ATS".toList
  | .RUNNING_WITH_ATS => "RUNNING_WITH_ATS".toList
  | .GRID_RESTORED_WAIT => "GRID_RESTORED_WAIT".toList
  | .COOLING_DOWN => "COOLING_DOWN".toList
  | .SHUTTING_DOWN => "SHUTTING_DOWN".toList

/-- The function `changeState` (lines 137-185). -/
def changeState (i : Inputs) (newState : GeneratorState) (s : Controller) : Controller :=
  let s := { s with
    currentState := newState
    stateStartTime := millis i s
    reads := s.reads + 1 }
  logEvent i ("Changed to state: ".toList ++ stateName newState) s

/-- The function `printEventLog` (lines 188-202): the lines it sends to `Serial`. -/
def printEventLog (s : Controller) : List (List Char) :=
  ["=== EVENT LOG ===".toList]
    ++ (List.range maxEventLogs).filterMap (fun k =>
      let entry := s.eventLog.getD ((s.eventLogIndex + k) % maxEventLogs) []
      if entry = [] then none else some (Nat.toDigits 10 k ++ ": ".toList ++ entry))
    ++ ["================".toList]

/-- The function `setup` (lines 204-230): relays LOW, then the first log entry. -/
def setup (i : Inputs) (s : Controller) : Controller :=
  let s := digitalWrite .powerOnRelayPin false s
  let s := digitalWrite .chokeRelayPin false s
  let s := digitalWrite .startRelayPin false s
  let s := digitalWrite .atsRelayPin false s
  logEvent i "System initialized. State: IDLE".toList s

/-- Lines 240-253 of `loop()`: the debounce of the grid input, for the reading of the pass
(`gridReading`, already inverted). -/
def debounceGrid (i : Inputs) (gridReading : Bool) (s : Controller) : Controller :=
  let s :=
    if gridReading ≠ s.lastGridState then
      { s with
        lastGridDebounceTime := s.currentMillis
        lastGridState := gridReading
        gridStateStable := false }
    else s
  if usub s.currentMillis s.lastGridDebounceTime > debounceDelay ∧ s.gridStateStable = false then
    let s := { s with gridStateStable := true }
    if gridReading ≠ s.gridPresent then
      logEvent i ("Grid state changed to: ".toList
        ++ (if gridReading then "PRESENT".toList else "ABSENT".toList)) s
    else s
  else s

/-- Lines 256-269 of `loop()`: the debounce of the generator input, for the reading of the
pass (`genReading`, already inverted). -/
def debounceGen (i : Inputs) (genReading : Bool) (s : Controller) : Controller :=
  let s :=
    if genReading ≠ s.lastGenState then
      { s with
        lastGenDebounceTime := s.currentMillis
        lastGenState := genReading
        genStateStable := false }
    else s
  if usub s.currentMillis s.lastGenDebounceTime > debounceDelay ∧ s.genStateStable = false then
    let s := { s with genStateStable := true }
    if genReading ≠ s.generatorConfirmed then
      logEvent i ("Generator state changed to: ".toList
        ++ (if genReading then "RUNNING".toList else "STOPPED".toList)) s
    else s
  else s

/-- Lines 272-278 of `loop()`: the trusted values follow the readings that are stable. -/
def updateTrusted (s : Controller) : Controller :=
  let s := if s.gridStateStable then { s with gridPresent := s.lastGridState } else s
  if s.genStateStable then { s with generatorConfirmed := s.lastGenState } else s

/-- Lines 233-282 of `loop()`: the clock is read, both inputs are read (LOW means present,
because of the pull-ups) and debounced, the trusted values are refreshed and both voltages
are sampled. -/
def readSensors (i : Inputs) (s : Controller) : Controller :=
  let s := { s with currentMillis := millis i s, reads := s.reads + 1 }
  let gridReading := !i.gridCheckIn
  let genReading := !i.genCheckIn
  let s := debounceGrid i gridReading s
  let s := debounceGen i genReading s
  let s := updateTrusted s
  { s with
    genVoltage := readVoltage i.genVoltageRaw
    gridVoltage := readVoltage i.gridVoltageRaw }

/-- Lines 285-291 of `loop()`: the periodic status line. -/
def periodicLog (i : Inputs) (s : Controller) : Controller :=
  if usub s.currentMillis s.lastLogTime ≥ logInterval then
    let s := { s with lastLogTime := s.currentMillis }
    logEvent i ("State: ".toList ++ Nat.toDigits 10 s.currentState.toNat
      ++ ", Grid: ".toList ++ Nat.toDigits 10 s.gridPresent.toNat
      ++ ", Gen: ".toList ++ Nat.toDigits 10 s.generatorConfirmed.toNat
      ++ ", V: ".toList ++ i.fmtVolt s.genVoltage) s
  else s

/-- The case `IDLE` (lines 296-304). -/
def caseIdle (i : Inputs) (s : Controller) : Controller :=
  if s.gridPresent = false ∧ s.gridWasLost = false then
    let s := logEvent i "Grid power lost. Starting timer...".toList s
    let s := { s with gridLossTime := s.currentMillis, gridWasLost := true }
    changeState i .GRID_LOSS_DETECTED s
  else s

/-- The case `GRID_LOSS_DETECTED` (lines 306-317). -/
def caseGridLossDetected (i : Inputs) (s : Controller) : Controller :=
  if usub s.currentMillis s.gridLossTime ≥ gridLossWaitTime then
    changeState i .START_POWER_ON { s with startAttempts := 0 }
  else if s.gridPresent then
    let s := logEvent i "Grid restored during wait period. Returning to IDLE.".toList s
    changeState i .IDLE { s with gridWasLost := false }
  else s

/-- The case `START_POWER_ON` (lines 319-328). -/
def caseStartPowerOn (i : Inputs) (s : Controller) : Controller :=
  let s := digitalWrite .powerOnRelayPin true s
  let s := logEvent i "Powering on generator...".toList s
  if usub s.currentMillis s.stateStartTime ≥ 1000 then changeState i .START_CHOKE_ON s else s

/-- The case `START_CHOKE_ON` (lines 330-338). -/
def caseStartChokeOn (i : Inputs) (s : Controller) : Controller :=
  let s := digitalWrite .chokeRelayPin true s
  if usub s.currentMillis s.stateStartTime ≥ 3000 then changeState i .START_CRANKING s else s

/-- The case `START_CRANKING` (lines 340-349). -/
def caseStartCranking (i : Inputs) (s : Controller) : Controller :=
  let s := digitalWrite .startRelayPin true s
  if usub s.currentMillis s.stateStartTime ≥ 3000 then
    changeState i .START_CHOKE_OFF (digitalWrite .startRelayPin false s)
  else s

/-- The case `START_CHOKE_OFF` (lines 351-357). -/
def caseStartChokeOff (i : Inputs) (s : Controller) : Controller :=
  if usub s.currentMillis s.stateStartTime ≥ chokeOnTime then
    changeState i .CHECK_RUNNING (digitalWrite .chokeRelayPin false s)
  else s

/-- The case `CHECK_RUNNING` (lines 359-380). -/
def caseCheckRunning (i : Inputs) (s : Controller) : Controller :=
  if usub s.currentMillis s.stateStartTime ≥ startCheckDelay then
    if s.generatorConfirmed then
      let s := logEvent i "Generator started successfully!".toList s
      changeState i .RUNNING_WAIT_ATS { s with generatorRunning := true }
    else
      let s := { s with startAttempts := s.startAttempts + 1 }
      if s.startAttempts < maxStartAttempts then
        let s := logEvent i "Generator failed to start, retrying...".toList s
        if usub s.currentMillis s.stateStartTime ≥ startCheckDelay + startRetryDelay then
          changeState i .START_POWER_ON s
        else s
      else
        let s := logEvent i
          "Generator failed to start after multiple attempts! Initiating shutdown...".toList s
        changeState i .SHUTTING_DOWN s
  else s

/-- The case `RUNNING_WAIT_ATS` (lines 382-407). -/
def caseRunningWaitAts (i : Inputs) (s : Controller) : Controller :=
  let s :=
    if usub s.currentMillis s.stateStartTime ≥ atsDelayTime then
      if s.genVoltage ≥ minGenVoltage then
        let s := logEvent i "Generator voltage OK. Engaging ATS...".toList s
        let s := digitalWrite .atsRelayPin true s
        changeState i .RUNNING_WITH_ATS { s with atsEngaged := true }
      else
        let s := logEvent i "Generator voltage too low! Cannot engage ATS.".toList s
        if usub s.currentMillis s.stateStartTime ≥ atsDelayTime + 60000 then
          let s := logEvent i "Generator voltage unstable. Shutting down.".toList s
          changeState i .SHUTTING_DOWN s
        else s
    else s
  -- check if the generator stopped unexpectedly (lines 402-406)
  if s.generatorConfirmed = false then
    let s := logEvent i "Generator stopped unexpectedly during wait period!".toList s
    changeState i .SHUTTING_DOWN s
  else s

/-- The case `RUNNING_WITH_ATS` (lines 409-438). -/
def caseRunningWithAts (i : Inputs) (s : Controller) : Controller :=
  let s :=
    if usub s.currentMillis s.stateStartTime ≥ generatorRunTime then
      let s := logEvent i "Scheduled generator shutdown after 4 hours runtime...".toList s
      changeState i .COOLING_DOWN s
    else s
  let s :=
    if s.gridPresent then
      let s :=
        if s.gridRestoreTime = 0 then
          let s := { s with gridRestoreTime := s.currentMillis }
          logEvent i "Grid restored. Waiting 2 minutes before switching back...".toList s
        else s
      if usub s.currentMillis s.gridRestoreTime ≥ shutdownDelayTime then
        let s := logEvent i "Grid stable. Initiating generator shutdown...".toList s
        changeState i .COOLING_DOWN s
      else s
    else { s with gridRestoreTime := 0 }
  if s.generatorConfirmed = false then
    let s := logEvent i "Generator stopped unexpectedly while running!".toList s
    changeState i .SHUTTING_DOWN s
  else s

/-- The case `GRID_RESTORED_WAIT` (lines 440-445). -/
def caseGridRestoredWait (i : Inputs) (s : Controller) : Controller :=
  if usub s.currentMillis s.stateStartTime ≥ shutdownDelayTime then
    changeState i .COOLING_DOWN s
  else s

/-- The case `COOLING_DOWN` (lines 447-456). -/
def caseCoolingDown (i : Inputs) (s : Controller) : Controller :=
  let s := digitalWrite .atsRelayPin false s
  let s := { s with atsEngaged := false }
  if usub s.currentMillis s.stateStartTime ≥ shutdownDelayTime then
    changeState i .SHUTTING_DOWN s
  else s

/-- The case `SHUTTING_DOWN` (lines 458-466). -/
def caseShuttingDown (i : Inputs) (s : Controller) : Controller :=
  let s := digitalWrite .powerOnRelayPin false s
  let s := { s with generatorRunning := false, gridWasLost := false, gridRestoreTime := 0 }
  let s := logEvent i "Generator shut down. Returning to IDLE state.".toList s
  changeState i .IDLE s

/-- The `switch (currentState)` of `loop()` (lines 294-467). -/
def stateMachine (i : Inputs) (s : Controller) : Controller :=
  match s.currentState with
  | .IDLE => caseIdle i s
  | .GRID_LOSS_DETECTED => caseGridLossDetected i s
  | .START_POWER_ON => caseStartPowerOn i s
  | .START_CHOKE_ON => caseStartChokeOn i s
  | .START_CRANKING => caseStartCranking i s
  | .START_CHOKE_OFF => caseStartChokeOff i s
  | .CHECK_RUNNING => caseCheckRunning i s
  | .RUNNING_WAIT_ATS => caseRunningWaitAts i s
  | .RUNNING_WITH_ATS => caseRunningWithAts i s
  | .GRID_RESTORED_WAIT => caseGridRestoredWait i s
  | .COOLING_DOWN => caseCoolingDown i s
  | .SHUTTING_DOWN => caseShuttingDown i s

/-- The function `loop` (lines 232-468). -/
def loop (i : Inputs) (s : Controller) : Controller :=
  stateMachine i (periodicLog i (readSensors i s))

/-- The controller when a pass of `loop()` starts: nothing read or emitted yet. -/
def beginPass (s : Controller) : Controller :=
  { s with reads := 0, writes := [], serial := [] }

/-- The controller after the sensor refresh of the tick taken from `s` with inputs `i`
(lines 233-291, before the state machine is evaluated). -/
def sensed (s : Controller) (i : Inputs) : Controller :=
  periodicLog i (readSensors i (beginPass s))

/-- One polling tick: one pass of `loop()`. -/
def tick (s : Controller) (i : Inputs) : Controller :=
  loop i (beginPass s)

/-- The controller after the ticks of a schedule, taken in order. -/
def run (s : Controller) (is : List Inputs) : Controller :=
  is.foldl tick s

/-- The controller when `loop()` is first called: the globals after `setup()`. -/
def initial (i : Inputs) : Controller := setup i boot

/-- The states the controller can be in at a tick boundary: the state after `setup()` and
every state a tick leads to from such a state, for any inputs. -/
inductive Reachable : Controller → Prop where
  | init (i : Inputs) : Reachable (initial i)
  | step (s : Controller) (i : Inputs) : Reachable s → Reachable (tick s i)

/-- Inputs of a tick during which the clock stands still at `t`. -/
def inputsAt (t : Nat) (gridCheckIn genCheckIn : Bool) (genVoltageRaw : Int) : Inputs where
  clock := fun _ => t
  gridCheckIn := gridCheckIn
  genCheckIn := genCheckIn
  genVoltageRaw := genVoltageRaw
  gridVoltageRaw := 0
  fmtVolt := fun _ => []

/-- The value that line 233 stores in `currentMillis` at a tick with inputs `i`. -/
def Inputs.now (i : Inputs) : Nat := i.clock 0 % ULONG_SIZE

/-- The states after each tick of a schedule, in order. -/
def statesAfter (s : Controller) : List Inputs → List Controller
  | [] => []
  | i :: is => tick s i :: statesAfter (tick s i) is

/-- Every tick of the schedule, with the controller as it is when that tick is taken,
satisfies `P`. -/
def AlongRun (P : Controller → Inputs → Prop) : Controller → List Inputs → Prop
  | _, [] => True
  | s, i :: is => P s i ∧ AlongRun P (tick s i) is

instance AlongRun.instDecidable (P : Controller → Inputs → Prop)
    [inst : ∀ c j, Decidable (P c j)] : ∀ s is, Decidable (AlongRun P s is)
  | _, [] => isTrue trivial
  | s, i :: is => @instDecidableAnd _ _ (inst s i) (AlongRun.instDecidable P (tick s i) is)

/-- The five states of the start sequence. -/
def GeneratorState.isStart : GeneratorState → Bool
  | .START_POWER_ON => true
  | .START_CHOKE_ON => true
  | .START_CRANKING => true
  | .START_CHOKE_OFF => true
  | .CHECK_RUNNING => true
  | _ => false

/-- The tick taken from `s` with inputs `i` is a failed evaluation of `CHECK_RUNNING`: the
check delay has elapsed and the generator is not confirmed (the `else` of line 366). -/
def failedEval (s : Controller) (i : Inputs) : Prop :=
  s.currentState = .CHECK_RUNNING ∧ usub i.now s.stateStartTime ≥ startCheckDelay
    ∧ (sensed s i).generatorConfirmed = false

instance (s : Controller) (i : Inputs) : Decidable (failedEval s i) := by
  unfold failedEval; infer_instance

/-- Number of failed evaluations of `CHECK_RUNNING` among the ticks of a schedule. -/
def failedEvals (s : Controller) : List Inputs → Nat
  | [] => 0
  | i :: is => (if failedEval s i then 1 else 0) + failedEvals (tick s i) is

/-- Number of ticks of a schedule that enter `START_POWER_ON` from another state. -/
def powerOnEntries (s : Controller) : List Inputs → Nat
  | [] => 0
  | i :: is =>
    (if s.currentState ≠ .START_POWER_ON ∧ (tick s i).currentState = .START_POWER_ON
      then 1 else 0) + powerOnEntries (tick s i) is

/-- The invariant behind the bound on `startAttempts`: the counter is between 0 and 3, and
it is at most 2 in the states of the start sequence. -/
def AttemptsInv (s : Controller) : Prop :=
  0 ≤ s.startAttempts ∧ s.startAttempts ≤ 3
    ∧ (s.currentState.isStart = true → s.startAttempts ≤ 2)

/-- The invariant behind the `IDLE` rule: `gridWasLost` is clear in `IDLE`. -/
def IdleInv (s : Controller) : Prop :=
  s.currentState = .IDLE → s.gridWasLost = false

/-- The inputs of power-up and of the first tick used in the examples: clock at 0, grid
input HIGH (absent), generator input HIGH (not running). -/
def powerUp : Inputs := inputsAt 0 true true 0

/-- A schedule from power-up with the grid absent and the generator never running, polled
fast while in `CHECK_RUNNING`: ticks at 0, 300000, 301000, 304000, 307000, 310500, then at
315500, 315501 and 315502 ms. -/
def fastPollSchedule : List Inputs :=
  [inputsAt 0 true true 0, inputsAt 300000 true true 0, inputsAt 301000 true true 0,
   inputsAt 304000 true true 0, inputsAt 307000 true true 0, inputsAt 310500 true true 0,
   inputsAt 315500 true true 0, inputsAt 315501 true true 0, inputsAt 315502 true true 0]

/-- The ticks that follow the entry into `START_POWER_ON` at 300000 ms when the generator
never runs and `CHECK_RUNNING` is polled only 10 s after it is entered: the first start
sequence and two complete retries, up to the second failed evaluation. -/
def slowPollSchedule : List Inputs :=
  [inputsAt 301000 true true 0, inputsAt 304000 true true 0, inputsAt 307000 true true 0,
   inputsAt 310500 true true 0, inputsAt 320500 true true 0,
   inputsAt 321500 true true 0, inputsAt 324500 true true 0, inputsAt 327500 true true 0,
   inputsAt 331000 true true 0, inputsAt 341000 true true 0,
   inputsAt 342000 true true 0, inputsAt 345000 true true 0, inputsAt 348000 true true 0,
   inputsAt 351500 true true 0]

/-- The ticks of a start sequence entered at 300000 ms, up to the entry into
`CHECK_RUNNING` at 310500 ms, where the generator input starts to read running. -/
def startSequenceSchedule : List Inputs :=
  [inputsAt 301000 true true 500, inputsAt 304000 true true 500,
   inputsAt 307000 true true 500, inputsAt 310500 true false 500,
   inputsAt 312000 true false 500]

/-- A schedule from power-up with the grid absent and the ADC reading 500 (232.5 V): the
start sequence, the generator input reading running from 310500 ms on, and the entry into
`RUNNING_WAIT_ATS` at 315500 ms. -/
def waitAtsSchedule : List Inputs :=
  [inputsAt 0 true true 500, inputsAt 300000 true true 500, inputsAt 301000 true true 500,
   inputsAt 304000 true true 500, inputsAt 307000 true true 500,
   inputsAt 310500 true false 500, inputsAt 315500 true false 500]

/-- The schedule `waitAtsSchedule` followed by a tick at 435450 ms at which the generator
input reads stopped again. -/
def stopAtEngageSchedule : List Inputs :=
  waitAtsSchedule ++ [inputsAt 435450 true true 500]

/-- The schedule `waitAtsSchedule` followed by a tick at 435500 ms, which engages the ATS,
and a tick at 500000 ms at which the generator input reads stopped. -/
def engagedSchedule : List Inputs :=
  waitAtsSchedule ++ [inputsAt 435500 true false 500, inputsAt 500000 true true 500]

/-- A schedule from power-up that reaches `RUNNING_WAIT_ATS` at 315500 ms with the ADC
reading 400 (186 V), followed by a tick at 435500 ms. -/
def lowVoltageSchedule : List Inputs :=
  [inputsAt 0 true true 400, inputsAt 300000 true true 400, inputsAt 301000 true true 400,
   inputsAt 304000 true true 400, inputsAt 307000 true true 400,
   inputsAt 310500 true false 400, inputsAt 315500 true false 400]

/-- The invariant that ties `gridWasLost` to the state: the flag is set exactly outside
`IDLE`. -/
def LostInv (s : Controller) : Prop :=
  s.gridWasLost = true ↔ s.currentState ≠ .IDLE

/-- A controller in `START_POWER_ON` entered 500 ms before the millisecond counter wraps. -/
def beforeWrap : Controller :=
  { boot with currentState := .START_POWER_ON, stateStartTime := 4294966796 }

/-- The invariant behind the grid-restoration latch: `gridRestoreTime` is unset outside
`RUNNING_WITH_ATS`, `COOLING_DOWN` and `SHUTTING_DOWN`. -/
def RestoreInv (s : Controller) : Prop :=
  s.currentState ≠ .RUNNING_WITH_ATS → s.currentState ≠ .COOLING_DOWN →
    s.currentState ≠ .SHUTTING_DOWN → s.gridRestoreTime = 0

/-- A schedule from power-up that reaches `RUNNING_WITH_ATS` at 435500 ms; the grid input
reads present from 500000 ms on, so that the restoration is latched at 500100 ms. -/
def gridRestoredSchedule : List Inputs :=
  waitAtsSchedule ++ [inputsAt 435500 true false 500, inputsAt 500000 false false 500,
    inputsAt 500100 false false 500, inputsAt 560000 false false 500]

/-- The event log after the calls `logEvent(e)` for the texts `e` of `es`, in order. -/
def recordAll (i : Inputs) (es : List (List Char)) (s : Controller) : Controller :=
  es.foldl (fun c e => logEvent i e c) s

/-- Eleven texts; the last one is longer than a slot of the buffer. -/
def elevenEvents : List (List Char) :=
  ["event 1".toList, "event 2".toList, "event 3".toList, "event 4".toList,
   "event 5".toList, "event 6".toList, "event 7".toList, "event 8".toList,
   "event 9".toList, "event 10".toList,
   "Generator failed to start after multiple attempts! Initiating shutdown...".toList]

/-- The four variables that the sketch keeps for one debounced input (lines 66-73): the last
raw reading, the time of its last change, whether it has been held long enough, and the
trusted value that the state machine consumes. -/
structure Debouncer where
  lastReading : Bool
  lastChangeTime : Nat
  stable : Bool
  trusted : Bool
  deriving DecidableEq, Repr

/-- The update that one pass of `loop()` applies to the variables of one input, for the
reading of the pass and the value of `currentMillis`: lines 240-248 and 272-274 for the
grid, lines 256-264 and 276-278 for the generator.  The log call of lines 248-252 (resp.
264-268) does not touch these variables and is left out here; `debounceGrid` and
`debounceGen` keep it. -/
def Debouncer.observe (d : Debouncer) (reading : Bool) (now : Nat) : Debouncer :=
  let d :=
    if reading ≠ d.lastReading then
      { d with lastChangeTime := now, lastReading := reading, stable := false }
    else d
  let d :=
    if usub now d.lastChangeTime > debounceDelay ∧ d.stable = false then
      { d with stable := true }
    else d
  if d.stable then { d with trusted := d.lastReading } else d

/-- The grid variables of the controller. -/
def gridDebouncer (s : Controller) : Debouncer :=
  ⟨s.lastGridState, s.lastGridDebounceTime, s.gridStateStable, s.gridPresent⟩

/-- The generator variables of the controller. -/
def genDebouncer (s : Controller) : Debouncer :=
  ⟨s.lastGenState, s.lastGenDebounceTime, s.genStateStable, s.generatorConfirmed⟩

/-- Inputs of a tick during which the clock stands still at `t`, with the grid input HIGH
(absent) and any ADC readings and float formatting. -/
def gridAbsentAt (t : Nat) (genCheckIn : Bool) (adc gridAdc : Int)
    (fmt : Int → List Char) : Inputs where
  clock := fun _ => t
  gridCheckIn := true
  genCheckIn := genCheckIn
  genVoltageRaw := adc
  gridVoltageRaw := gridAdc
  fmtVolt := fmt

/-- The schedule `engagedSchedule` followed by the shutdown after the generator stop (ticks
at 500051 and 500052 ms, back to `IDLE`) and by a second start with the ADC reading 400
(186 V): the grid loss is detected again at 500053 ms, the start sequence runs from
800053 ms, the generator input reads running from 810553 ms and `RUNNING_WAIT_ATS` is
entered at 815553 ms. -/
def restartAfterStopSchedule : List Inputs :=
  engagedSchedule ++ [inputsAt 500051 true true 500, inputsAt 500052 true true 500,
    inputsAt 500053 true true 400, inputsAt 800053 true true 400,
    inputsAt 801053 true true 400, inputsAt 804053 true true 400,
    inputsAt 807053 true true 400, inputsAt 810553 true false 400,
    inputsAt 815553 true false 400]

/-! ## Field-by-field effect of the primitive operations

Each lemma states what one operation leaves in one field; they are the rewriting rules with
which the passes of `loop()` are evaluated symbolically. -/

section Frame
variable (i : Inputs) (e : List Char) (n : GeneratorState) (p : Pin) (l r : Bool)
  (s : Controller)

@[simp] theorem logEvent_currentState : (logEvent i e s).currentState = s.currentState := rfl
@[simp] theorem logEvent_currentMillis : (logEvent i e s).currentMillis = s.currentMillis := rfl
@[simp] theorem logEvent_previousMillis : (logEvent i e s).previousMillis = s.previousMillis := rfl
@[simp] theorem logEvent_gridLossTime : (logEvent i e s).gridLossTime = s.gridLossTime := rfl
@[simp] theorem logEvent_gridRestoreTime :
    (logEvent i e s).gridRestoreTime = s.gridRestoreTime := rfl
@[simp] theorem logEvent_stateStartTime : (logEvent i e s).stateStartTime = s.stateStartTime := rfl
@[simp] theorem logEvent_atsEngaged : (logEvent i e s).atsEngaged = s.atsEngaged := rfl
@[simp] theorem logEvent_generatorRunning :
    (logEvent i e s).generatorRunning = s.generatorRunning := rfl
@[simp] theorem logEvent_gridWasLost : (logEvent i e s).gridWasLost = s.gridWasLost := rfl
@[simp] theorem logEvent_lastGridState : (logEvent i e s).lastGridState = s.lastGridState := rfl
@[simp] theorem logEvent_lastGenState : (logEvent i e s).lastGenState = s.lastGenState := rfl
@[simp] theorem logEvent_lastGridDebounceTime :
    (logEvent i e s).lastGridDebounceTime = s.lastGridDebounceTime := rfl
@[simp] theorem logEvent_lastGenDebounceTime :
    (logEvent i e s).lastGenDebounceTime = s.lastGenDebounceTime := rfl
@[simp] theorem logEvent_gridStateStable :
    (logEvent i e s).gridStateStable = s.gridStateStable := rfl
@[simp] theorem logEvent_genStateStable : (logEvent i e s).genStateStable = s.genStateStable := rfl
@[simp] theorem logEvent_gridPresent : (logEvent i e s).gridPresent = s.gridPresent := rfl
@[simp] theorem logEvent_generatorConfirmed :
    (logEvent i e s).generatorConfirmed = s.generatorConfirmed := rfl
@[simp] theorem logEvent_genVoltage : (logEvent i e s).genVoltage = s.genVoltage := rfl
@[simp] theorem logEvent_gridVoltage : (logEvent i e s).gridVoltage = s.gridVoltage := rfl
@[simp] theorem logEvent_lastLogTime : (logEvent i e s).lastLogTime = s.lastLogTime := rfl
@[simp] theorem logEvent_startAttempts : (logEvent i e s).startAttempts = s.startAttempts := rfl
@[simp] theorem logEvent_powerOnRelay : (logEvent i e s).powerOnRelay = s.powerOnRelay := rfl
@[simp] theorem logEvent_chokeRelay : (logEvent i e s).chokeRelay = s.chokeRelay := rfl
@[simp] theorem logEvent_startRelay : (logEvent i e s).startRelay = s.startRelay := rfl
@[simp] theorem logEvent_atsRelay : (logEvent i e s).atsRelay = s.atsRelay := rfl
@[simp] theorem logEvent_writes : (logEvent i e s).writes = s.writes := rfl
@[simp] theorem logEvent_reads : (logEvent i e s).reads = s.reads + 1 := rfl
@[simp] theorem logEvent_serial :
    (logEvent i e s).serial = s.serial ++ [logLine (millis i s) e] := rfl
@[simp] theorem logEvent_eventLog :
    (logEvent i e s).eventLog = s.eventLog.set s.eventLogIndex (e.take 49) := rfl
@[simp] theorem logEvent_eventLogIndex :
    (logEvent i e s).eventLogIndex = (s.eventLogIndex + 1) % 10 := rfl

@[simp] theorem changeState_currentMillis :
    (changeState i n s).currentMillis = s.currentMillis := rfl
@[simp] theorem changeState_previousMillis :
    (changeState i n s).previousMillis = s.previousMillis := rfl
@[simp] theorem changeState_gridLossTime : (changeState i n s).gridLossTime = s.gridLossTime := rfl
@[simp] theorem changeState_gridRestoreTime :
    (changeState i n s).gridRestoreTime = s.gridRestoreTime := rfl
@[simp] theorem changeState_atsEngaged : (changeState i n s).atsEngaged = s.atsEngaged := rfl
@[simp] theorem changeState_generatorRunning :
    (changeState i n s).generatorRunning = s.generatorRunning := rfl
@[simp] theorem changeState_gridWasLost : (changeState i n s).gridWasLost = s.gridWasLost := rfl
@[simp] theorem changeState_lastGridState :
    (changeState i n s).lastGridState = s.lastGridState := rfl
@[simp] theorem changeState_lastGenState : (changeState i n s).lastGenState = s.lastGenState := rfl
@[simp] theorem changeState_lastGridDebounceTime :
    (changeState i n s).lastGridDebounceTime = s.lastGridDebounceTime := rfl
@[simp] theorem changeState_lastGenDebounceTime :
    (changeState i n s).lastGenDebounceTime = s.lastGenDebounceTime := rfl
@[simp] theorem changeState_gridStateStable :
    (changeState i n s).gridStateStable = s.gridStateStable := rfl
@[simp] theorem changeState_genStateStable :
    (changeState i n s).genStateStable = s.genStateStable := rfl
@[simp] theorem changeState_gridPresent : (changeState i n s).gridPresent = s.gridPresent := rfl
@[simp] theorem changeState_generatorConfirmed :
    (changeState i n s).generatorConfirmed = s.generatorConfirmed := rfl
@[simp] theorem changeState_genVoltage : (changeState i n s).genVoltage = s.genVoltage := rfl
@[simp] theorem changeState_gridVoltage : (changeState i n s).gridVoltage = s.gridVoltage := rfl
@[simp] theorem changeState_lastLogTime : (changeState i n s).lastLogTime = s.lastLogTime := rfl
@[simp] theorem changeState_startAttempts :
    (changeState i n s).startAttempts = s.startAttempts := rfl
@[simp] theorem changeState_powerOnRelay : (changeState i n s).powerOnRelay = s.powerOnRelay := rfl
@[simp] theorem changeState_chokeRelay : (changeState i n s).chokeRelay = s.chokeRelay := rfl
@[simp] theorem changeState_startRelay : (changeState i n s).startRelay = s.startRelay := rfl
@[simp] theorem changeState_atsRelay : (changeState i n s).atsRelay = s.atsRelay := rfl
@[simp] theorem changeState_writes : (changeState i n s).writes = s.writes := rfl
@[simp] theorem changeState_currentState : (changeState i n s).currentState = n := rfl
@[simp] theorem changeState_stateStartTime : (changeState i n s).stateStartTime = millis i s := rfl
@[simp] theorem changeState_reads : (changeState i n s).reads = s.reads + 2 := rfl

@[simp] theorem digitalWrite_currentState :
    (digitalWrite p l s).currentState = s.currentState := by cases p <;> rfl
@[simp] theorem digitalWrite_currentMillis :
    (digitalWrite p l s).currentMillis = s.currentMillis := by cases p <;> rfl
@[simp] theorem digitalWrite_previousMillis :
    (digitalWrite p l s).previousMillis = s.previousMillis := by cases p <;> rfl
@[simp] theorem digitalWrite_gridLossTime :
    (digitalWrite p l s).gridLossTime = s.gridLossTime := by cases p <;> rfl
@[simp] theorem digitalWrite_gridRestoreTime :
    (digitalWrite p l s).gridRestoreTime = s.gridRestoreTime := by cases p <;> rfl
@[simp] theorem digitalWrite_stateStartTime :
    (digitalWrite p l s).stateStartTime = s.stateStartTime := by cases p <;> rfl
@[simp] theorem digitalWrite_atsEngaged :
    (digitalWrite p l s).atsEngaged = s.atsEngaged := by cases p <;> rfl
@[simp] theorem digitalWrite_generatorRunning :
    (digitalWrite p l s).generatorRunning = s.generatorRunning := by cases p <;> rfl
@[simp] theorem digitalWrite_gridWasLost :
    (digitalWrite p l s).gridWasLost = s.gridWasLost := by cases p <;> rfl
@[simp] theorem digitalWrite_lastGridState :
    (digitalWrite p l s).lastGridState = s.lastGridState := by cases p <;> rfl
@[simp] theorem digitalWrite_lastGenState :
    (digitalWrite p l s).lastGenState = s.lastGenState := by cases p <;> rfl
@[simp] theorem digitalWrite_lastGridDebounceTime :
    (digitalWrite p l s).lastGridDebounceTime = s.lastGridDebounceTime := by cases p <;> rfl
@[simp] theorem digitalWrite_lastGenDebounceTime :
    (digitalWrite p l s).lastGenDebounceTime = s.lastGenDebounceTime := by cases p <;> rfl
@[simp] theorem digitalWrite_gridStateStable :
    (digitalWrite p l s).gridStateStable = s.gridStateStable := by cases p <;> rfl
@[simp] theorem digitalWrite_genStateStable :
    (digitalWrite p l s).genStateStable = s.genStateStable := by cases p <;> rfl
@[simp] theorem digitalWrite_gridPresent :
    (digitalWrite p l s).gridPresent = s.gridPresent := by cases p <;> rfl
@[simp] theorem digitalWrite_generatorConfirmed :
    (digitalWrite p l s).generatorConfirmed = s.generatorConfirmed := by cases p <;> rfl
@[simp] theorem digitalWrite_genVoltage :
    (digitalWrite p l s).genVoltage = s.genVoltage := by cases p <;> rfl
@[simp] theorem digitalWrite_gridVoltage :
    (digitalWrite p l s).gridVoltage = s.gridVoltage := by cases p <;> rfl
@[simp] theorem digitalWrite_lastLogTime :
    (digitalWrite p l s).lastLogTime = s.lastLogTime := by cases p <;> rfl
@[simp] theorem digitalWrite_eventLogIndex :
    (digitalWrite p l s).eventLogIndex = s.eventLogIndex := by cases p <;> rfl
@[simp] theorem digitalWrite_eventLog :
    (digitalWrite p l s).eventLog = s.eventLog := by cases p <;> rfl
@[simp] theorem digitalWrite_startAttempts :
    (digitalWrite p l s).startAttempts = s.startAttempts := by cases p <;> rfl
@[simp] theorem digitalWrite_powerOnRelay :
    (digitalWrite p l s).powerOnRelay = if p = .powerOnRelayPin then l else s.powerOnRelay := by
  cases p <;> rfl
@[simp] theorem digitalWrite_chokeRelay :
    (digitalWrite p l s).chokeRelay = if p = .chokeRelayPin then l else s.chokeRelay := by
  cases p <;> rfl
@[simp] theorem digitalWrite_startRelay :
    (digitalWrite p l s).startRelay = if p = .startRelayPin then l else s.startRelay := by
  cases p <;> rfl
@[simp] theorem digitalWrite_atsRelay :
    (digitalWrite p l s).atsRelay = if p = .atsRelayPin then l else s.atsRelay := by
  cases p <;> rfl
@[simp] theorem digitalWrite_reads : (digitalWrite p l s).reads = s.reads := by cases p <;> rfl
@[simp] theorem digitalWrite_writes :
    (digitalWrite p l s).writes = s.writes ++ [(p, l)] := by cases p <;> rfl
@[simp] theorem digitalWrite_serial : (digitalWrite p l s).serial = s.serial := by cases p <;> rfl

@[simp] theorem debounceGrid_currentState : (debounceGrid i r s).currentState = s.currentState := by
  simp only [debounceGrid]; split_ifs <;> rfl
@[simp] theorem debounceGrid_currentMillis :
    (debounceGrid i r s).currentMillis = s.currentMillis := by
  simp only [debounceGrid]; split_ifs <;> rfl
@[simp] theorem debounceGrid_previousMillis :
    (debounceGrid i r s).previousMillis = s.previousMillis := by
  simp only [debounceGrid]; split_ifs <;> rfl
@[simp] theorem debounceGrid_gridLossTime : (debounceGrid i r s).gridLossTime = s.gridLossTime := by
  simp only [debounceGrid]; split_ifs <;> rfl
@[simp] theorem debounceGrid_gridRestoreTime :
    (debounceGrid i r s).gridRestoreTime = s.gridRestoreTime := by
  simp only [debounceGrid]; split_ifs <;> rfl
@[simp] theorem debounceGrid_stateStartTime :
    (debounceGrid i r s).stateStartTime = s.stateStartTime := by
  simp only [debounceGrid]; split_ifs <;> rfl
@[simp] theorem debounceGrid_atsEngaged : (debounceGrid i r s).atsEngaged = s.atsEngaged := by
  simp only [debounceGrid]; split_ifs <;> rfl
@[simp] theorem debounceGrid_generatorRunning :
    (debounceGrid i r s).generatorRunning = s.generatorRunning := by
  simp only [debounceGrid]; split_ifs <;> rfl
@[simp] theorem debounceGrid_gridWasLost : (debounceGrid i r s).gridWasLost = s.gridWasLost := by
  simp only [debounceGrid]; split_ifs <;> rfl
@[simp] theorem debounceGrid_lastGenState : (debounceGrid i r s).lastGenState = s.lastGenState := by
  simp only [debounceGrid]; split_ifs <;> rfl
@[simp] theorem debounceGrid_lastGenDebounceTime :
    (debounceGrid i r s).lastGenDebounceTime = s.lastGenDebounceTime := by
  simp only [debounceGrid]; split_ifs <;> rfl
@[simp] theorem debounceGrid_genStateStable :
    (debounceGrid i r s).genStateStable = s.genStateStable := by
  simp only [debounceGrid]; split_ifs <;> rfl
@[simp] theorem debounceGrid_gridPresent : (debounceGrid i r s).gridPresent = s.gridPresent := by
  simp only [debounceGrid]; split_ifs <;> rfl
@[simp] theorem debounceGrid_generatorConfirmed :
    (debounceGrid i r s).generatorConfirmed = s.generatorConfirmed := by
  simp only [debounceGrid]; split_ifs <;> rfl
@[simp] theorem debounceGrid_genVoltage : (debounceGrid i r s).genVoltage = s.genVoltage := by
  simp only [debounceGrid]; split_ifs <;> rfl
@[simp] theorem debounceGrid_gridVoltage : (debounceGrid i r s).gridVoltage = s.gridVoltage := by
  simp only [debounceGrid]; split_ifs <;> rfl
@[simp] theorem debounceGrid_lastLogTime : (debounceGrid i r s).lastLogTime = s.lastLogTime := by
  simp only [debounceGrid]; split_ifs <;> rfl
@[simp] theorem debounceGrid_startAttempts :
    (debounceGrid i r s).startAttempts = s.startAttempts := by
  simp only [debounceGrid]; split_ifs <;> rfl
@[simp] theorem debounceGrid_powerOnRelay : (debounceGrid i r s).powerOnRelay = s.powerOnRelay := by
  simp only [debounceGrid]; split_ifs <;> rfl
@[simp] theorem debounceGrid_chokeRelay : (debounceGrid i r s).chokeRelay = s.chokeRelay := by
  simp only [debounceGrid]; split_ifs <;> rfl
@[simp] theorem debounceGrid_startRelay : (debounceGrid i r s).startRelay = s.startRelay := by
  simp only [debounceGrid]; split_ifs <;> rfl
@[simp] theorem debounceGrid_atsRelay : (debounceGrid i r s).atsRelay = s.atsRelay := by
  simp only [debounceGrid]; split_ifs <;> rfl
@[simp] theorem debounceGrid_writes : (debounceGrid i r s).writes = s.writes := by
  simp only [debounceGrid]; split_ifs <;> rfl

@[simp] theorem debounceGen_currentState : (debounceGen i r s).currentState = s.currentState := by
  simp only [debounceGen]; split_ifs <;> rfl
@[simp] theorem debounceGen_currentMillis :
    (debounceGen i r s).currentMillis = s.currentMillis := by
  simp only [debounceGen]; split_ifs <;> rfl
@[simp] theorem debounceGen_previousMillis :
    (debounceGen i r s).previousMillis = s.previousMillis := by
  simp only [debounceGen]; split_ifs <;> rfl
@[simp] theorem debounceGen_gridLossTime : (debounceGen i r s).gridLossTime = s.gridLossTime := by
  simp only [debounceGen]; split_ifs <;> rfl
@[simp] theorem debounceGen_gridRestoreTime :
    (debounceGen i r s).gridRestoreTime = s.gridRestoreTime := by
  simp only [debounceGen]; split_ifs <;> rfl
@[simp] theorem debounceGen_stateStartTime :
    (debounceGen i r s).stateStartTime = s.stateStartTime := by
  simp only [debounceGen]; split_ifs <;> rfl
@[simp] theorem debounceGen_atsEngaged : (debounceGen i r s).atsEngaged = s.atsEngaged := by
  simp only [debounceGen]; split_ifs <;> rfl
@[simp] theorem debounceGen_generatorRunning :
    (debounceGen i r s).generatorRunning = s.generatorRunning := by
  simp only [debounceGen]; split_ifs <;> rfl
@[simp] theorem debounceGen_gridWasLost : (debounceGen i r s).gridWasLost = s.gridWasLost := by
  simp only [debounceGen]; split_ifs <;> rfl
@[simp] theorem debounceGen_lastGridState :
    (debounceGen i r s).lastGridState = s.lastGridState := by
  simp only [debounceGen]; split_ifs <;> rfl
@[simp] theorem debounceGen_lastGridDebounceTime :
    (debounceGen i r s).lastGridDebounceTime = s.lastGridDebounceTime := by
  simp only [debounceGen]; split_ifs <;> rfl
@[simp] theorem debounceGen_gridStateStable :
    (debounceGen i r s).gridStateStable = s.gridStateStable := by
  simp only [debounceGen]; split_ifs <;> rfl
@[simp] theorem debounceGen_gridPresent : (debounceGen i r s).gridPresent = s.gridPresent := by
  simp only [debounceGen]; split_ifs <;> rfl
@[simp] theorem debounceGen_generatorConfirmed :
    (debounceGen i r s).generatorConfirmed = s.generatorConfirmed := by
  simp only [debounceGen]; split_ifs <;> rfl
@[simp] theorem debounceGen_genVoltage : (debounceGen i r s).genVoltage = s.genVoltage := by
  simp only [debounceGen]; split_ifs <;> rfl
@[simp] theorem debounceGen_gridVoltage : (debounceGen i r s).gridVoltage = s.gridVoltage := by
  simp only [debounceGen]; split_ifs <;> rfl
@[simp] theorem debounceGen_lastLogTime : (debounceGen i r s).lastLogTime = s.lastLogTime := by
  simp only [debounceGen]; split_ifs <;> rfl
@[simp] theorem debounceGen_startAttempts :
    (debounceGen i r s).startAttempts = s.startAttempts := by
  simp only [debounceGen]; split_ifs <;> rfl
@[simp] theorem debounceGen_powerOnRelay : (debounceGen i r s).powerOnRelay = s.powerOnRelay := by
  simp only [debounceGen]; split_ifs <;> rfl
@[simp] theorem debounceGen_chokeRelay : (debounceGen i r s).chokeRelay = s.chokeRelay := by
  simp only [debounceGen]; split_ifs <;> rfl
@[simp] theorem debounceGen_startRelay : (debounceGen i r s).startRelay = s.startRelay := by
  simp only [debounceGen]; split_ifs <;> rfl
@[simp] theorem debounceGen_atsRelay : (debounceGen i r s).atsRelay = s.atsRelay := by
  simp only [debounceGen]; split_ifs <;> rfl
@[simp] theorem debounceGen_writes : (debounceGen i r s).writes = s.writes := by
  simp only [debounceGen]; split_ifs <;> rfl

@[simp] theorem updateTrusted_currentState : (updateTrusted s).currentState = s.currentState := by
  simp only [updateTrusted]; split_ifs <;> rfl
@[simp] theorem updateTrusted_currentMillis :
    (updateTrusted s).currentMillis = s.currentMillis := by
  simp only [updateTrusted]; split_ifs <;> rfl
@[simp] theorem updateTrusted_previousMillis :
    (updateTrusted s).previousMillis = s.previousMillis := by
  simp only [updateTrusted]; split_ifs <;> rfl
@[simp] theorem updateTrusted_gridLossTime : (updateTrusted s).gridLossTime = s.gridLossTime := by
  simp only [updateTrusted]; split_ifs <;> rfl
@[simp] theorem updateTrusted_gridRestoreTime :
    (updateTrusted s).gridRestoreTime = s.gridRestoreTime := by
  simp only [updateTrusted]; split_ifs <;> rfl
@[simp] theorem updateTrusted_stateStartTime :
    (updateTrusted s).stateStartTime = s.stateStartTime := by
  simp only [updateTrusted]; split_ifs <;> rfl
@[simp] theorem updateTrusted_atsEngaged : (updateTrusted s).atsEngaged = s.atsEngaged := by
  simp only [updateTrusted]; split_ifs <;> rfl
@[simp] theorem updateTrusted_generatorRunning :
    (updateTrusted s).generatorRunning = s.generatorRunning := by
  simp only [updateTrusted]; split_ifs <;> rfl
@[simp] theorem updateTrusted_gridWasLost : (updateTrusted s).gridWasLost = s.gridWasLost := by
  simp only [updateTrusted]; split_ifs <;> rfl
@[simp] theorem updateTrusted_lastGridState :
    (updateTrusted s).lastGridState = s.lastGridState := by
  simp only [updateTrusted]; split_ifs <;> rfl
@[simp] theorem updateTrusted_lastGenState : (updateTrusted s).lastGenState = s.lastGenState := by
  simp only [updateTrusted]; split_ifs <;> rfl
@[simp] theorem updateTrusted_lastGridDebounceTime :
    (updateTrusted s).lastGridDebounceTime = s.lastGridDebounceTime := by
  simp only [updateTrusted]; split_ifs <;> rfl
@[simp] theorem updateTrusted_lastGenDebounceTime :
    (updateTrusted s).lastGenDebounceTime = s.lastGenDebounceTime := by
  simp only [updateTrusted]; split_ifs <;> rfl
@[simp] theorem updateTrusted_gridStateStable :
    (updateTrusted s).gridStateStable = s.gridStateStable := by
  simp only [updateTrusted]; split_ifs <;> rfl
@[simp] theorem updateTrusted_genStateStable :
    (updateTrusted s).genStateStable = s.genStateStable := by
  simp only [updateTrusted]; split_ifs <;> rfl
@[simp] theorem updateTrusted_genVoltage : (updateTrusted s).genVoltage = s.genVoltage := by
  simp only [updateTrusted]; split_ifs <;> rfl
@[simp] theorem updateTrusted_gridVoltage : (updateTrusted s).gridVoltage = s.gridVoltage := by
  simp only [updateTrusted]; split_ifs <;> rfl
@[simp] theorem updateTrusted_lastLogTime : (updateTrusted s).lastLogTime = s.lastLogTime := by
  simp only [updateTrusted]; split_ifs <;> rfl
@[simp] theorem updateTrusted_eventLogIndex :
    (updateTrusted s).eventLogIndex = s.eventLogIndex := by
  simp only [updateTrusted]; split_ifs <;> rfl
@[simp] theorem updateTrusted_eventLog : (updateTrusted s).eventLog = s.eventLog := by
  simp only [updateTrusted]; split_ifs <;> rfl
@[simp] theorem updateTrusted_startAttempts :
    (updateTrusted s).startAttempts = s.startAttempts := by
  simp only [updateTrusted]; split_ifs <;> rfl
@[simp] theorem updateTrusted_powerOnRelay : (updateTrusted s).powerOnRelay = s.powerOnRelay := by
  simp only [updateTrusted]; split_ifs <;> rfl
@[simp] theorem updateTrusted_chokeRelay : (updateTrusted s).chokeRelay = s.chokeRelay := by
  simp only [updateTrusted]; split_ifs <;> rfl
@[simp] theorem updateTrusted_startRelay : (updateTrusted s).startRelay = s.startRelay := by
  simp only [updateTrusted]; split_ifs <;> rfl
@[simp] theorem updateTrusted_atsRelay : (updateTrusted s).atsRelay = s.atsRelay := by
  simp only [updateTrusted]; split_ifs <;> rfl
@[simp] theorem updateTrusted_reads : (updateTrusted s).reads = s.reads := by
  simp only [updateTrusted]; split_ifs <;> rfl
@[simp] theorem updateTrusted_writes : (updateTrusted s).writes = s.writes := by
  simp only [updateTrusted]; split_ifs <;> rfl
@[simp] theorem updateTrusted_serial : (updateTrusted s).serial = s.serial := by
  simp only [updateTrusted]; split_ifs <;> rfl

@[simp] theorem periodicLog_currentState : (periodicLog i s).currentState = s.currentState := by
  simp only [periodicLog]; split_ifs <;> rfl
@[simp] theorem periodicLog_currentMillis : (periodicLog i s).currentMillis = s.currentMillis := by
  simp only [periodicLog]; split_ifs <;> rfl
@[simp] theorem periodicLog_previousMillis :
    (periodicLog i s).previousMillis = s.previousMillis := by
  simp only [periodicLog]; split_ifs <;> rfl
@[simp] theorem periodicLog_gridLossTime : (periodicLog i s).gridLossTime = s.gridLossTime := by
  simp only [periodicLog]; split_ifs <;> rfl
@[simp] theorem periodicLog_gridRestoreTime :
    (periodicLog i s).gridRestoreTime = s.gridRestoreTime := by
  simp only [periodicLog]; split_ifs <;> rfl
@[simp] theorem periodicLog_stateStartTime :
    (periodicLog i s).stateStartTime = s.stateStartTime := by
  simp only [periodicLog]; split_ifs <;> rfl
@[simp] theorem periodicLog_atsEngaged : (periodicLog i s).atsEngaged = s.atsEngaged := by
  simp only [periodicLog]; split_ifs <;> rfl
@[simp] theorem periodicLog_generatorRunning :
    (periodicLog i s).generatorRunning = s.generatorRunning := by
  simp only [periodicLog]; split_ifs <;> rfl
@[simp] theorem periodicLog_gridWasLost : (periodicLog i s).gridWasLost = s.gridWasLost := by
  simp only [periodicLog]; split_ifs <;> rfl
@[simp] theorem periodicLog_lastGridState : (periodicLog i s).lastGridState = s.lastGridState := by
  simp only [periodicLog]; split_ifs <;> rfl
@[simp] theorem periodicLog_lastGenState : (periodicLog i s).lastGenState = s.lastGenState := by
  simp only [periodicLog]; split_ifs <;> rfl
@[simp] theorem periodicLog_lastGridDebounceTime :
    (periodicLog i s).lastGridDebounceTime = s.lastGridDebounceTime := by
  simp only [periodicLog]; split_ifs <;> rfl
@[simp] theorem periodicLog_lastGenDebounceTime :
    (periodicLog i s).lastGenDebounceTime = s.lastGenDebounceTime := by
  simp only [periodicLog]; split_ifs <;> rfl
@[simp] theorem periodicLog_gridStateStable :
    (periodicLog i s).gridStateStable = s.gridStateStable := by
  simp only [periodicLog]; split_ifs <;> rfl
@[simp] theorem periodicLog_genStateStable :
    (periodicLog i s).genStateStable = s.genStateStable := by
  simp only [periodicLog]; split_ifs <;> rfl
@[simp] theorem periodicLog_gridPresent : (periodicLog i s).gridPresent = s.gridPresent := by
  simp only [periodicLog]; split_ifs <;> rfl
@[simp] theorem periodicLog_generatorConfirmed :
    (periodicLog i s).generatorConfirmed = s.generatorConfirmed := by
  simp only [periodicLog]; split_ifs <;> rfl
@[simp] theorem periodicLog_genVoltage : (periodicLog i s).genVoltage = s.genVoltage := by
  simp only [periodicLog]; split_ifs <;> rfl
@[simp] theorem periodicLog_gridVoltage : (periodicLog i s).gridVoltage = s.gridVoltage := by
  simp only [periodicLog]; split_ifs <;> rfl
@[simp] theorem periodicLog_startAttempts : (periodicLog i s).startAttempts = s.startAttempts := by
  simp only [periodicLog]; split_ifs <;> rfl
@[simp] theorem periodicLog_powerOnRelay : (periodicLog i s).powerOnRelay = s.powerOnRelay := by
  simp only [periodicLog]; split_ifs <;> rfl
@[simp] theorem periodicLog_chokeRelay : (periodicLog i s).chokeRelay = s.chokeRelay := by
  simp only [periodicLog]; split_ifs <;> rfl
@[simp] theorem periodicLog_startRelay : (periodicLog i s).startRelay = s.startRelay := by
  simp only [periodicLog]; split_ifs <;> rfl
@[simp] theorem periodicLog_atsRelay : (periodicLog i s).atsRelay = s.atsRelay := by
  simp only [periodicLog]; split_ifs <;> rfl
@[simp] theorem periodicLog_writes : (periodicLog i s).writes = s.writes := by
  simp only [periodicLog]; split_ifs <;> rfl

end Frame

/-! ## The sensor refresh of a tick -/

section Sensed
variable (s : Controller) (i : Inputs)

@[simp] theorem sensed_currentState : (sensed s i).currentState = s.currentState := by
  simp [sensed, readSensors, beginPass]
@[simp] theorem sensed_previousMillis : (sensed s i).previousMillis = s.previousMillis := by
  simp [sensed, readSensors, beginPass]
@[simp] theorem sensed_gridLossTime : (sensed s i).gridLossTime = s.gridLossTime := by
  simp [sensed, readSensors, beginPass]
@[simp] theorem sensed_gridRestoreTime : (sensed s i).gridRestoreTime = s.gridRestoreTime := by
  simp [sensed, readSensors, beginPass]
@[simp] theorem sensed_stateStartTime : (sensed s i).stateStartTime = s.stateStartTime := by
  simp [sensed, readSensors, beginPass]
@[simp] theorem sensed_atsEngaged : (sensed s i).atsEngaged = s.atsEngaged := by
  simp [sensed, readSensors, beginPass]
@[simp] theorem sensed_generatorRunning : (sensed s i).generatorRunning = s.generatorRunning := by
  simp [sensed, readSensors, beginPass]
@[simp] theorem sensed_gridWasLost : (sensed s i).gridWasLost = s.gridWasLost := by
  simp [sensed, readSensors, beginPass]
@[simp] theorem sensed_startAttempts : (sensed s i).startAttempts = s.startAttempts := by
  simp [sensed, readSensors, beginPass]
@[simp] theorem sensed_powerOnRelay : (sensed s i).powerOnRelay = s.powerOnRelay := by
  simp [sensed, readSensors, beginPass]
@[simp] theorem sensed_chokeRelay : (sensed s i).chokeRelay = s.chokeRelay := by
  simp [sensed, readSensors, beginPass]
@[simp] theorem sensed_startRelay : (sensed s i).startRelay = s.startRelay := by
  simp [sensed, readSensors, beginPass]
@[simp] theorem sensed_atsRelay : (sensed s i).atsRelay = s.atsRelay := by
  simp [sensed, readSensors, beginPass]
@[simp] theorem sensed_writes : (sensed s i).writes = [] := by
  simp [sensed, readSensors, beginPass]
@[simp] theorem sensed_currentMillis : (sensed s i).currentMillis = i.clock 0 % ULONG_SIZE := by
  simp [sensed, readSensors, beginPass, millis]
@[simp] theorem sensed_genVoltage : (sensed s i).genVoltage = readVoltage i.genVoltageRaw := by
  simp [sensed, readSensors, beginPass]

theorem tick_eq : tick s i = stateMachine i (sensed s i) := rfl

end Sensed

/-! ## Facts shared by the theorems below -/

theorem sensed_now (s : Controller) (i : Inputs) : (sensed s i).currentMillis = i.now :=
  sensed_currentMillis s i

theorem readVoltage_ge_iff (raw : Int) : readVoltage raw ≥ minGenVoltage ↔ raw ≥ 452 := by
  simp only [readVoltage, voltageFactor, minGenVoltage]
  omega

theorem run_nil (s : Controller) : run s [] = s := rfl

theorem run_cons (s : Controller) (i : Inputs) (is : List Inputs) :
    run s (i :: is) = run (tick s i) is := rfl

theorem run_append (s : Controller) (is js : List Inputs) :
    run s (is ++ js) = run (run s is) js := by
  simp [run, List.foldl_append]

/-- A tick taken in `RUNNING_WAIT_ATS` with the generator confirmed and a sampled voltage
below the minimum: no ATS write, and the state is decided by the 180000 ms timeout alone. -/
theorem waitAts_lowVoltage_tick (s : Controller) (i : Inputs)
    (hs : s.currentState = .RUNNING_WAIT_ATS)
    (hg : (sensed s i).generatorConfirmed = true)
    (hv : readVoltage i.genVoltageRaw < minGenVoltage) :
    (Pin.atsRelayPin, true) ∉ (tick s i).writes
      ∧ (tick s i).atsEngaged = s.atsEngaged
      ∧ (tick s i).atsRelay = s.atsRelay
      ∧ (usub i.now s.stateStartTime < 180000 →
          (tick s i).currentState = .RUNNING_WAIT_ATS
            ∧ (tick s i).stateStartTime = s.stateStartTime)
      ∧ (usub i.now s.stateStartTime ≥ 180000 →
          (tick s i).currentState = .SHUTTING_DOWN) := by
  have hc := sensed_currentState s i
  have hw := sensed_writes s i
  have ht := sensed_stateStartTime s i
  have hm := sensed_now s i
  have hvv := sensed_genVoltage s i
  have ha := sensed_atsEngaged s i
  have hr := sensed_atsRelay s i
  rw [tick_eq]
  generalize sensed s i = c at *
  rw [hs] at hc
  have hv2 : ¬ c.genVoltage ≥ minGenVoltage := by rw [hvv]; exact not_le.mpr hv
  simp only [stateMachine, hc, caseRunningWaitAts]
  split_ifs <;> simp_all
  all_goals omega

/-- A tick taken in `GRID_LOSS_DETECTED`: the three outcomes of lines 308-316. -/
theorem gridLoss_tick (s : Controller) (i : Inputs)
    (hs : s.currentState = .GRID_LOSS_DETECTED) :
    (usub i.now s.gridLossTime ≥ gridLossWaitTime →
        (tick s i).currentState = .START_POWER_ON ∧ (tick s i).startAttempts = 0)
      ∧ (usub i.now s.gridLossTime < gridLossWaitTime → (sensed s i).gridPresent = true →
        (tick s i).currentState = .IDLE ∧ (tick s i).gridWasLost = false)
      ∧ (usub i.now s.gridLossTime < gridLossWaitTime → (sensed s i).gridPresent = false →
        (tick s i).currentState = .GRID_LOSS_DETECTED
          ∧ (tick s i).stateStartTime = s.stateStartTime
          ∧ (tick s i).gridLossTime = s.gridLossTime
          ∧ (tick s i).gridWasLost = s.gridWasLost
          ∧ (tick s i).startAttempts = s.startAttempts) := by
  have hc := sensed_currentState s i
  have ht := sensed_stateStartTime s i
  have hm := sensed_now s i
  have hl := sensed_gridLossTime s i
  have hw := sensed_gridWasLost s i
  have ha := sensed_startAttempts s i
  rw [tick_eq]
  generalize sensed s i = c at *
  rw [hs] at hc
  simp only [stateMachine, hc, caseGridLossDetected]
  split_ifs <;> simp_all

theorem statesAfter_append (s : Controller) (is js : List Inputs) :
    statesAfter s (is ++ js) = statesAfter s is ++ statesAfter (run s is) js := by
  induction is generalizing s with
  | nil => rfl
  | cons i is ih => simp [statesAfter, run_cons, ih]

theorem attemptsInv_initial (i : Inputs) : AttemptsInv (initial i) := by
  simp [AttemptsInv, initial, setup, boot, GeneratorState.isStart]

theorem attemptsInv_tick (s : Controller) (i : Inputs) (h : AttemptsInv s) :
    AttemptsInv (tick s i) := by
  have hc := sensed_currentState s i
  have ha := sensed_startAttempts s i
  obtain ⟨h0, h3, h2⟩ := h
  unfold AttemptsInv
  rw [tick_eq]
  generalize sensed s i = c at *
  rw [← ha] at h0 h3 h2
  cases hcs : s.currentState <;> rw [hcs] at hc h2 <;>
    simp only [stateMachine, hc, caseIdle, caseGridLossDetected, caseStartPowerOn,
      caseStartChokeOn, caseStartCranking, caseStartChokeOff, caseCheckRunning,
      caseRunningWaitAts, caseRunningWithAts, caseGridRestoredWait, caseCoolingDown,
      caseShuttingDown]
  all_goals try split_ifs
  all_goals simp_all [GeneratorState.isStart]
  all_goals omega

theorem reachable_attemptsInv (s : Controller) (h : Reachable s) : AttemptsInv s := by
  induction h with
  | init i => exact attemptsInv_initial i
  | step s i _ ih => exact attemptsInv_tick s i ih

theorem idleInv_initial (i : Inputs) : IdleInv (initial i) := by
  simp [IdleInv, initial, setup, boot]

theorem idleInv_tick (s : Controller) (i : Inputs) (h : IdleInv s) : IdleInv (tick s i) := by
  have hc := sensed_currentState s i
  have hw := sensed_gridWasLost s i
  unfold IdleInv at *
  rw [tick_eq]
  generalize sensed s i = c at *
  rw [← hw] at h
  cases hcs : s.currentState <;> rw [hcs] at hc h <;>
    simp only [stateMachine, hc, caseIdle, caseGridLossDetected, caseStartPowerOn,
      caseStartChokeOn, caseStartCranking, caseStartChokeOff, caseCheckRunning,
      caseRunningWaitAts, caseRunningWithAts, caseGridRestoredWait, caseCoolingDown,
      caseShuttingDown]
  all_goals try split_ifs
  all_goals simp_all

theorem reachable_idleInv (s : Controller) (h : Reachable s) : IdleInv s := by
  induction h with
  | init i => exact idleInv_initial i
  | step s i _ ih => exact idleInv_tick s i ih

theorem reachable_run (s : Controller) (is : List Inputs) (h : Reachable s) :
    Reachable (run s is) := by
  induction is generalizing s with
  | nil => exact h
  | cons i is ih => exact ih (tick s i) (Reachable.step s i h)

/-- A tick taken in a state of the start sequence with the generator unconfirmed.  A failed
evaluation of `CHECK_RUNNING` adds one to `startAttempts` and leads to `SHUTTING_DOWN` when
the counter reaches 3, and to `CHECK_RUNNING` or `START_POWER_ON` otherwise; any other tick
leaves the counter alone, stays in the start sequence and does not enter `START_POWER_ON`. -/
theorem startSeq_tick (s : Controller) (i : Inputs)
    (hs : s.currentState.isStart = true)
    (hg : (sensed s i).generatorConfirmed = false) :
    (failedEval s i →
        (tick s i).startAttempts = s.startAttempts + 1
          ∧ (s.startAttempts + 1 < 3 → (tick s i).currentState.isStart = true)
          ∧ (¬ s.startAttempts + 1 < 3 → (tick s i).currentState = .SHUTTING_DOWN))
      ∧ (¬ failedEval s i →
        (tick s i).startAttempts = s.startAttempts
          ∧ (tick s i).currentState.isStart = true
          ∧ ¬ (s.currentState ≠ .START_POWER_ON
              ∧ (tick s i).currentState = .START_POWER_ON)) := by
  have hc := sensed_currentState s i
  have ha := sensed_startAttempts s i
  have ht := sensed_stateStartTime s i
  have hm := sensed_now s i
  unfold failedEval
  rw [tick_eq]
  generalize sensed s i = c at *
  cases hcs : s.currentState <;> rw [hcs] at hc hs <;>
    simp only [stateMachine, hc, caseIdle, caseGridLossDetected, caseStartPowerOn,
      caseStartChokeOn, caseStartCranking, caseStartChokeOff, caseCheckRunning,
      caseRunningWaitAts, caseRunningWithAts, caseGridRestoredWait, caseCoolingDown,
      caseShuttingDown]
  all_goals try split_ifs
  all_goals simp_all [GeneratorState.isStart]

/-- Along ticks of the start sequence with the generator unconfirmed, while at most two
evaluations of `CHECK_RUNNING` have failed: the controller is still in the start sequence,
`startAttempts` has grown by the number of failed evaluations, `START_POWER_ON` was entered
at most once per failed evaluation and `SHUTTING_DOWN` was not entered. -/
theorem startSeq_run (is : List Inputs) (s : Controller)
    (hs : s.currentState.isStart = true)
    (hun : AlongRun (fun c k => (sensed c k).generatorConfirmed = false) s is)
    (hle : s.startAttempts + failedEvals s is ≤ 2) :
    (run s is).currentState.isStart = true
      ∧ (run s is).startAttempts = s.startAttempts + failedEvals s is
      ∧ powerOnEntries s is ≤ failedEvals s is
      ∧ ∀ c ∈ statesAfter s is, c.currentState ≠ .SHUTTING_DOWN := by
  induction is generalizing s with
  | nil => simp [run_nil, failedEvals, powerOnEntries, statesAfter, hs]
  | cons i is ih =>
    obtain ⟨hg, hun⟩ := hun
    obtain ⟨hf, hn⟩ := startSeq_tick s i hs hg
    simp only [failedEvals, powerOnEntries, run_cons, statesAfter, List.mem_cons] at *
    by_cases hfe : failedEval s i
    · obtain ⟨a1, a2, _⟩ := hf hfe
      simp only [hfe, if_true] at hle ⊢
      have hlt : s.startAttempts + 1 < 3 := by omega
      obtain ⟨b1, b2, b3, b4⟩ := ih (tick s i) (a2 hlt) hun (by rw [a1]; omega)
      refine ⟨b1, by rw [b2, a1]; omega, ?_, ?_⟩
      · split_ifs <;> omega
      · intro c hc
        rcases hc with rfl | hc
        · intro h; rw [h] at a2; exact absurd (a2 hlt) (by decide)
        · exact b4 c hc
    · obtain ⟨a1, a2, a3⟩ := hn hfe
      simp only [hfe, if_false] at hle ⊢
      obtain ⟨b1, b2, b3, b4⟩ := ih (tick s i) a2 hun (by rw [a1]; omega)
      refine ⟨b1, by rw [b2, a1]; omega, ?_, ?_⟩
      · rw [if_neg a3]; omega
      · intro c hc
        rcases hc with rfl | hc
        · intro h; rw [h] at a2; exact absurd a2 (by decide)
        · exact b4 c hc

/-- A tick of the start sequence that is not an evaluation of the generator check (any
state before `CHECK_RUNNING`, or `CHECK_RUNNING` before the check delay has elapsed) leaves
`startAttempts` as it is. -/
theorem startSeq_wait_tick (s : Controller) (i : Inputs)
    (h : s.currentState = .START_POWER_ON ∨ s.currentState = .START_CHOKE_ON
      ∨ s.currentState = .START_CRANKING ∨ s.currentState = .START_CHOKE_OFF
      ∨ (s.currentState = .CHECK_RUNNING ∧ usub i.now s.stateStartTime < 5000)) :
    (tick s i).startAttempts = s.startAttempts := by
  have hc := sensed_currentState s i
  have ha := sensed_startAttempts s i
  have ht := sensed_stateStartTime s i
  have hm := sensed_now s i
  rw [tick_eq]
  generalize sensed s i = c at *
  rcases h with h | h | h | h | ⟨h, h5⟩ <;> rw [h] at hc <;>
    simp only [stateMachine, hc, caseStartPowerOn, caseStartChokeOn, caseStartCranking,
      caseStartChokeOff, caseCheckRunning]
  all_goals try split_ifs
  all_goals simp_all
  all_goals omega

/-- The evaluation of `CHECK_RUNNING` with the generator confirmed (lines 362-365). -/
theorem checkRunning_confirmed_tick (s : Controller) (i : Inputs)
    (hs : s.currentState = .CHECK_RUNNING)
    (ht : usub i.now s.stateStartTime ≥ 5000)
    (hg : (sensed s i).generatorConfirmed = true) :
    (tick s i).currentState = .RUNNING_WAIT_ATS
      ∧ (tick s i).startAttempts = s.startAttempts
      ∧ (tick s i).generatorRunning = true := by
  have hc := sensed_currentState s i
  have ha := sensed_startAttempts s i
  have hst := sensed_stateStartTime s i
  have hm := sensed_now s i
  rw [tick_eq]
  generalize sensed s i = c at *
  rw [hs] at hc
  simp only [stateMachine, hc, caseCheckRunning]
  split_ifs <;> simp_all

theorem powerOnEntries_cons (s : Controller) (i : Inputs) (is : List Inputs) :
    powerOnEntries s (i :: is)
      = (if s.currentState ≠ .START_POWER_ON ∧ (tick s i).currentState = .START_POWER_ON
          then 1 else 0) + powerOnEntries (tick s i) is := rfl

theorem powerOnEntries_append (s : Controller) (is js : List Inputs) :
    powerOnEntries s (is ++ js) = powerOnEntries s is + powerOnEntries (run s is) js := by
  induction is generalizing s with
  | nil => simp [powerOnEntries, run_nil]
  | cons i is ih =>
    rw [List.cons_append, powerOnEntries_cons, powerOnEntries_cons, run_cons, ih (tick s i)]
    omega

theorem updateTrusted_gridPresent (s : Controller) :
    (updateTrusted s).gridPresent
      = if s.gridStateStable then s.lastGridState else s.gridPresent := by
  simp only [updateTrusted]; split_ifs <;> rfl

theorem updateTrusted_generatorConfirmed (s : Controller) :
    (updateTrusted s).generatorConfirmed
      = if s.genStateStable then s.lastGenState else s.generatorConfirmed := by
  simp only [updateTrusted]; split_ifs <;> rfl

/-- The trusted grid value after the sensor refresh: the reading held by the debounce when
it is stable, the value trusted before the tick otherwise. -/
theorem sensed_gridPresent (s : Controller) (i : Inputs) :
    (sensed s i).gridPresent
      = if (sensed s i).gridStateStable then (sensed s i).lastGridState else s.gridPresent := by
  simp [sensed, readSensors, beginPass, updateTrusted_gridPresent]

/-- The tick taken in `IDLE` (lines 298-303). -/
theorem idle_tick (s : Controller) (i : Inputs) (hs : s.currentState = .IDLE)
    (hw : s.gridWasLost = false) :
    ((sensed s i).gridPresent = false →
        (tick s i).currentState = .GRID_LOSS_DETECTED ∧ (tick s i).gridLossTime = i.now
          ∧ (tick s i).gridWasLost = true)
      ∧ ((sensed s i).gridPresent = true →
        (tick s i).currentState = .IDLE ∧ (tick s i).gridLossTime = s.gridLossTime
          ∧ (tick s i).gridWasLost = false) := by
  have hc := sensed_currentState s i
  have hm := sensed_now s i
  have hl := sensed_gridLossTime s i
  have hg := sensed_gridWasLost s i
  rw [tick_eq]
  generalize sensed s i = c at *
  rw [hs] at hc
  simp only [stateMachine, hc, caseIdle]
  split_ifs <;> simp_all

theorem notRestoredWait_tick (s : Controller) (i : Inputs)
    (h : s.currentState ≠ .GRID_RESTORED_WAIT) :
    (tick s i).currentState ≠ .GRID_RESTORED_WAIT := by
  have hc := sensed_currentState s i
  rw [tick_eq]
  generalize sensed s i = c at *
  cases hcs : s.currentState <;> rw [hcs] at hc h <;>
    simp only [stateMachine, hc, caseIdle, caseGridLossDetected, caseStartPowerOn,
      caseStartChokeOn, caseStartCranking, caseStartChokeOff, caseCheckRunning,
      caseRunningWaitAts, caseRunningWithAts, caseGridRestoredWait, caseCoolingDown,
      caseShuttingDown]
  all_goals try split_ifs
  all_goals simp_all

theorem reachable_notRestoredWait (s : Controller) (h : Reachable s) :
    s.currentState ≠ .GRID_RESTORED_WAIT := by
  induction h with
  | init i => simp [initial, setup, boot]
  | step s i _ ih => exact notRestoredWait_tick s i ih

theorem lostInv_initial (i : Inputs) : LostInv (initial i) := by
  simp [LostInv, initial, setup, boot]

theorem lostInv_tick (s : Controller) (i : Inputs) (h : LostInv s) : LostInv (tick s i) := by
  have hc := sensed_currentState s i
  have hw := sensed_gridWasLost s i
  unfold LostInv at *
  rw [tick_eq]
  generalize sensed s i = c at *
  rw [← hw] at h
  cases hcs : s.currentState <;> rw [hcs] at hc h <;>
    simp only [stateMachine, hc, caseIdle, caseGridLossDetected, caseStartPowerOn,
      caseStartChokeOn, caseStartCranking, caseStartChokeOff, caseCheckRunning,
      caseRunningWaitAts, caseRunningWithAts, caseGridRestoredWait, caseCoolingDown,
      caseShuttingDown]
  all_goals try split_ifs
  all_goals simp_all

theorem reachable_lostInv (s : Controller) (h : Reachable s) : LostInv s := by
  induction h with
  | init i => exact lostInv_initial i
  | step s i _ ih => exact lostInv_tick s i ih

/-- Subtraction modulo `2^32` undoes an addition modulo `2^32`. -/
theorem usub_add (s d : Nat) (hd : d < ULONG_SIZE) :
    usub ((s + d) % ULONG_SIZE) s = d := by
  simp only [usub, ULONG_SIZE] at *
  omega

/-- The ticks of the four timed states of the start sequence (lines 319-357): the next
state is entered exactly when the elapsed time has reached the delay of the state. -/
theorem timedStart_tick (s : Controller) (i : Inputs) :
    (s.currentState = .START_POWER_ON →
        ((tick s i).currentState = .START_CHOKE_ON ↔ usub i.now s.stateStartTime ≥ 1000)
          ∧ ((tick s i).currentState = .START_CHOKE_ON
            ∨ (tick s i).currentState = .START_POWER_ON))
      ∧ (s.currentState = .START_CHOKE_ON →
        ((tick s i).currentState = .START_CRANKING ↔ usub i.now s.stateStartTime ≥ 3000)
          ∧ ((tick s i).currentState = .START_CRANKING
            ∨ (tick s i).currentState = .START_CHOKE_ON))
      ∧ (s.currentState = .START_CRANKING →
        ((tick s i).currentState = .START_CHOKE_OFF ↔ usub i.now s.stateStartTime ≥ 3000)
          ∧ ((tick s i).currentState = .START_CHOKE_OFF
            ∨ (tick s i).currentState = .START_CRANKING))
      ∧ (s.currentState = .START_CHOKE_OFF →
        ((tick s i).currentState = .CHECK_RUNNING
            ↔ usub i.now s.stateStartTime ≥ chokeOnTime)
          ∧ ((tick s i).currentState = .CHECK_RUNNING
            ∨ (tick s i).currentState = .START_CHOKE_OFF)) := by
  have hc := sensed_currentState s i
  have ht := sensed_stateStartTime s i
  have hm := sensed_now s i
  rw [tick_eq]
  generalize sensed s i = c at *
  refine ⟨?_, ?_, ?_, ?_⟩ <;> intro h <;> rw [h] at hc <;>
    simp only [stateMachine, hc, caseStartPowerOn, caseStartChokeOn, caseStartCranking,
      caseStartChokeOff]
  all_goals split_ifs
  all_goals simp_all

/-! ## Fields that the state machine never writes -/

@[simp] theorem stateMachine_lastGridState (i : Inputs) (s : Controller) :
    (stateMachine i s).lastGridState = s.lastGridState := by
  unfold stateMachine
  split <;>
    simp only [caseIdle, caseGridLossDetected, caseStartPowerOn, caseStartChokeOn,
      caseStartCranking, caseStartChokeOff, caseCheckRunning, caseRunningWaitAts,
      caseRunningWithAts, caseGridRestoredWait, caseCoolingDown, caseShuttingDown]
  all_goals try split_ifs
  all_goals simp

@[simp] theorem stateMachine_lastGenState (i : Inputs) (s : Controller) :
    (stateMachine i s).lastGenState = s.lastGenState := by
  unfold stateMachine
  split <;>
    simp only [caseIdle, caseGridLossDetected, caseStartPowerOn, caseStartChokeOn,
      caseStartCranking, caseStartChokeOff, caseCheckRunning, caseRunningWaitAts,
      caseRunningWithAts, caseGridRestoredWait, caseCoolingDown, caseShuttingDown]
  all_goals try split_ifs
  all_goals simp

@[simp] theorem stateMachine_lastGridDebounceTime (i : Inputs) (s : Controller) :
    (stateMachine i s).lastGridDebounceTime = s.lastGridDebounceTime := by
  unfold stateMachine
  split <;>
    simp only [caseIdle, caseGridLossDetected, caseStartPowerOn, caseStartChokeOn,
      caseStartCranking, caseStartChokeOff, caseCheckRunning, caseRunningWaitAts,
      caseRunningWithAts, caseGridRestoredWait, caseCoolingDown, caseShuttingDown]
  all_goals try split_ifs
  all_goals simp

@[simp] theorem stateMachine_lastGenDebounceTime (i : Inputs) (s : Controller) :
    (stateMachine i s).lastGenDebounceTime = s.lastGenDebounceTime := by
  unfold stateMachine
  split <;>
    simp only [caseIdle, caseGridLossDetected, caseStartPowerOn, caseStartChokeOn,
      caseStartCranking, caseStartChokeOff, caseCheckRunning, caseRunningWaitAts,
      caseRunningWithAts, caseGridRestoredWait, caseCoolingDown, caseShuttingDown]
  all_goals try split_ifs
  all_goals simp

@[simp] theorem stateMachine_gridStateStable (i : Inputs) (s : Controller) :
    (stateMachine i s).gridStateStable = s.gridStateStable := by
  unfold stateMachine
  split <;>
    simp only [caseIdle, caseGridLossDetected, caseStartPowerOn, caseStartChokeOn,
      caseStartCranking, caseStartChokeOff, caseCheckRunning, caseRunningWaitAts,
      caseRunningWithAts, caseGridRestoredWait, caseCoolingDown, caseShuttingDown]
  all_goals try split_ifs
  all_goals simp

@[simp] theorem stateMachine_genStateStable (i : Inputs) (s : Controller) :
    (stateMachine i s).genStateStable = s.genStateStable := by
  unfold stateMachine
  split <;>
    simp only [caseIdle, caseGridLossDetected, caseStartPowerOn, caseStartChokeOn,
      caseStartCranking, caseStartChokeOff, caseCheckRunning, caseRunningWaitAts,
      caseRunningWithAts, caseGridRestoredWait, caseCoolingDown, caseShuttingDown]
  all_goals try split_ifs
  all_goals simp

@[simp] theorem stateMachine_gridPresent (i : Inputs) (s : Controller) :
    (stateMachine i s).gridPresent = s.gridPresent := by
  unfold stateMachine
  split <;>
    simp only [caseIdle, caseGridLossDetected, caseStartPowerOn, caseStartChokeOn,
      caseStartCranking, caseStartChokeOff, caseCheckRunning, caseRunningWaitAts,
      caseRunningWithAts, caseGridRestoredWait, caseCoolingDown, caseShuttingDown]
  all_goals try split_ifs
  all_goals simp

@[simp] theorem stateMachine_generatorConfirmed (i : Inputs) (s : Controller) :
    (stateMachine i s).generatorConfirmed = s.generatorConfirmed := by
  unfold stateMachine
  split <;>
    simp only [caseIdle, caseGridLossDetected, caseStartPowerOn, caseStartChokeOn,
      caseStartCranking, caseStartChokeOff, caseCheckRunning, caseRunningWaitAts,
      caseRunningWithAts, caseGridRestoredWait, caseCoolingDown, caseShuttingDown]
  all_goals try split_ifs
  all_goals simp

@[simp] theorem stateMachine_currentMillis (i : Inputs) (s : Controller) :
    (stateMachine i s).currentMillis = s.currentMillis := by
  unfold stateMachine
  split <;>
    simp only [caseIdle, caseGridLossDetected, caseStartPowerOn, caseStartChokeOn,
      caseStartCranking, caseStartChokeOff, caseCheckRunning, caseRunningWaitAts,
      caseRunningWithAts, caseGridRestoredWait, caseCoolingDown, caseShuttingDown]
  all_goals try split_ifs
  all_goals simp

@[simp] theorem stateMachine_genVoltage (i : Inputs) (s : Controller) :
    (stateMachine i s).genVoltage = s.genVoltage := by
  unfold stateMachine
  split <;>
    simp only [caseIdle, caseGridLossDetected, caseStartPowerOn, caseStartChokeOn,
      caseStartCranking, caseStartChokeOff, caseCheckRunning, caseRunningWaitAts,
      caseRunningWithAts, caseGridRestoredWait, caseCoolingDown, caseShuttingDown]
  all_goals try split_ifs
  all_goals simp

@[simp] theorem stateMachine_gridVoltage (i : Inputs) (s : Controller) :
    (stateMachine i s).gridVoltage = s.gridVoltage := by
  unfold stateMachine
  split <;>
    simp only [caseIdle, caseGridLossDetected, caseStartPowerOn, caseStartChokeOn,
      caseStartCranking, caseStartChokeOff, caseCheckRunning, caseRunningWaitAts,
      caseRunningWithAts, caseGridRestoredWait, caseCoolingDown, caseShuttingDown]
  all_goals try split_ifs
  all_goals simp

@[simp] theorem stateMachine_lastLogTime (i : Inputs) (s : Controller) :
    (stateMachine i s).lastLogTime = s.lastLogTime := by
  unfold stateMachine
  split <;>
    simp only [caseIdle, caseGridLossDetected, caseStartPowerOn, caseStartChokeOn,
      caseStartCranking, caseStartChokeOff, caseCheckRunning, caseRunningWaitAts,
      caseRunningWithAts, caseGridRestoredWait, caseCoolingDown, caseShuttingDown]
  all_goals try split_ifs
  all_goals simp

@[simp] theorem stateMachine_previousMillis (i : Inputs) (s : Controller) :
    (stateMachine i s).previousMillis = s.previousMillis := by
  unfold stateMachine
  split <;>
    simp only [caseIdle, caseGridLossDetected, caseStartPowerOn, caseStartChokeOn,
      caseStartCranking, caseStartChokeOff, caseCheckRunning, caseRunningWaitAts,
      caseRunningWithAts, caseGridRestoredWait, caseCoolingDown, caseShuttingDown]
  all_goals try split_ifs
  all_goals simp
/-- The grid debounce writes the log only when the reading it stabilises differs from the
trusted value. -/
theorem debounceGrid_quiet (i : Inputs) (r : Bool) (s : Controller)
    (h : (debounceGrid i r s).gridStateStable = true →
      (debounceGrid i r s).lastGridState = s.gridPresent) :
    (debounceGrid i r s).eventLog = s.eventLog
      ∧ (debounceGrid i r s).eventLogIndex = s.eventLogIndex
      ∧ (debounceGrid i r s).serial = s.serial
      ∧ (debounceGrid i r s).reads = s.reads := by
  revert h
  simp only [debounceGrid]
  split_ifs <;> simp_all

theorem debounceGen_quiet (i : Inputs) (r : Bool) (s : Controller)
    (h : (debounceGen i r s).genStateStable = true →
      (debounceGen i r s).lastGenState = s.generatorConfirmed) :
    (debounceGen i r s).eventLog = s.eventLog
      ∧ (debounceGen i r s).eventLogIndex = s.eventLogIndex
      ∧ (debounceGen i r s).serial = s.serial
      ∧ (debounceGen i r s).reads = s.reads := by
  revert h
  simp only [debounceGen]
  split_ifs <;> simp_all

theorem periodicLog_quiet (i : Inputs) (s : Controller)
    (h : usub s.currentMillis s.lastLogTime < logInterval) : periodicLog i s = s := by
  simp only [periodicLog]
  rw [if_neg (not_le.mpr h)]

theorem sensed_eq (s : Controller) (i : Inputs) :
    sensed s i = periodicLog i
      { updateTrusted (debounceGen i (!i.genCheckIn) (debounceGrid i (!i.gridCheckIn)
          { beginPass s with currentMillis := i.now, reads := 1 })) with
        genVoltage := readVoltage i.genVoltageRaw
        gridVoltage := readVoltage i.gridVoltageRaw } := rfl

/-- A tick at which neither trusted sensor value changes and no status line is due leaves
the log alone up to the state machine. -/
theorem sensed_quiet (s : Controller) (i : Inputs)
    (hg : (sensed s i).gridPresent = s.gridPresent)
    (hn : (sensed s i).generatorConfirmed = s.generatorConfirmed)
    (hl : usub i.now s.lastLogTime < logInterval) :
    (sensed s i).eventLog = s.eventLog
      ∧ (sensed s i).eventLogIndex = s.eventLogIndex
      ∧ (sensed s i).serial = [] := by
  rw [sensed_eq] at hg hn ⊢
  rw [periodicLog_quiet _ _ (by simpa [beginPass] using hl)] at hg hn ⊢
  simp only [updateTrusted_gridPresent, updateTrusted_generatorConfirmed,
    debounceGen_gridStateStable, debounceGen_lastGridState, debounceGen_gridPresent,
    debounceGrid_generatorConfirmed] at hg hn
  have a := debounceGrid_quiet i (!i.gridCheckIn)
    { beginPass s with currentMillis := i.now, reads := 1 }
    (by intro h; rw [h] at hg; simpa [beginPass] using hg)
  have b := debounceGen_quiet i (!i.genCheckIn) (debounceGrid i (!i.gridCheckIn)
    { beginPass s with currentMillis := i.now, reads := 1 })
    (by intro h; rw [h] at hn; simpa [beginPass] using hn)
  obtain ⟨a1, a2, a3, _⟩ := a
  obtain ⟨b1, b2, b3, _⟩ := b
  simp only [updateTrusted_eventLog, updateTrusted_eventLogIndex, updateTrusted_serial]
  exact ⟨b1.trans a1, b2.trans a2, b3.trans a3⟩

/-- The state machine writes the log only when it changes the state, in
`START_POWER_ON`, at a failed evaluation of `CHECK_RUNNING`, in `RUNNING_WAIT_ATS` once the
ATS delay has elapsed, and in `RUNNING_WITH_ATS` when it latches `gridRestoreTime`. -/
theorem stateMachine_quiet (i : Inputs) (c : Controller)
    (hstate : (stateMachine i c).currentState = c.currentState)
    (hpo : c.currentState ≠ .START_POWER_ON)
    (hcr : ¬ (c.currentState = .CHECK_RUNNING
      ∧ usub c.currentMillis c.stateStartTime ≥ startCheckDelay
      ∧ c.generatorConfirmed = false))
    (hwa : ¬ (c.currentState = .RUNNING_WAIT_ATS
      ∧ usub c.currentMillis c.stateStartTime ≥ atsDelayTime))
    (hwi : ¬ (c.currentState = .RUNNING_WITH_ATS ∧ c.gridPresent = true
      ∧ c.gridRestoreTime = 0)) :
    (stateMachine i c).eventLog = c.eventLog
      ∧ (stateMachine i c).eventLogIndex = c.eventLogIndex
      ∧ (stateMachine i c).serial = c.serial := by
  revert hstate
  cases hc : c.currentState <;> rw [hc] at hpo hcr hwa hwi <;>
    simp only [stateMachine, hc, caseIdle, caseGridLossDetected, caseStartPowerOn,
      caseStartChokeOn, caseStartCranking, caseStartChokeOff, caseCheckRunning,
      caseRunningWaitAts, caseRunningWithAts, caseGridRestoredWait, caseCoolingDown,
      caseShuttingDown]
  all_goals try split_ifs
  all_goals simp_all
  all_goals omega

theorem tick_gridPresent (s : Controller) (i : Inputs) :
    (tick s i).gridPresent = (sensed s i).gridPresent := by
  rw [tick_eq, stateMachine_gridPresent]

theorem tick_generatorConfirmed (s : Controller) (i : Inputs) :
    (tick s i).generatorConfirmed = (sensed s i).generatorConfirmed := by
  rw [tick_eq, stateMachine_generatorConfirmed]
theorem usub_self (a : Nat) : usub a a = 0 := by
  simp only [usub, ULONG_SIZE]
  omega

theorem now_lt (i : Inputs) : i.now < ULONG_SIZE := by
  simp only [Inputs.now, ULONG_SIZE]
  omega

theorem usub_of_le (a b : Nat) (ha : a < ULONG_SIZE) (hb : b ≤ a) : usub a b = a - b := by
  simp only [usub, ULONG_SIZE] at *
  omega

theorem alongRun_append (P : Controller → Inputs → Prop) (s : Controller)
    (xs ys : List Inputs) :
    AlongRun P s (xs ++ ys) ↔ AlongRun P s xs ∧ AlongRun P (run s xs) ys := by
  induction xs generalizing s with
  | nil => simp [AlongRun, run_nil]
  | cons x xs ih => simp [AlongRun, run_cons, ih, and_assoc]

/-- The tick taken in `RUNNING_WITH_ATS` (lines 413-437). -/
theorem withAts_tick (s : Controller) (i : Inputs)
    (hs : s.currentState = .RUNNING_WITH_ATS) :
    ((sensed s i).gridPresent = false → (tick s i).gridRestoreTime = 0)
      ∧ ((sensed s i).gridPresent = true →
        (tick s i).gridRestoreTime
          = if s.gridRestoreTime = 0 then i.now else s.gridRestoreTime)
      ∧ ((tick s i).currentState = .RUNNING_WITH_ATS
        ∨ (tick s i).currentState = .COOLING_DOWN
        ∨ (tick s i).currentState = .SHUTTING_DOWN)
      ∧ ((tick s i).currentState = .COOLING_DOWN →
        usub i.now s.stateStartTime ≥ generatorRunTime
          ∨ ((sensed s i).gridPresent = true
            ∧ usub i.now (tick s i).gridRestoreTime ≥ shutdownDelayTime)) := by
  have hc := sensed_currentState s i
  have ht := sensed_stateStartTime s i
  have hm := sensed_now s i
  have hr := sensed_gridRestoreTime s i
  rw [tick_eq]
  generalize sensed s i = c at *
  rw [hs] at hc
  simp only [stateMachine, hc, caseRunningWithAts]
  split_ifs <;> simp_all

/-- A tick taken outside `RUNNING_WITH_ATS` enters it only from `RUNNING_WAIT_ATS`, and
leaves `gridRestoreTime` as it is or clears it. -/
theorem restoreTime_tick (s : Controller) (i : Inputs)
    (hs : s.currentState ≠ .RUNNING_WITH_ATS) :
    ((tick s i).currentState = .RUNNING_WITH_ATS →
        s.currentState = .RUNNING_WAIT_ATS ∧ (tick s i).gridRestoreTime = s.gridRestoreTime)
      ∧ ((tick s i).currentState ≠ .RUNNING_WITH_ATS →
        (tick s i).currentState ≠ .COOLING_DOWN →
        (tick s i).currentState ≠ .SHUTTING_DOWN →
        (tick s i).gridRestoreTime = 0 ∨ ((tick s i).gridRestoreTime = s.gridRestoreTime
          ∧ s.currentState ≠ .COOLING_DOWN ∧ s.currentState ≠ .SHUTTING_DOWN)) := by
  have hc := sensed_currentState s i
  have hr := sensed_gridRestoreTime s i
  rw [tick_eq]
  generalize sensed s i = c at *
  cases hcs : s.currentState <;> rw [hcs] at hc hs <;>
    simp only [stateMachine, hc, caseIdle, caseGridLossDetected, caseStartPowerOn,
      caseStartChokeOn, caseStartCranking, caseStartChokeOff, caseCheckRunning,
      caseRunningWaitAts, caseRunningWithAts, caseGridRestoredWait, caseCoolingDown,
      caseShuttingDown]
  all_goals try split_ifs
  all_goals simp_all

theorem restoreInv_tick (s : Controller) (i : Inputs) (h : RestoreInv s) :
    RestoreInv (tick s i) := by
  intro h1 h2 h3
  by_cases hs : s.currentState = .RUNNING_WITH_ATS
  · obtain ⟨_, _, h4, _⟩ := withAts_tick s i hs
    rcases h4 with h4 | h4 | h4
    · exact absurd h4 h1
    · exact absurd h4 h2
    · exact absurd h4 h3
  · obtain ⟨_, k⟩ := restoreTime_tick s i hs
    rcases k h1 h2 h3 with k | ⟨k1, k2, k3⟩
    · exact k
    · rw [k1]; exact h hs k2 k3

theorem reachable_restoreInv (s : Controller) (h : Reachable s) : RestoreInv s := by
  induction h with
  | init i => intro _ _ _; rfl
  | step s i _ ih => exact restoreInv_tick s i ih

/-- In `RUNNING_WITH_ATS`, a set `gridRestoreTime` is the time of an earlier tick of the
run, taken in `RUNNING_WITH_ATS` with the grid present, as all the ticks since. -/
theorem latch_history (i0 : Inputs) (is : List Inputs)
    (hs : (run (initial i0) is).currentState = .RUNNING_WITH_ATS)
    (hr : (run (initial i0) is).gridRestoreTime ≠ 0) :
    ∃ (pre : List Inputs) (ij : Inputs) (mid : List Inputs),
      is = pre ++ ij :: mid ∧ (run (initial i0) is).gridRestoreTime = ij.now
        ∧ AlongRun (fun c k => c.currentState = .RUNNING_WITH_ATS
            ∧ (sensed c k).gridPresent = true) (run (initial i0) pre) (ij :: mid) := by
  induction is using List.reverseRecOn with
  | nil => exact absurd rfl hr
  | append_singleton is i ih =>
    rw [run_append] at hs hr
    simp only [run_cons, run_nil] at hs hr
    rw [run_append]
    simp only [run_cons, run_nil]
    by_cases hst : (run (initial i0) is).currentState = .RUNNING_WITH_ATS
    · obtain ⟨w1, w2, _, _⟩ := withAts_tick (run (initial i0) is) i hst
      cases hg : (sensed (run (initial i0) is) i).gridPresent
      · exact absurd (w1 hg) hr
      · have w := w2 hg
        by_cases h0 : (run (initial i0) is).gridRestoreTime = 0
        · rw [if_pos h0] at w
          exact ⟨is, i, [], rfl, w, ⟨hst, hg⟩, trivial⟩
        · rw [if_neg h0] at w
          obtain ⟨pre, ij, mid, e1, e2, e3⟩ := ih hst h0
          refine ⟨pre, ij, mid ++ [i], by rw [e1]; simp, by rw [w, e2], ?_⟩
          have : ij :: (mid ++ [i]) = (ij :: mid) ++ [i] := rfl
          rw [this, alongRun_append]
          refine ⟨e3, ?_⟩
          rw [← run_append, ← e1]
          exact ⟨⟨hst, hg⟩, trivial⟩
    · obtain ⟨k, _⟩ := restoreTime_tick (run (initial i0) is) i hst
      obtain ⟨k1, k2⟩ := k hs
      have := reachable_restoreInv _ (reachable_run (initial i0) is (Reachable.init i0))
        hst (by rw [k1]; decide) (by rw [k1]; decide)
      rw [k2] at hr
      exact absurd this hr

theorem recordAll_snoc (i : Inputs) (es : List (List Char)) (e : List Char) (s : Controller) :
    recordAll i (es ++ [e]) s = logEvent i e (recordAll i es s) := by
  simp [recordAll, List.foldl_append]

/-- The circular buffer after `n` records into an empty log: the write index is `n mod 10`
and the slot `k` places after it holds record `n + k - 10`, cut to 49 characters, or is
empty if there is no such record. -/
theorem recordAll_buffer (i : Inputs) (s : Controller) (es : List (List Char))
    (hlog : s.eventLog = List.replicate 10 []) (hidx : s.eventLogIndex = 0) :
    (recordAll i es s).eventLog.length = 10
      ∧ (recordAll i es s).eventLogIndex = es.length % 10
      ∧ ∀ k < 10, (recordAll i es s).eventLog.getD ((es.length + k) % 10) []
          = if es.length + k < 10 then []
            else (es.getD (es.length + k - 10) []).take 49 := by
  induction es using List.reverseRecOn with
  | nil =>
    refine ⟨by simp [recordAll, hlog], by simp [recordAll, hidx], ?_⟩
    intro k hk
    simp only [recordAll, List.foldl_nil, hlog, List.length_nil, Nat.zero_add]
    rw [Nat.mod_eq_of_lt hk, if_pos hk]
    interval_cases k <;> rfl
  | append_singleton es e ih =>
    obtain ⟨hlen, hix, hslots⟩ := ih
    rw [recordAll_snoc]
    refine ⟨by simp [hlen], by simp [hix], ?_⟩
    intro k hk
    simp only [logEvent_eventLog, List.length_append, List.length_singleton, hix]
    rw [List.getD_eq_getElem?_getD, List.getElem?_set, hlen]
    by_cases h9 : k = 9
    · subst h9
      have e1 : es.length % 10 = (es.length + 1 + 9) % 10 := by omega
      rw [if_pos e1, if_pos (Nat.mod_lt _ (by decide)), if_neg (by omega)]
      have e2 : es.length + 1 + 9 - 10 = es.length := by omega
      rw [e2, List.getD_eq_getElem?_getD, List.getElem?_append_right (le_refl _)]
      simp
    · have hk1 : k + 1 < 10 := by omega
      have e1 : ¬ es.length % 10 = (es.length + 1 + k) % 10 := by omega
      rw [if_neg e1]
      have := hslots (k + 1) hk1
      rw [List.getD_eq_getElem?_getD] at this
      have e2 : es.length + 1 + k = es.length + (k + 1) := by omega
      rw [e2, this]
      by_cases hlt : es.length + (k + 1) < 10
      · rw [if_pos hlt, if_pos hlt]
      · rw [if_neg hlt, if_neg hlt, List.getD_eq_getElem?_getD, List.getD_eq_getElem?_getD,
          List.getElem?_append_left (by omega)]

theorem tick_gridDebouncer (s : Controller) (i : Inputs) :
    gridDebouncer (tick s i) = (gridDebouncer s).observe (!i.gridCheckIn) i.now := by
  rw [tick_eq]
  simp only [gridDebouncer, stateMachine_lastGridState, stateMachine_lastGridDebounceTime,
    stateMachine_gridStateStable, stateMachine_gridPresent]
  rw [sensed_eq]
  simp only [periodicLog_lastGridState, periodicLog_lastGridDebounceTime,
    periodicLog_gridStateStable, periodicLog_gridPresent, updateTrusted_lastGridState,
    updateTrusted_lastGridDebounceTime, updateTrusted_gridStateStable,
    updateTrusted_gridPresent, debounceGen_lastGridState, debounceGen_lastGridDebounceTime,
    debounceGen_gridStateStable, debounceGen_gridPresent, debounceGrid_gridPresent]
  simp only [debounceGrid, Debouncer.observe, beginPass]
  split_ifs <;> simp_all

theorem tick_genDebouncer (s : Controller) (i : Inputs) :
    genDebouncer (tick s i) = (genDebouncer s).observe (!i.genCheckIn) i.now := by
  rw [tick_eq]
  simp only [genDebouncer, stateMachine_lastGenState, stateMachine_lastGenDebounceTime,
    stateMachine_genStateStable, stateMachine_generatorConfirmed]
  rw [sensed_eq]
  simp only [periodicLog_lastGenState, periodicLog_lastGenDebounceTime,
    periodicLog_genStateStable, periodicLog_generatorConfirmed, updateTrusted_lastGenState,
    updateTrusted_lastGenDebounceTime, updateTrusted_genStateStable,
    updateTrusted_generatorConfirmed]
  simp only [debounceGen, Debouncer.observe, debounceGrid_lastGenState,
    debounceGrid_lastGenDebounceTime, debounceGrid_genStateStable,
    debounceGrid_generatorConfirmed, debounceGrid_currentMillis, beginPass]
  split_ifs <;> simp_all

/-- One step of a debounce, by cases on whether the reading differs from the last one. -/
theorem observe_spec (d : Debouncer) (r : Bool) (t : Nat) :
    (d.observe r t).lastReading = r
      ∧ ((d.observe r t).stable = true → (d.observe r t).trusted = r)
      ∧ ((d.observe r t).stable = false → (d.observe r t).trusted = d.trusted)
      ∧ (r ≠ d.lastReading →
          (d.observe r t).lastChangeTime = t ∧ (d.observe r t).stable = false)
      ∧ (r = d.lastReading →
          (d.observe r t).lastChangeTime = d.lastChangeTime
            ∧ ((d.observe r t).stable = true ↔
                d.stable = true ∨ usub t d.lastChangeTime > debounceDelay)) := by
  have h0 := usub_self t
  simp only [Debouncer.observe]
  split_ifs <;> simp_all

/-- A tick of a run satisfies the predicate that holds along the run. -/
theorem alongRun_at (P : Controller → Inputs → Prop) (s : Controller)
    (xs : List Inputs) (x : Inputs) (ys : List Inputs)
    (h : AlongRun P s (xs ++ x :: ys)) : P (run s xs) x := by
  rw [alongRun_append] at h
  exact h.2.1

theorem pairwise_pick {α : Type} (R : α → α → Prop) (xs : List α) (x : α) (ys : List α)
    (h : List.Pairwise R (xs ++ x :: ys)) : ∀ y ∈ ys, R x y := by
  rw [List.pairwise_append] at h
  exact (List.pairwise_cons.mp h.2.1).1

section History
variable (deb : Controller → Debouncer) (rd : Inputs → Bool)
  (hstep : ∀ s i, deb (tick s i) = (deb s).observe (rd i) i.now)
include hstep

/-- While the last reading differs from the trusted value, the time of the last change is
the time of a tick of the run, since which every reading has been the last reading and no
tick has changed the trusted value. -/
theorem pending_history (s0 : Controller)
    (h0 : (deb s0).lastReading = (deb s0).trusted) (is : List Inputs) :
    ((deb (run s0 is)).stable = true →
        (deb (run s0 is)).trusted = (deb (run s0 is)).lastReading)
      ∧ ((deb (run s0 is)).lastReading ≠ (deb (run s0 is)).trusted →
        ∃ (pre : List Inputs) (ij : Inputs) (mid : List Inputs),
          is = pre ++ ij :: mid ∧ (deb (run s0 is)).lastChangeTime = ij.now
            ∧ AlongRun (fun c x => rd x = (deb (run s0 is)).lastReading
                ∧ (deb (tick c x)).trusted = (deb c).trusted) (run s0 pre) (ij :: mid)) := by
  induction is using List.reverseRecOn with
  | nil =>
    simp only [run_nil]
    exact ⟨fun _ => h0.symm, fun h => absurd h0 h⟩
  | append_singleton is i ih =>
    have hrun : run s0 (is ++ [i]) = tick (run s0 is) i := by
      rw [run_append]; rfl
    rw [hrun]
    obtain ⟨o1, o2, o3, o4, o5⟩ := observe_spec (deb (run s0 is)) (rd i) i.now
    rw [← hstep] at o1 o2 o3 o4 o5
    refine ⟨fun h => by rw [o2 h, o1], ?_⟩
    intro hne
    rw [o1] at hne ⊢
    have hst : (deb (tick (run s0 is) i)).stable = false := by
      cases hb : (deb (tick (run s0 is) i)).stable
      · rfl
      · exact absurd (o2 hb).symm hne
    have htr := o3 hst
    by_cases hr : rd i = (deb (run s0 is)).lastReading
    · have hne2 : (deb (run s0 is)).lastReading ≠ (deb (run s0 is)).trusted := by
        rw [← hr, ← htr]; exact hne
      obtain ⟨pre, ij, mid, e1, e2, e3⟩ := ih.2 hne2
      refine ⟨pre, ij, mid ++ [i], by rw [e1]; simp, by rw [(o5 hr).1, e2], ?_⟩
      have : ij :: (mid ++ [i]) = (ij :: mid) ++ [i] := rfl
      rw [this, alongRun_append]
      rw [← hr] at e3
      refine ⟨e3, ?_⟩
      rw [← run_append, ← e1]
      exact ⟨⟨rfl, htr⟩, trivial⟩
    · exact ⟨is, i, [], rfl, (o4 hr).1, ⟨rfl, htr⟩, trivial⟩

/-- A tick changes the trusted value only to the reading of that tick, and only if an
earlier tick `ij` of the run read the same value, every tick since did and left the trusted
value alone, and more than 50 ms lie between `ij` and the tick. -/
theorem change_needs_quiet (s0 : Controller)
    (h0 : (deb s0).lastReading = (deb s0).trusted) (is : List Inputs) (ik : Inputs)
    (hch : (deb (tick (run s0 is) ik)).trusted ≠ (deb (run s0 is)).trusted) :
    rd ik = (deb (tick (run s0 is) ik)).trusted
      ∧ ∃ (pre : List Inputs) (ij : Inputs) (mid : List Inputs),
          is = pre ++ ij :: mid ∧ usub ik.now ij.now > 50
            ∧ AlongRun (fun c x => rd x = (deb (tick (run s0 is) ik)).trusted
                ∧ (deb (tick c x)).trusted = (deb c).trusted) (run s0 pre) (ij :: mid) := by
  obtain ⟨o1, o2, o3, o4, o5⟩ := observe_spec (deb (run s0 is)) (rd ik) ik.now
  rw [← hstep] at o1 o2 o3 o4 o5
  obtain ⟨p1, p2⟩ := pending_history deb rd hstep s0 h0 is
  have hst : (deb (tick (run s0 is) ik)).stable = true := by
    cases hb : (deb (tick (run s0 is) ik)).stable
    · exact absurd (o3 hb) hch
    · rfl
  have htr := o2 hst
  have hr : rd ik = (deb (run s0 is)).lastReading := by
    by_contra hr
    rw [(o4 hr).2] at hst
    cases hst
  have hne : (deb (run s0 is)).lastReading ≠ (deb (run s0 is)).trusted := by
    rw [← hr, ← htr]; exact hch
  have hns : (deb (run s0 is)).stable = false := by
    cases hb : (deb (run s0 is)).stable
    · rfl
    · exact absurd (p1 hb).symm hne
  obtain ⟨pre, ij, mid, e1, e2, e3⟩ := p2 hne
  refine ⟨htr.symm, pre, ij, mid, e1, ?_, ?_⟩
  · have := (o5 hr).2.mp hst
    rw [hns, e2] at this
    simpa using this
  · rw [htr, hr]; exact e3

/-- Two ticks that change the trusted value are more than 50 ms apart, when the clock
values of the ticks are non-decreasing. -/
theorem changes_apart (s0 : Controller)
    (h0 : (deb s0).lastReading = (deb s0).trusted)
    (pre1 : List Inputs) (ik1 : Inputs) (rest : List Inputs) (ik : Inputs)
    (hmono : List.Pairwise (fun a b => a.now ≤ b.now) (pre1 ++ ik1 :: rest ++ [ik]))
    (hch1 : (deb (tick (run s0 pre1) ik1)).trusted ≠ (deb (run s0 pre1)).trusted)
    (hch : (deb (tick (run s0 (pre1 ++ ik1 :: rest)) ik)).trusted
      ≠ (deb (run s0 (pre1 ++ ik1 :: rest))).trusted) :
    ik1.now + 50 < ik.now := by
  obtain ⟨_, pre, ij, mid, e1, e2, e3⟩ :=
    change_needs_quiet deb rd hstep s0 h0 (pre1 ++ ik1 :: rest) ik hch
  rw [e1] at hmono
  rw [List.append_eq_append_iff] at e1
  rcases e1 with ⟨a, ea, eb⟩ | ⟨c, ec, ed⟩
  · -- `pre = pre1 ++ a`
    cases a with
    | nil =>
      simp only [List.nil_append, List.cons.injEq] at eb
      simp only [List.append_nil] at ea
      obtain ⟨rfl, _⟩ := eb
      rw [ea] at e3
      exact absurd e3.1.2 hch1
    | cons x a =>
      simp only [List.cons_append, List.cons.injEq] at eb
      obtain ⟨rfl, _⟩ := eb
      rw [ea] at hmono
      have h1 : ik1.now ≤ ij.now := by
        have e : (pre1 ++ ik1 :: a) ++ ij :: mid ++ [ik]
            = pre1 ++ ik1 :: (a ++ ij :: (mid ++ [ik])) := by simp
        rw [e] at hmono
        exact pairwise_pick _ _ _ _ hmono ij (by simp)
      have h2 : ij.now ≤ ik.now := by
        have e : (pre1 ++ ik1 :: a) ++ ij :: mid ++ [ik]
            = (pre1 ++ ik1 :: a) ++ ij :: (mid ++ [ik]) := by simp
        rw [e] at hmono
        exact pairwise_pick _ _ _ _ hmono ik (by simp)
      rw [usub_of_le _ _ (now_lt ik) h2] at e2
      omega
  · -- `pre1 = pre ++ c`: the first change lies in the quiet window
    rw [ed] at e3
    have := alongRun_at _ _ _ _ _ e3
    rw [← run_append, ← ec] at this
    exact absurd this.2 hch1

/-- The time of the last change is the one the run started with or the time of one of its
ticks. -/
theorem changeTime_origin (s0 : Controller) (is : List Inputs) :
    (deb (run s0 is)).lastChangeTime = (deb s0).lastChangeTime
      ∨ ∃ x ∈ is, (deb (run s0 is)).lastChangeTime = x.now := by
  induction is using List.reverseRecOn with
  | nil => exact Or.inl rfl
  | append_singleton is i ih =>
    have hrun : run s0 (is ++ [i]) = tick (run s0 is) i := by
      rw [run_append]; rfl
    rw [hrun]
    obtain ⟨_, _, _, o4, o5⟩ := observe_spec (deb (run s0 is)) (rd i) i.now
    rw [← hstep] at o4 o5
    by_cases hr : rd i = (deb (run s0 is)).lastReading
    · rw [(o5 hr).1]
      rcases ih with ih | ⟨x, hx, ih⟩
      · exact Or.inl ih
      · exact Or.inr ⟨x, by simp [hx], ih⟩
    · exact Or.inr ⟨i, by simp, (o4 hr).1⟩

/-- Ticks that read the last reading again leave it and the time of its last change. -/
theorem quiet_run (v : Bool) (xs : List Inputs) (s : Controller)
    (hall : ∀ x ∈ xs, rd x = v) (hl : (deb s).lastReading = v) :
    (deb (run s xs)).lastReading = v
      ∧ (deb (run s xs)).lastChangeTime = (deb s).lastChangeTime := by
  induction xs generalizing s with
  | nil => exact ⟨hl, rfl⟩
  | cons x xs ih =>
    rw [run_cons]
    obtain ⟨o1, _, _, _, o5⟩ := observe_spec (deb s) (rd x) x.now
    rw [← hstep] at o1 o5
    have hx : rd x = v := hall x (by simp)
    obtain ⟨a, b⟩ := ih (tick s x) (fun y hy => hall y (by simp [hy])) (by rw [o1, hx])
    exact ⟨a, by rw [b, (o5 (by rw [hx, hl])).1]⟩

/-- A reading held from a tick `ij` to a tick `ik` more than 50 ms later is adopted: after
`ik` the debounce is stable and the trusted value is that reading, when the clock values of
the ticks are non-decreasing and the run starts with the time of the last change at 0. -/
theorem quiet_adopted (s0 : Controller) (h0 : (deb s0).lastChangeTime = 0)
    (pre : List Inputs) (ij : Inputs) (mid : List Inputs) (ik : Inputs) (v : Bool)
    (hmono : List.Pairwise (fun a b => a.now ≤ b.now) (pre ++ ij :: mid ++ [ik]))
    (hgap : ij.now + 50 < ik.now)
    (hv : ∀ x ∈ ij :: mid ++ [ik], rd x = v) :
    (deb (run s0 (pre ++ ij :: mid ++ [ik]))).stable = true
      ∧ (deb (run s0 (pre ++ ij :: mid ++ [ik]))).trusted = v := by
  have hrun : run s0 (pre ++ ij :: mid ++ [ik])
      = tick (run (tick (run s0 pre) ij) mid) ik := by
    rw [run_append, run_append, run_cons]; rfl
  rw [hrun]
  -- the time of the last change before `ij` is not later than `ij`
  have hT1 : (deb (run s0 pre)).lastChangeTime ≤ ij.now := by
    rcases changeTime_origin deb rd hstep s0 pre with h | ⟨x, hx, h⟩
    · rw [h, h0]; exact Nat.zero_le _
    · rw [h]
      have e : pre ++ ij :: mid ++ [ik] = pre ++ ij :: (mid ++ [ik]) := by simp
      rw [e, List.pairwise_append] at hmono
      exact hmono.2.2 x hx ij (by simp)
  obtain ⟨a1, _, _, a4, a5⟩ := observe_spec (deb (run s0 pre)) (rd ij) ij.now
  rw [← hstep] at a1 a4 a5
  have hij : rd ij = v := hv ij (by simp)
  have hT2 : (deb (tick (run s0 pre) ij)).lastChangeTime ≤ ij.now := by
    by_cases hr : rd ij = (deb (run s0 pre)).lastReading
    · rw [(a5 hr).1]; exact hT1
    · rw [(a4 hr).1]
  obtain ⟨b1, b2⟩ := quiet_run deb rd hstep v mid (tick (run s0 pre) ij)
    (fun y hy => hv y (by simp [hy])) (by rw [a1, hij])
  obtain ⟨_, c2, _, _, c5⟩ := observe_spec (deb (run (tick (run s0 pre) ij) mid)) (rd ik)
    ik.now
  rw [← hstep] at c2 c5
  have hik : rd ik = v := hv ik (by simp)
  have hst : (deb (tick (run (tick (run s0 pre) ij) mid) ik)).stable = true := by
    rw [(c5 (by rw [hik, b1])).2]
    right
    rw [b2, usub_of_le _ _ (now_lt ik) (by omega)]
    simp only [debounceDelay]
    omega
  exact ⟨hst, by rw [c2 hst, hik]⟩

end History

/-- With the clock standing still at `t` during the tick, a state entered by the tick is
entered at `t`. -/
theorem entered_at (s : Controller) (i : Inputs) (t : Nat) (hclk : ∀ k, i.clock k = t)
    (h : (tick s i).currentState ≠ s.currentState) :
    (tick s i).stateStartTime = t % ULONG_SIZE := by
  have hc := sensed_currentState s i
  rw [tick_eq] at *
  generalize sensed s i = c at *
  revert h
  cases hcs : s.currentState <;> rw [hcs] at hc <;>
    simp only [stateMachine, hc, caseIdle, caseGridLossDetected, caseStartPowerOn,
      caseStartChokeOn, caseStartCranking, caseStartChokeOff, caseCheckRunning,
      caseRunningWaitAts, caseRunningWithAts, caseGridRestoredWait, caseCoolingDown,
      caseShuttingDown]
  all_goals try split_ifs
  all_goals simp_all [millis]

theorem initial_debouncers (i0 : Inputs) :
    gridDebouncer (initial i0) = ⟨false, 0, false, false⟩
      ∧ genDebouncer (initial i0) = ⟨false, 0, false, false⟩
      ∧ (initial i0).currentState = .IDLE ∧ (initial i0).gridWasLost = false
      ∧ (initial i0).startAttempts = 0 := by
  simp [gridDebouncer, genDebouncer, initial, setup, boot]

theorem now_gridAbsentAt (t : Nat) (p : Bool) (a g : Int) (f : Int → List Char) :
    (gridAbsentAt t p a g f).now = t % ULONG_SIZE := rfl

theorem gridCheckIn_gridAbsentAt (t : Nat) (p : Bool) (a g : Int) (f : Int → List Char) :
    (gridAbsentAt t p a g f).gridCheckIn = true := rfl

theorem genCheckIn_gridAbsentAt (t : Nat) (p : Bool) (a g : Int) (f : Int → List Char) :
    (gridAbsentAt t p a g f).genCheckIn = p := rfl

theorem gridDebouncer_trusted (s : Controller) : (gridDebouncer s).trusted = s.gridPresent :=
  rfl

theorem genDebouncer_trusted (s : Controller) :
    (genDebouncer s).trusted = s.generatorConfirmed := rfl

/-- Outside `CHECK_RUNNING` and `SHUTTING_DOWN` a tick leaves `generatorRunning` alone. -/
theorem generatorRunning_tick (s : Controller) (i : Inputs)
    (h1 : s.currentState ≠ .CHECK_RUNNING) (h2 : s.currentState ≠ .SHUTTING_DOWN) :
    (tick s i).generatorRunning = s.generatorRunning := by
  have hc := sensed_currentState s i
  have hr := sensed_generatorRunning s i
  rw [tick_eq]
  generalize sensed s i = c at *
  cases hcs : s.currentState <;> rw [hcs] at hc h1 h2 <;>
    simp only [stateMachine, hc, caseIdle, caseGridLossDetected, caseStartPowerOn,
      caseStartChokeOn, caseStartCranking, caseStartChokeOff, caseCheckRunning,
      caseRunningWaitAts, caseRunningWithAts, caseGridRestoredWait, caseCoolingDown,
      caseShuttingDown]
  all_goals try split_ifs
  all_goals simp_all

/-- A tick taken in `IDLE` leaves `startAttempts` alone. -/
theorem startAttempts_idle (s : Controller) (i : Inputs) (hs : s.currentState = .IDLE) :
    (tick s i).startAttempts = s.startAttempts := by
  have hc := sensed_currentState s i
  have ha := sensed_startAttempts s i
  rw [tick_eq]
  generalize sensed s i = c at *
  rw [hs] at hc
  simp only [stateMachine, hc, caseIdle]
  split_ifs <;> simp_all

set_option maxRecDepth 100000

/-! ## The claims -/

/-- C1: the code at the failing input.  After `stopAtEngageSchedule` the controller is in
`RUNNING_WAIT_ATS` with the ATS released; at the tick at 435501 ms the debounced generator
value is false after the sensor refresh, and yet the tick writes the ATS relay HIGH and sets
`atsEngaged` before it moves to `SHUTTING_DOWN`; the relay is still HIGH and `atsEngaged`
still set when the next tick has returned the controller to `IDLE`. -/
theorem ats_engaged_on_stopped_generator :
    (run (initial powerUp) stopAtEngageSchedule).currentState = .RUNNING_WAIT_ATS
      ∧ (run (initial powerUp) stopAtEngageSchedule).atsEngaged = false
      ∧ (run (initial powerUp) stopAtEngageSchedule).atsRelay = false
      ∧ (sensed (run (initial powerUp) stopAtEngageSchedule)
          (inputsAt 435501 true true 500)).generatorConfirmed = false
      ∧ (Pin.atsRelayPin, true) ∈ (tick (run (initial powerUp) stopAtEngageSchedule)
          (inputsAt 435501 true true 500)).writes
      ∧ (tick (run (initial powerUp) stopAtEngageSchedule)
          (inputsAt 435501 true true 500)).atsEngaged = true
      ∧ (tick (run (initial powerUp) stopAtEngageSchedule)
          (inputsAt 435501 true true 500)).currentState = .SHUTTING_DOWN
      ∧ (run (initial powerUp) (stopAtEngageSchedule ++ [inputsAt 435501 true true 500,
          inputsAt 435502 true true 500])).currentState = .IDLE
      ∧ (run (initial powerUp) (stopAtEngageSchedule ++ [inputsAt 435501 true true 500,
          inputsAt 435502 true true 500])).atsRelay = true
      ∧ (run (initial powerUp) (stopAtEngageSchedule ++ [inputsAt 435501 true true 500,
          inputsAt 435502 true true 500])).atsEngaged = true := by
  decide

/-- C2: a tick taken in `RUNNING_WAIT_ATS` or in `RUNNING_WITH_ATS` at which the debounced
generator value is false after the sensor refresh ends in `SHUTTING_DOWN`, whatever the
clock, the voltage, the grid value and `gridRestoreTime` are. -/
theorem abort_on_generator_stop (s : Controller) (i : Inputs)
    (hs : s.currentState = .RUNNING_WAIT_ATS ∨ s.currentState = .RUNNING_WITH_ATS)
    (hg : (sensed s i).generatorConfirmed = false) :
    (tick s i).currentState = .SHUTTING_DOWN := by
  have hc := sensed_currentState s i
  rw [tick_eq]
  generalize sensed s i = c at hg hc
  rcases hs with hs | hs
  · simp only [stateMachine, hc, hs, caseRunningWaitAts]
    split_ifs <;> simp_all
  · simp only [stateMachine, hc, hs, caseRunningWithAts]
    split_ifs <;> simp_all

/-- Witness of C2: after `engagedSchedule` the controller is in `RUNNING_WITH_ATS`; at the
tick at 500051 ms the generator is debounced as stopped and the tick ends in
`SHUTTING_DOWN`. -/
theorem abort_on_generator_stop_witness :
    (run (initial powerUp) engagedSchedule).currentState = .RUNNING_WITH_ATS
      ∧ (sensed (run (initial powerUp) engagedSchedule)
          (inputsAt 500051 true true 500)).generatorConfirmed = false
      ∧ (tick (run (initial powerUp) engagedSchedule)
          (inputsAt 500051 true true 500)).currentState = .SHUTTING_DOWN :=
  ⟨by decide, by decide,
    abort_on_generator_stop (run (initial powerUp) engagedSchedule)
      (inputsAt 500051 true true 500) (Or.inr (by decide)) (by decide)⟩

/-- C3: a tick writes the ATS relay HIGH, or sets `atsEngaged`, only if it is taken in
`RUNNING_WAIT_ATS`, at least 120000 ms after `stateStartTime`, with the generator voltage
sampled in that tick at least 210 V (a raw ADC value of at least 452). -/
theorem ats_engage_only_with_voltage (s : Controller) (i : Inputs)
    (h : (Pin.atsRelayPin, true) ∈ (tick s i).writes
      ∨ (s.atsEngaged = false ∧ (tick s i).atsEngaged = true)) :
    s.currentState = .RUNNING_WAIT_ATS
      ∧ usub i.now s.stateStartTime ≥ atsDelayTime
      ∧ readVoltage i.genVoltageRaw ≥ minGenVoltage
      ∧ i.genVoltageRaw ≥ 452 := by
  have hc := sensed_currentState s i
  have hw := sensed_writes s i
  have ht := sensed_stateStartTime s i
  have hm := sensed_now s i
  have hv := sensed_genVoltage s i
  have ha := sensed_atsEngaged s i
  rw [← readVoltage_ge_iff, and_self]
  rw [tick_eq] at h
  generalize sensed s i = c at *
  cases hcs : s.currentState <;> rw [hcs] at hc <;>
    simp only [stateMachine, hc, caseIdle, caseGridLossDetected, caseStartPowerOn,
      caseStartChokeOn, caseStartCranking, caseStartChokeOff, caseCheckRunning,
      caseRunningWaitAts, caseRunningWithAts, caseGridRestoredWait, caseCoolingDown,
      caseShuttingDown] at h
  all_goals try split_ifs at h
  all_goals simp_all

/-- Witness of C3: after `waitAtsSchedule` the tick at 435500 ms writes the ATS relay
HIGH; it is taken in `RUNNING_WAIT_ATS`, 120000 ms after the state was entered, with the
ADC reading 500. -/
theorem ats_engage_only_with_voltage_witness :
    (Pin.atsRelayPin, true) ∈ (tick (run (initial powerUp) waitAtsSchedule)
        (inputsAt 435500 true false 500)).writes
      ∧ (run (initial powerUp) waitAtsSchedule).currentState = .RUNNING_WAIT_ATS
      ∧ usub (inputsAt 435500 true false 500).now
          (run (initial powerUp) waitAtsSchedule).stateStartTime ≥ atsDelayTime
      ∧ readVoltage (inputsAt 435500 true false 500).genVoltageRaw ≥ minGenVoltage
      ∧ (inputsAt 435500 true false 500).genVoltageRaw ≥ 452 :=
  ⟨by decide,
    ats_engage_only_with_voltage (run (initial powerUp) waitAtsSchedule)
      (inputsAt 435500 true false 500) (Or.inl (by decide))⟩

/-- C4: the code at the failing input.  Along `fastPollSchedule` the generator is never
confirmed; `CHECK_RUNNING` is entered at 310500 ms and polled at 315500, 315501 and
315502 ms; each of these ticks counts as a failed start, so the controller is in
`SHUTTING_DOWN` after the third with `startAttempts = 3`, having entered `START_POWER_ON`
once, and no state of the run is a retry. -/
theorem shutdown_after_single_start :
    AlongRun (fun c k => (sensed c k).generatorConfirmed = false) (initial powerUp)
        fastPollSchedule
      ∧ (run (initial powerUp) (fastPollSchedule.take 6)).currentState = .CHECK_RUNNING
      ∧ (run (initial powerUp) (fastPollSchedule.take 6)).stateStartTime = 310500
      ∧ (run (initial powerUp) fastPollSchedule).currentState = .SHUTTING_DOWN
      ∧ (run (initial powerUp) fastPollSchedule).startAttempts = 3
      ∧ powerOnEntries (initial powerUp) fastPollSchedule = 1 := by
  decide

/-- C5: counting from a `GRID_LOSS_DETECTED` to `START_POWER_ON` transition, along ticks at
which the generator is never confirmed, the tick that performs the third failed evaluation
of `CHECK_RUNNING` moves the controller to `SHUTTING_DOWN` with `startAttempts = 3`; no
earlier tick does, and `START_POWER_ON` has been entered at most 3 times, the first entry
included. -/
theorem no_fourth_start (g : Controller) (i : Inputs) (is : List Inputs) (j : Inputs)
    (hg : g.currentState = .GRID_LOSS_DETECTED)
    (hp : (tick g i).currentState = .START_POWER_ON)
    (hun : AlongRun (fun c k => (sensed c k).generatorConfirmed = false) (tick g i) is)
    (h2 : failedEvals (tick g i) is = 2)
    (h3 : failedEval (run (tick g i) is) j) :
    (tick (run (tick g i) is) j).currentState = .SHUTTING_DOWN
      ∧ (tick (run (tick g i) is) j).startAttempts = 3
      ∧ (∀ c ∈ statesAfter (tick g i) is, c.currentState ≠ .SHUTTING_DOWN)
      ∧ powerOnEntries g (i :: (is ++ [j])) ≤ 3 := by
  have h0 : (tick g i).startAttempts = 0 := by
    obtain ⟨a, b, c⟩ := gridLoss_tick g i hg
    by_cases hge : usub i.now g.gridLossTime ≥ gridLossWaitTime
    · exact (a hge).2
    · rw [not_le] at hge
      cases hb : (sensed g i).gridPresent
      · rw [(c hge hb).1] at hp; cases hp
      · rw [(b hge hb).1] at hp; cases hp
  have hst : (tick g i).currentState.isStart = true := by rw [hp]; rfl
  obtain ⟨a1, a2, a3, a4⟩ := startSeq_run is (tick g i) hst hun (by rw [h0, h2]; decide)
  rw [h0, h2] at a2
  obtain ⟨b1, _⟩ := startSeq_tick (run (tick g i) is) j a1 h3.2.2
  obtain ⟨c1, _, c3⟩ := b1 h3
  rw [a2] at c1 c3
  refine ⟨c3 (by decide), by rw [c1]; rfl, a4, ?_⟩
  have hne : ¬ ((run (tick g i) is).currentState ≠ .START_POWER_ON
      ∧ (tick (run (tick g i) is) j).currentState = .START_POWER_ON) := by
    rw [c3 (by decide)]; simp
  have hent : powerOnEntries (tick g i) (is ++ [j]) ≤ 2 := by
    rw [powerOnEntries_append, powerOnEntries_cons, if_neg hne]
    simp only [powerOnEntries]
    omega
  rw [powerOnEntries_cons]
  split_ifs <;> omega

/-- Witness of C5: with `CHECK_RUNNING` polled 10 s after each entry the generator is
started three times; `slowPollSchedule` holds two failed evaluations and the tick at
361500 ms is the third, which moves the controller to `SHUTTING_DOWN`. -/
theorem no_fourth_start_witness :
    failedEvals (tick (run (initial powerUp) [powerUp]) (inputsAt 300000 true true 0))
        slowPollSchedule = 2
      ∧ failedEval (run (tick (run (initial powerUp) [powerUp])
          (inputsAt 300000 true true 0)) slowPollSchedule) (inputsAt 361500 true true 0)
      ∧ (tick (run (tick (run (initial powerUp) [powerUp]) (inputsAt 300000 true true 0))
          slowPollSchedule) (inputsAt 361500 true true 0)).currentState = .SHUTTING_DOWN
      ∧ powerOnEntries (run (initial powerUp) [powerUp])
          (inputsAt 300000 true true 0 :: (slowPollSchedule ++ [inputsAt 361500 true true 0]))
          ≤ 3 :=
  ⟨by decide, by decide,
    (no_fourth_start (run (initial powerUp) [powerUp]) (inputsAt 300000 true true 0)
      slowPollSchedule (inputsAt 361500 true true 0) (by decide) (by decide) (by decide)
      (by decide) (by decide)).1,
    (no_fourth_start (run (initial powerUp) [powerUp]) (inputsAt 300000 true true 0)
      slowPollSchedule (inputsAt 361500 true true 0) (by decide) (by decide) (by decide)
      (by decide) (by decide)).2.2.2⟩

/-- C6: in every state reachable from the state after `setup()` by ticks with any clock
values and any sensor and ADC inputs, `0 <= startAttempts <= maxStartAttempts = 3`. -/
theorem startAttempts_bounded (s : Controller) (h : Reachable s) :
    0 ≤ s.startAttempts ∧ s.startAttempts ≤ maxStartAttempts ∧ maxStartAttempts = 3 := by
  obtain ⟨h0, h3, _⟩ := reachable_attemptsInv s h
  exact ⟨h0, h3, rfl⟩

/-- Witness of C6: the state after `fastPollSchedule` is reachable; its counter is 3. -/
theorem startAttempts_bounded_witness :
    Reachable (run (initial powerUp) fastPollSchedule)
      ∧ (run (initial powerUp) fastPollSchedule).startAttempts = 3
      ∧ 0 ≤ (run (initial powerUp) fastPollSchedule).startAttempts
      ∧ (run (initial powerUp) fastPollSchedule).startAttempts ≤ maxStartAttempts
      ∧ maxStartAttempts = 3 :=
  ⟨reachable_run _ _ (Reachable.init powerUp), by decide,
    startAttempts_bounded (run (initial powerUp) fastPollSchedule)
      (reachable_run _ _ (Reachable.init powerUp))⟩

/-- C7, as stated, fails: at the first tick after `setup()`, at 0 ms with the grid input
reading present, the controller leaves `IDLE` for `GRID_LOSS_DETECTED` although the grid
debounce is not stable and its reading is present. -/
theorem idle_left_before_grid_stable :
    Reachable (initial powerUp)
      ∧ (initial powerUp).currentState = .IDLE
      ∧ (tick (initial powerUp) (inputsAt 0 false true 0)).currentState
          = .GRID_LOSS_DETECTED
      ∧ (sensed (initial powerUp) (inputsAt 0 false true 0)).gridStateStable = false
      ∧ (sensed (initial powerUp) (inputsAt 0 false true 0)).lastGridState = true :=
  ⟨Reachable.init powerUp, by decide, by decide, by decide, by decide⟩

/-- C7, amended: a tick taken in `IDLE` from a reachable state moves to
`GRID_LOSS_DETECTED`, recording `gridLossTime = now` and setting `gridWasLost`, if and only
if the trusted grid value `gridPresent` after the sensor refresh of that tick is absent;
otherwise the controller stays in `IDLE`.  The trusted value is the reading held by the
grid debounce if the debounce is stable at that tick, and the value trusted before the tick
otherwise. -/
theorem idle_leaves_iff_grid_untrusted (s : Controller) (i : Inputs)
    (hr : Reachable s) (hs : s.currentState = .IDLE) :
    ((tick s i).currentState = .GRID_LOSS_DETECTED ↔ (sensed s i).gridPresent = false)
      ∧ ((tick s i).currentState = .GRID_LOSS_DETECTED →
          (tick s i).gridLossTime = i.now ∧ (tick s i).gridWasLost = true)
      ∧ ((tick s i).currentState ≠ .GRID_LOSS_DETECTED →
          (tick s i).currentState = .IDLE ∧ (tick s i).gridLossTime = s.gridLossTime
            ∧ (tick s i).gridWasLost = false)
      ∧ (sensed s i).gridPresent
          = (if (sensed s i).gridStateStable then (sensed s i).lastGridState
              else s.gridPresent) := by
  obtain ⟨h1, h2⟩ := idle_tick s i hs (reachable_idleInv s hr hs)
  refine ⟨?_, ?_, ?_, sensed_gridPresent s i⟩
  · constructor
    · intro h
      cases hb : (sensed s i).gridPresent
      · rfl
      · rw [(h2 hb).1] at h; cases h
    · exact fun hb => (h1 hb).1
  · intro h
    cases hb : (sensed s i).gridPresent
    · exact (h1 hb).2
    · rw [(h2 hb).1] at h; cases h
  · intro h
    cases hb : (sensed s i).gridPresent
    · exact absurd (h1 hb).1 h
    · exact h2 hb

/-- Witness of C7, amended: the first tick after `setup()`, with the grid input reading
absent, is taken in `IDLE` and moves to `GRID_LOSS_DETECTED`. -/
theorem idle_leaves_iff_grid_untrusted_witness :
    (initial powerUp).currentState = .IDLE
      ∧ (sensed (initial powerUp) powerUp).gridPresent = false
      ∧ (tick (initial powerUp) powerUp).currentState = .GRID_LOSS_DETECTED :=
  ⟨by decide, by decide,
    (idle_leaves_iff_grid_untrusted (initial powerUp) powerUp (Reachable.init powerUp)
      (by decide)).1.2 (by decide)⟩

/-- C8: a tick taken in `GRID_LOSS_DETECTED` ends in `START_POWER_ON`, with `startAttempts`
reset to 0, if and only if `now - gridLossTime >= 300000`; otherwise it ends in `IDLE`, with
`gridWasLost` cleared, if and only if the debounced grid value is present; otherwise the
state is unchanged.  Hence along ticks taken less than 300000 ms after the recorded loss
time with the grid absent the controller stays in `GRID_LOSS_DETECTED`, and a tick less than
300000 ms after the loss time with the grid present returns it to `IDLE`, no state of the
run being `START_POWER_ON`. -/
theorem grid_loss_window (s : Controller) (i : Inputs)
    (hs : s.currentState = .GRID_LOSS_DETECTED) :
    ((tick s i).currentState = .START_POWER_ON ↔ usub i.now s.gridLossTime ≥ 300000)
      ∧ ((tick s i).currentState = .START_POWER_ON → (tick s i).startAttempts = 0)
      ∧ (usub i.now s.gridLossTime < 300000 →
          ((tick s i).currentState = .IDLE ↔ (sensed s i).gridPresent = true))
      ∧ ((tick s i).currentState = .IDLE → (tick s i).gridWasLost = false)
      ∧ (usub i.now s.gridLossTime < 300000 → (sensed s i).gridPresent = false →
          (tick s i).currentState = .GRID_LOSS_DETECTED
            ∧ (tick s i).stateStartTime = s.stateStartTime
            ∧ (tick s i).gridLossTime = s.gridLossTime
            ∧ (tick s i).gridWasLost = s.gridWasLost
            ∧ (tick s i).startAttempts = s.startAttempts)
      ∧ (∀ (is : List Inputs) (j : Inputs),
          AlongRun (fun c k => usub k.now s.gridLossTime < 300000
            ∧ (sensed c k).gridPresent = false) s is →
          usub j.now s.gridLossTime < 300000 → (sensed (run s is) j).gridPresent = true →
          (∀ c ∈ statesAfter s is, c.currentState = .GRID_LOSS_DETECTED)
            ∧ (tick (run s is) j).currentState = .IDLE
            ∧ (tick (run s is) j).gridWasLost = false
            ∧ ∀ c ∈ statesAfter s (is ++ [j]), c.currentState ≠ .START_POWER_ON) := by
  obtain ⟨h1, h2, h3⟩ := gridLoss_tick s i hs
  simp only [gridLossWaitTime] at h1 h2 h3
  have hb : (sensed s i).gridPresent = true ∨ (sensed s i).gridPresent = false := by
    cases (sensed s i).gridPresent <;> simp
  refine ⟨?_, ?_, ?_, ?_, h3, ?_⟩
  · constructor
    · intro h
      by_contra hlt
      rw [not_le] at hlt
      rcases hb with hb | hb
      · rw [(h2 hlt hb).1] at h; cases h
      · rw [(h3 hlt hb).1] at h; cases h
    · exact fun h => (h1 h).1
  · intro h
    by_cases hge : usub i.now s.gridLossTime ≥ 300000
    · exact (h1 hge).2
    · rw [not_le] at hge
      rcases hb with hb | hb
      · rw [(h2 hge hb).1] at h; cases h
      · rw [(h3 hge hb).1] at h; cases h
  · intro hlt
    constructor
    · intro h
      rcases hb with hb | hb
      · exact hb
      · rw [(h3 hlt hb).1] at h; cases h
    · exact fun hp => (h2 hlt hp).1
  · intro h
    by_cases hge : usub i.now s.gridLossTime ≥ 300000
    · rw [(h1 hge).1] at h; cases h
    · rw [not_le] at hge
      rcases hb with hb | hb
      · exact (h2 hge hb).2
      · rw [(h3 hge hb).1] at h; cases h
  · intro is j hrun hj hp
    have H : ∀ (t : Nat) (is : List Inputs) (s : Controller),
        s.currentState = .GRID_LOSS_DETECTED → s.gridLossTime = t →
        AlongRun (fun c k => usub k.now t < 300000 ∧ (sensed c k).gridPresent = false) s is →
        (∀ c ∈ statesAfter s is, c.currentState = .GRID_LOSS_DETECTED)
          ∧ (run s is).currentState = .GRID_LOSS_DETECTED ∧ (run s is).gridLossTime = t := by
      intro t is
      induction is with
      | nil => intro s a b _; simp [statesAfter, run_nil, a, b]
      | cons k is ih =>
        intro s a b hr
        obtain ⟨⟨p1, p2⟩, hr⟩ := hr
        obtain ⟨_, _, g3⟩ := gridLoss_tick s k a
        rw [b] at g3
        obtain ⟨q1, _, q3, _⟩ := g3 p1 p2
        obtain ⟨r1, r2⟩ := ih (tick s k) q1 q3 hr
        refine ⟨?_, r2⟩
        intro c hc
        simp only [statesAfter, List.mem_cons] at hc
        rcases hc with rfl | hc
        · exact q1
        · exact r1 c hc
    obtain ⟨a1, a2, a3⟩ := H s.gridLossTime is s hs rfl hrun
    obtain ⟨_, b2, _⟩ := gridLoss_tick (run s is) j a2
    rw [a3] at b2
    obtain ⟨c1, c2⟩ := b2 hj hp
    refine ⟨a1, c1, c2, ?_⟩
    intro c hc
    rw [statesAfter_append] at hc
    simp only [List.mem_append, statesAfter, List.mem_cons, List.mem_nil_iff, or_false,
      List.not_mem_nil] at hc
    rcases hc with hc | rfl
    · rw [a1 c hc]; decide
    · rw [c1]; decide

/-- Witness of C8: the first tick from power-up detects the grid loss at 0 ms; the tick at
300000 ms, taken in `GRID_LOSS_DETECTED`, enters `START_POWER_ON`. -/
theorem grid_loss_window_witness :
    (run (initial powerUp) [powerUp]).currentState = .GRID_LOSS_DETECTED
      ∧ usub (inputsAt 300000 true true 0).now (run (initial powerUp) [powerUp]).gridLossTime
          ≥ 300000
      ∧ (tick (run (initial powerUp) [powerUp]) (inputsAt 300000 true true 0)).currentState
          = .START_POWER_ON :=
  ⟨by decide, by decide,
    (grid_loss_window (run (initial powerUp) [powerUp]) (inputsAt 300000 true true 0)
      (by decide)).1.2 (by decide)⟩

/-- C9: from a state with `startAttempts = a` (the entry into `START_POWER_ON`), along
ticks taken in `START_POWER_ON`, `START_CHOKE_ON`, `START_CRANKING`, `START_CHOKE_OFF`, or
in `CHECK_RUNNING` less than 5000 ms after it was entered, the first tick taken in
`CHECK_RUNNING` at least 5000 ms after its entry with the generator confirmed ends in
`RUNNING_WAIT_ATS` with `startAttempts` still `a` and `generatorRunning` set. -/
theorem successful_start_keeps_attempts (s : Controller) (is : List Inputs) (j : Inputs)
    (hrun : AlongRun (fun c k => c.currentState = .START_POWER_ON
      ∨ c.currentState = .START_CHOKE_ON ∨ c.currentState = .START_CRANKING
      ∨ c.currentState = .START_CHOKE_OFF
      ∨ (c.currentState = .CHECK_RUNNING ∧ usub k.now c.stateStartTime < 5000)) s is)
    (hcr : (run s is).currentState = .CHECK_RUNNING)
    (ht : usub j.now (run s is).stateStartTime ≥ 5000)
    (hg : (sensed (run s is) j).generatorConfirmed = true) :
    (tick (run s is) j).currentState = .RUNNING_WAIT_ATS
      ∧ (tick (run s is) j).startAttempts = s.startAttempts
      ∧ (tick (run s is) j).generatorRunning = true := by
  have key : ∀ (is : List Inputs) (s : Controller),
      AlongRun (fun c k => c.currentState = .START_POWER_ON
        ∨ c.currentState = .START_CHOKE_ON ∨ c.currentState = .START_CRANKING
        ∨ c.currentState = .START_CHOKE_OFF
        ∨ (c.currentState = .CHECK_RUNNING ∧ usub k.now c.stateStartTime < 5000)) s is →
      (run s is).startAttempts = s.startAttempts := by
    intro is
    induction is with
    | nil => intro s _; rfl
    | cons k is ih =>
      intro s h
      rw [run_cons, ih (tick s k) h.2, startSeq_wait_tick s k h.1]
  obtain ⟨a, b, c⟩ := checkRunning_confirmed_tick (run s is) j hcr ht hg
  exact ⟨a, b.trans (key is s hrun), c⟩

/-- Witness of C9: `START_POWER_ON` is entered at 300000 ms with `startAttempts = 0`; after
`startSequenceSchedule` the controller is in `CHECK_RUNNING` since 310500 ms, and the tick
at 315500 ms with the generator confirmed enters `RUNNING_WAIT_ATS` with the counter
unchanged. -/
theorem successful_start_keeps_attempts_witness :
    (run (initial powerUp) [powerUp, inputsAt 300000 true true 500]).currentState
        = .START_POWER_ON
      ∧ (run (run (initial powerUp) [powerUp, inputsAt 300000 true true 500])
          startSequenceSchedule).currentState = .CHECK_RUNNING
      ∧ (tick (run (run (initial powerUp) [powerUp, inputsAt 300000 true true 500])
          startSequenceSchedule) (inputsAt 315500 true false 500)).currentState
          = .RUNNING_WAIT_ATS
      ∧ (tick (run (run (initial powerUp) [powerUp, inputsAt 300000 true true 500])
          startSequenceSchedule) (inputsAt 315500 true false 500)).startAttempts
          = (run (initial powerUp) [powerUp, inputsAt 300000 true true 500]).startAttempts
      ∧ (tick (run (run (initial powerUp) [powerUp, inputsAt 300000 true true 500])
          startSequenceSchedule) (inputsAt 315500 true false 500)).generatorRunning = true :=
  ⟨by decide, by decide,
    successful_start_keeps_attempts
      (run (initial powerUp) [powerUp, inputsAt 300000 true true 500])
      startSequenceSchedule (inputsAt 315500 true false 500) (by decide) (by decide)
      (by decide) (by decide)⟩

/-- What a tick taken in `RUNNING_WAIT_ATS` at low voltage does guarantee.  From a state in
`RUNNING_WAIT_ATS`, along ticks at which the generator is confirmed, the sampled voltage is
below 210 V and less than 180000 ms have passed since `stateStartTime`, the controller
stays in `RUNNING_WAIT_ATS`, no tick writes the ATS relay HIGH, and `atsEngaged` and the
relay level stay as they were; a further such tick keeps the state if less than 180000 ms
have passed and moves to `SHUTTING_DOWN` if at least 180000 ms have passed.  Nothing here
says that the ATS is released: the ticks leave it as they find it. -/
theorem low_voltage_timeout (s : Controller) (is : List Inputs) (j : Inputs)
    (hs : s.currentState = .RUNNING_WAIT_ATS)
    (hrun : AlongRun (fun c k => (sensed c k).generatorConfirmed = true
      ∧ readVoltage k.genVoltageRaw < minGenVoltage
      ∧ usub k.now s.stateStartTime < 180000) s is)
    (hg : (sensed (run s is) j).generatorConfirmed = true)
    (hv : readVoltage j.genVoltageRaw < minGenVoltage) :
    (∀ c ∈ statesAfter s is, c.currentState = .RUNNING_WAIT_ATS
        ∧ c.stateStartTime = s.stateStartTime ∧ (Pin.atsRelayPin, true) ∉ c.writes
        ∧ c.atsEngaged = s.atsEngaged ∧ c.atsRelay = s.atsRelay)
      ∧ (Pin.atsRelayPin, true) ∉ (tick (run s is) j).writes
      ∧ (tick (run s is) j).atsEngaged = s.atsEngaged
      ∧ (tick (run s is) j).atsRelay = s.atsRelay
      ∧ (usub j.now s.stateStartTime < 180000 →
          (tick (run s is) j).currentState = .RUNNING_WAIT_ATS)
      ∧ (usub j.now s.stateStartTime ≥ 180000 →
          (tick (run s is) j).currentState = .SHUTTING_DOWN) := by
  suffices H : ∀ (t : Nat) (e r : Bool) (is : List Inputs) (s : Controller),
      s.currentState = .RUNNING_WAIT_ATS → s.stateStartTime = t → s.atsEngaged = e →
      s.atsRelay = r →
      AlongRun (fun c k => (sensed c k).generatorConfirmed = true
        ∧ readVoltage k.genVoltageRaw < minGenVoltage ∧ usub k.now t < 180000) s is →
      (∀ c ∈ statesAfter s is, c.currentState = .RUNNING_WAIT_ATS
          ∧ c.stateStartTime = t ∧ (Pin.atsRelayPin, true) ∉ c.writes
          ∧ c.atsEngaged = e ∧ c.atsRelay = r)
        ∧ (run s is).currentState = .RUNNING_WAIT_ATS ∧ (run s is).stateStartTime = t
        ∧ (run s is).atsEngaged = e ∧ (run s is).atsRelay = r by
    obtain ⟨h1, h2, h3, h4, h5⟩ := H s.stateStartTime s.atsEngaged s.atsRelay is s hs rfl rfl
      rfl hrun
    obtain ⟨k1, k2, k3, k4, k5⟩ := waitAts_lowVoltage_tick (run s is) j h2 hg hv
    rw [h3] at k4 k5
    exact ⟨h1, k1, k2.trans h4, k3.trans h5, fun h => (k4 h).1, k5⟩
  intro t e r is
  induction is with
  | nil => intro s h1 h2 h3 h4 _; simp [statesAfter, run_nil, h1, h2, h3, h4]
  | cons i is ih =>
    intro s h1 h2 h3 h4 hr
    obtain ⟨⟨pg, pv, pt⟩, hr⟩ := hr
    obtain ⟨k1, k2, k3, k4, _⟩ := waitAts_lowVoltage_tick s i h1 pg pv
    rw [h2] at k4
    obtain ⟨k4, k5⟩ := k4 pt
    obtain ⟨a1, a2⟩ := ih (tick s i) k4 k5 (k2.trans h3) (k3.trans h4) hr
    refine ⟨?_, a2⟩
    intro c hc
    simp only [statesAfter, List.mem_cons] at hc
    rcases hc with rfl | hc
    · exact ⟨k4, k5, k1, k2.trans h3, k3.trans h4⟩
    · exact a1 c hc

/-- An instance of `low_voltage_timeout`: after `lowVoltageSchedule` the controller is in
`RUNNING_WAIT_ATS` since 315500 ms with 186 V; the ticks at 435500 and 495499 ms keep it
there and the tick at 495500 ms, 180000 ms after the entry, moves it to `SHUTTING_DOWN`. -/
theorem low_voltage_timeout_witness :
    (run (initial powerUp) lowVoltageSchedule).currentState = .RUNNING_WAIT_ATS
      ∧ (run (initial powerUp) lowVoltageSchedule).stateStartTime = 315500
      ∧ (Pin.atsRelayPin, true) ∉ (tick (run (run (initial powerUp) lowVoltageSchedule)
          [inputsAt 435500 true false 400, inputsAt 495499 true false 400])
          (inputsAt 495500 true false 400)).writes
      ∧ (tick (run (run (initial powerUp) lowVoltageSchedule)
          [inputsAt 435500 true false 400, inputsAt 495499 true false 400])
          (inputsAt 495500 true false 400)).currentState = .SHUTTING_DOWN :=
  ⟨by decide, by decide,
    (low_voltage_timeout (run (initial powerUp) lowVoltageSchedule)
      [inputsAt 435500 true false 400, inputsAt 495499 true false 400]
      (inputsAt 495500 true false 400) (by decide) (by decide) (by decide) (by decide)).2.1,
    (low_voltage_timeout (run (initial powerUp) lowVoltageSchedule)
      [inputsAt 435500 true false 400, inputsAt 495499 true false 400]
      (inputsAt 495500 true false 400) (by decide) (by decide) (by decide)
      (by decide)).2.2.2.2.2 (by decide)⟩

/-- C10: the code at the failing input.  After `restartAfterStopSchedule`, reachable from
the state after `setup()`, the controller is in `RUNNING_WAIT_ATS` with `atsEngaged` set
and the ATS relay HIGH, left so by the shutdown that followed the generator stop at
500051 ms.  The tick at 815653 ms is taken in `RUNNING_WAIT_ATS` with the generator
confirmed and 186 V sampled; the state stays `RUNNING_WAIT_ATS`, and the ATS is engaged
before and after the tick. -/
theorem ats_engaged_at_low_voltage :
    Reachable (run (initial powerUp) restartAfterStopSchedule)
      ∧ (run (initial powerUp) restartAfterStopSchedule).currentState = .RUNNING_WAIT_ATS
      ∧ (run (initial powerUp) restartAfterStopSchedule).atsEngaged = true
      ∧ (run (initial powerUp) restartAfterStopSchedule).atsRelay = true
      ∧ (sensed (run (initial powerUp) restartAfterStopSchedule)
          (inputsAt 815653 true false 400)).generatorConfirmed = true
      ∧ readVoltage (inputsAt 815653 true false 400).genVoltageRaw < minGenVoltage
      ∧ usub (inputsAt 815653 true false 400).now
          (run (initial powerUp) restartAfterStopSchedule).stateStartTime < 180000
      ∧ (tick (run (initial powerUp) restartAfterStopSchedule)
          (inputsAt 815653 true false 400)).currentState = .RUNNING_WAIT_ATS
      ∧ (tick (run (initial powerUp) restartAfterStopSchedule)
          (inputsAt 815653 true false 400)).atsEngaged = true
      ∧ (tick (run (initial powerUp) restartAfterStopSchedule)
          (inputsAt 815653 true false 400)).atsRelay = true := by
  refine ⟨reachable_run _ _ (Reachable.init powerUp), ?_⟩
  decide

/-- C11: a tick taken in `RUNNING_WITH_ATS` with the debounced grid value absent leaves
`gridRestoreTime` at 0.  In a run from power-up, if a tick taken in `RUNNING_WITH_ATS` less
than 14400000 ms after its entry ends in `COOLING_DOWN`, then the run holds an earlier tick
`ij` such that `ij`, every tick after it and the last tick were taken in `RUNNING_WITH_ATS`
with the debounced grid value present, and the last tick comes at least 120000 ms after
`ij` (modulo `2^32` as the code computes it, hence in plain terms when the counter has not
wrapped in between). -/
theorem flicker_never_triggers_shutdown (i0 : Inputs) (is : List Inputs) (ik : Inputs) :
    (∀ (s : Controller) (i : Inputs), s.currentState = .RUNNING_WITH_ATS →
        (sensed s i).gridPresent = false → (tick s i).gridRestoreTime = 0)
      ∧ ((run (initial i0) is).currentState = .RUNNING_WITH_ATS →
        usub ik.now (run (initial i0) is).stateStartTime < 14400000 →
        (tick (run (initial i0) is) ik).currentState = .COOLING_DOWN →
        ∃ (pre : List Inputs) (ij : Inputs) (mid : List Inputs),
          is = pre ++ ij :: mid
            ∧ AlongRun (fun c k => c.currentState = .RUNNING_WITH_ATS
                ∧ (sensed c k).gridPresent = true) (run (initial i0) pre)
                (ij :: mid ++ [ik])
            ∧ usub ik.now ij.now ≥ 120000
            ∧ (ij.now ≤ ik.now → ik.now - ij.now ≥ 120000)) := by
  refine ⟨fun s i hs hg => (withAts_tick s i hs).1 hg, ?_⟩
  intro hs hlt hcd
  obtain ⟨_, w2, _, w4⟩ := withAts_tick (run (initial i0) is) ik hs
  rcases w4 hcd with w | ⟨hg, w⟩
  · simp only [generatorRunTime] at w
    omega
  · have hw := w2 hg
    by_cases h0 : (run (initial i0) is).gridRestoreTime = 0
    · rw [if_pos h0] at hw
      rw [hw, usub_self] at w
      simp at w
    · rw [if_neg h0] at hw
      obtain ⟨pre, ij, mid, e1, e2, e3⟩ := latch_history i0 is hs h0
      rw [hw, e2] at w
      simp only [shutdownDelayTime] at w
      refine ⟨pre, ij, mid, e1, ?_, w, ?_⟩
      · have : ij :: mid ++ [ik] = (ij :: mid) ++ [ik] := rfl
        rw [this, alongRun_append]
        refine ⟨e3, ?_⟩
        rw [← run_append, ← e1]
        exact ⟨⟨hs, hg⟩, trivial⟩
      · intro hle
        rw [usub_of_le _ _ (now_lt ik) hle] at w
        exact w

/-- Witness of C11: after `gridRestoredSchedule` the restoration is latched since
500100 ms; the tick at 620100 ms leaves `RUNNING_WITH_ATS` for `COOLING_DOWN`. -/
theorem flicker_never_triggers_shutdown_witness :
    (run (initial powerUp) gridRestoredSchedule).currentState = .RUNNING_WITH_ATS
      ∧ (tick (run (initial powerUp) gridRestoredSchedule)
          (inputsAt 620100 false false 500)).currentState = .COOLING_DOWN
      ∧ ∃ (pre : List Inputs) (ij : Inputs) (mid : List Inputs),
          gridRestoredSchedule = pre ++ ij :: mid
            ∧ AlongRun (fun c k => c.currentState = .RUNNING_WITH_ATS
                ∧ (sensed c k).gridPresent = true) (run (initial powerUp) pre)
                (ij :: mid ++ [inputsAt 620100 false false 500])
            ∧ usub (inputsAt 620100 false false 500).now ij.now ≥ 120000
            ∧ (ij.now ≤ (inputsAt 620100 false false 500).now →
                (inputsAt 620100 false false 500).now - ij.now ≥ 120000) :=
  ⟨by decide, by decide,
    (flicker_never_triggers_shutdown powerUp gridRestoredSchedule
      (inputsAt 620100 false false 500)).2 (by decide) (by decide) (by decide)⟩

/-- C12: after `n` calls of `logEvent` with non-empty texts on an empty log,
`printEventLog` prints, between its header and footer lines, exactly the last `min n 10`
texts, each cut to its first 49 characters, oldest first; the line of a text starts with its
position in the scan of the buffer, which runs from `10 - min n 10` to 9. -/
theorem eventLog_round_trip (i : Inputs) (s : Controller) (es : List (List Char))
    (hlog : s.eventLog = List.replicate 10 []) (hidx : s.eventLogIndex = 0)
    (hne : ∀ e ∈ es, e ≠ []) :
    printEventLog (recordAll i es s)
      = ["=== EVENT LOG ===".toList]
        ++ List.zipWith (fun k e => Nat.toDigits 10 k ++ ": ".toList ++ e.take 49)
            (List.range' (10 - min es.length 10) (min es.length 10))
            (es.drop (es.length - min es.length 10))
        ++ ["================".toList] := by
  obtain ⟨_, hix, hslots⟩ := recordAll_buffer i s es hlog hidx
  have hm1 : min es.length 10 ≤ es.length := Nat.min_le_left _ _
  have hm2 : min es.length 10 ≤ 10 := Nat.min_le_right _ _
  have hm3 : min es.length 10 = es.length ∨ min es.length 10 = 10 := by
    rcases Nat.le_total es.length 10 with h | h
    · exact Or.inl (Nat.min_eq_left h)
    · exact Or.inr (Nat.min_eq_right h)
  generalize min es.length 10 = m at hm1 hm2 hm3 ⊢
  have hentry : ∀ k < 10, (recordAll i es s).eventLog.getD
      (((recordAll i es s).eventLogIndex + k) % 10) []
      = if es.length + k < 10 then [] else (es.getD (es.length + k - 10) []).take 49 := by
    intro k hk
    rw [hix, Nat.mod_add_mod]
    exact hslots k hk
  have hr : List.range 10 = List.range' 0 (10 - m) ++ List.range' (10 - m) m := by
    have := List.range'_append 0 (10 - m) m 1
    simp only [Nat.zero_add, Nat.one_mul] at this
    rw [this, List.range_eq_range']
    congr 1
    omega
  simp only [printEventLog, maxEventLogs]
  congr 2
  rw [hr, List.filterMap_append]
  have h1 : List.filterMap (fun k =>
      let entry := (recordAll i es s).eventLog.getD
        (((recordAll i es s).eventLogIndex + k) % 10) []
      if entry = [] then none else some (Nat.toDigits 10 k ++ ": ".toList ++ entry))
      (List.range' 0 (10 - m)) = [] := by
    rw [List.filterMap_eq_nil_iff]
    intro k hk
    rw [List.mem_range'_1] at hk
    have hE := hentry k (by omega)
    rw [if_pos (by omega)] at hE
    simp only [hE, if_true]
  have h2 : List.filterMap (fun k =>
      let entry := (recordAll i es s).eventLog.getD
        (((recordAll i es s).eventLogIndex + k) % 10) []
      if entry = [] then none else some (Nat.toDigits 10 k ++ ": ".toList ++ entry))
      (List.range' (10 - m) m)
      = List.map (fun k => Nat.toDigits 10 k ++ ": ".toList
          ++ (es.getD (es.length + k - 10) []).take 49)
        (List.range' (10 - m) m) := by
    rw [← List.filterMap_eq_map]
    apply List.filterMap_congr
    intro k hk
    rw [List.mem_range'_1] at hk
    have hE := hentry k (by omega)
    rw [if_neg (by omega)] at hE
    have hlt : es.length + k - 10 < es.length := by omega
    have hmem : (es.getD (es.length + k - 10) []) ∈ es := by
      rw [List.getD_eq_getElem?_getD, List.getElem?_eq_getElem hlt]
      exact List.getElem_mem _
    have hnn : List.take 49 (es.getD (es.length + k - 10) []) ≠ [] := by
      rw [Ne, List.take_eq_nil_iff]
      rintro (h | h)
      · cases h
      · exact hne _ hmem h
    simp only [hE, if_neg hnn, Function.comp]
  rw [h1, h2, List.nil_append]
  apply List.ext_getElem
  · simp only [List.length_map, List.length_range', List.length_zipWith, List.length_drop]
    omega
  · intro p hp1 hp2
    simp only [List.length_map, List.length_range'] at hp1
    simp only [List.getElem_map, List.getElem_zipWith, List.getElem_range', Nat.one_mul,
      List.getElem_drop]
    have hlt : es.length + (10 - m + p) - 10 < es.length := by omega
    rw [List.getD_eq_getElem?_getD, List.getElem?_eq_getElem hlt]
    simp only [Option.getD_some]
    congr 3
    omega

/-- Witness of C12: after the eleven records of `elevenEvents` the first text is gone and
the other ten are printed in order, the last one cut to 49 characters. -/
theorem eventLog_round_trip_witness :
    printEventLog (recordAll powerUp elevenEvents boot)
      = ["=== EVENT LOG ===".toList, "0: event 2".toList, "1: event 3".toList,
         "2: event 4".toList, "3: event 5".toList, "4: event 6".toList,
         "5: event 7".toList, "6: event 8".toList, "7: event 9".toList,
         "8: event 10".toList,
         "9: Generator failed to start after multiple attempts".toList,
         "================".toList] :=
  (eventLog_round_trip powerUp boot elevenEvents rfl rfl (by decide)).trans (by decide)

/-- C13: in a run from power-up, a tick `ik` that changes the trusted grid value changes it
to the reading of `ik`, and the run holds an earlier tick `ij`, more than 50 ms before `ik`
(modulo `2^32` as the code computes it, hence in plain terms when the counter has not
wrapped in between), such that `ij` and every tick after it read that same value and left
the trusted value alone; the same holds for the generator.  Hence, when the clock values of
the ticks are non-decreasing, two ticks that change the trusted value of a sensor are more
than 50 ms apart. -/
theorem debounce_blocks_flapping (i0 : Inputs) (is : List Inputs) (ik : Inputs) :
    ((tick (run (initial i0) is) ik).gridPresent ≠ (run (initial i0) is).gridPresent →
        (!ik.gridCheckIn) = (tick (run (initial i0) is) ik).gridPresent
          ∧ ∃ (pre : List Inputs) (ij : Inputs) (mid : List Inputs),
              is = pre ++ ij :: mid ∧ usub ik.now ij.now > 50
                ∧ (ij.now ≤ ik.now → ik.now - ij.now > 50)
                ∧ AlongRun (fun c x =>
                    (!x.gridCheckIn) = (tick (run (initial i0) is) ik).gridPresent
                      ∧ (tick c x).gridPresent = c.gridPresent)
                    (run (initial i0) pre) (ij :: mid))
      ∧ ((tick (run (initial i0) is) ik).generatorConfirmed
            ≠ (run (initial i0) is).generatorConfirmed →
        (!ik.genCheckIn) = (tick (run (initial i0) is) ik).generatorConfirmed
          ∧ ∃ (pre : List Inputs) (ij : Inputs) (mid : List Inputs),
              is = pre ++ ij :: mid ∧ usub ik.now ij.now > 50
                ∧ (ij.now ≤ ik.now → ik.now - ij.now > 50)
                ∧ AlongRun (fun c x =>
                    (!x.genCheckIn) = (tick (run (initial i0) is) ik).generatorConfirmed
                      ∧ (tick c x).generatorConfirmed = c.generatorConfirmed)
                    (run (initial i0) pre) (ij :: mid))
      ∧ (∀ (pre1 : List Inputs) (ik1 : Inputs) (rest : List Inputs),
          is = pre1 ++ ik1 :: rest →
          List.Pairwise (fun a b => a.now ≤ b.now) (is ++ [ik]) →
          ((tick (run (initial i0) pre1) ik1).gridPresent
              ≠ (run (initial i0) pre1).gridPresent →
            (tick (run (initial i0) is) ik).gridPresent ≠ (run (initial i0) is).gridPresent →
            ik1.now + 50 < ik.now)
          ∧ ((tick (run (initial i0) pre1) ik1).generatorConfirmed
              ≠ (run (initial i0) pre1).generatorConfirmed →
            (tick (run (initial i0) is) ik).generatorConfirmed
              ≠ (run (initial i0) is).generatorConfirmed →
            ik1.now + 50 < ik.now)) := by
  refine ⟨?_, ?_, ?_⟩
  · intro hch
    obtain ⟨h1, pre, ij, mid, e1, e2, e3⟩ :=
      change_needs_quiet gridDebouncer (fun i => !i.gridCheckIn) tick_gridDebouncer
        (initial i0) rfl is ik hch
    refine ⟨h1, pre, ij, mid, e1, e2, ?_, e3⟩
    intro hle
    rw [usub_of_le _ _ (now_lt ik) hle] at e2
    exact e2
  · intro hch
    obtain ⟨h1, pre, ij, mid, e1, e2, e3⟩ :=
      change_needs_quiet genDebouncer (fun i => !i.genCheckIn) tick_genDebouncer
        (initial i0) rfl is ik hch
    refine ⟨h1, pre, ij, mid, e1, e2, ?_, e3⟩
    intro hle
    rw [usub_of_le _ _ (now_lt ik) hle] at e2
    exact e2
  · intro pre1 ik1 rest e hmono
    subst e
    exact ⟨fun h1 h2 => changes_apart gridDebouncer (fun i => !i.gridCheckIn)
        tick_gridDebouncer (initial i0) rfl pre1 ik1 rest ik hmono h1 h2,
      fun h1 h2 => changes_apart genDebouncer (fun i => !i.genCheckIn)
        tick_genDebouncer (initial i0) rfl pre1 ik1 rest ik hmono h1 h2⟩

/-- Witness of C13: from power-up the grid input reads present at 0 ms and at 60 ms; the
tick at 60 ms changes the trusted grid value to present. -/
theorem debounce_blocks_flapping_witness :
    (tick (run (initial powerUp) [inputsAt 0 false true 0])
        (inputsAt 60 false true 0)).gridPresent
        ≠ (run (initial powerUp) [inputsAt 0 false true 0]).gridPresent
      ∧ (!(inputsAt 60 false true 0).gridCheckIn)
          = (tick (run (initial powerUp) [inputsAt 0 false true 0])
              (inputsAt 60 false true 0)).gridPresent
      ∧ ∃ (pre : List Inputs) (ij : Inputs) (mid : List Inputs),
          [inputsAt 0 false true 0] = pre ++ ij :: mid
            ∧ usub (inputsAt 60 false true 0).now ij.now > 50
            ∧ (ij.now ≤ (inputsAt 60 false true 0).now →
                (inputsAt 60 false true 0).now - ij.now > 50)
            ∧ AlongRun (fun c x =>
                (!x.gridCheckIn) = (tick (run (initial powerUp) [inputsAt 0 false true 0])
                    (inputsAt 60 false true 0)).gridPresent
                  ∧ (tick c x).gridPresent = c.gridPresent)
                (run (initial powerUp) pre) (ij :: mid) :=
  ⟨by decide,
    (debounce_blocks_flapping powerUp [inputsAt 0 false true 0]
      (inputsAt 60 false true 0)).1 (by decide)⟩

/-- C14: from the state after `setup()`, with the grid input absent at every tick, the
generator input reading running from the tick at 310500 ms on, the clock standing still
within each tick, and any ADC readings, the ticks at 0, 300000, 301000, 304000, 307000,
310500 and 315500 ms leave the controller in `GRID_LOSS_DETECTED`, `START_POWER_ON`,
`START_CHOKE_ON`, `START_CRANKING`, `START_CHOKE_OFF`, `CHECK_RUNNING` and
`RUNNING_WAIT_ATS`, with `startAttempts = 0` throughout and `generatorRunning` set by the
last tick. -/
theorem end_to_end_start (i0 : Inputs) (adc gridAdc : Nat → Int) (fmt : Int → List Char) :
    (statesAfter (initial i0)
        [gridAbsentAt 0 true (adc 0) (gridAdc 0) fmt,
         gridAbsentAt 300000 true (adc 1) (gridAdc 1) fmt,
         gridAbsentAt 301000 true (adc 2) (gridAdc 2) fmt,
         gridAbsentAt 304000 true (adc 3) (gridAdc 3) fmt,
         gridAbsentAt 307000 true (adc 4) (gridAdc 4) fmt,
         gridAbsentAt 310500 false (adc 5) (gridAdc 5) fmt,
         gridAbsentAt 315500 false (adc 6) (gridAdc 6) fmt]).map
        (fun c => (c.currentState, c.startAttempts, c.generatorRunning))
      = [(.GRID_LOSS_DETECTED, 0, false), (.START_POWER_ON, 0, false),
         (.START_CHOKE_ON, 0, false), (.START_CRANKING, 0, false),
         (.START_CHOKE_OFF, 0, false), (.CHECK_RUNNING, 0, false),
         (.RUNNING_WAIT_ATS, 0, true)] := by
  obtain ⟨hG, hE, hS, hW, hA⟩ := initial_debouncers i0
  have hR : (initial i0).generatorRunning = false := by simp [initial, setup, boot]
  simp only [statesAfter, List.map]
  generalize initial i0 = s0 at *
  -- tick at 0 ms: `IDLE` to `GRID_LOSS_DETECTED`
  have G1 := tick_gridDebouncer s0 (gridAbsentAt 0 true (adc 0) (gridAdc 0) fmt)
  have E1 := tick_genDebouncer s0 (gridAbsentAt 0 true (adc 0) (gridAdc 0) fmt)
  rw [hG, now_gridAbsentAt, gridCheckIn_gridAbsentAt] at G1
  rw [hE, now_gridAbsentAt, genCheckIn_gridAbsentAt] at E1
  have e1 : Debouncer.observe ⟨false, 0, false, false⟩ (!true) (0 % ULONG_SIZE)
    = ⟨false, 0, false, false⟩ := by decide
  rw [e1] at G1 E1
  have hgp : (sensed s0 (gridAbsentAt 0 true (adc 0) (gridAdc 0) fmt)).gridPresent
      = false := by
    rw [← tick_gridPresent, ← gridDebouncer_trusted, G1]
  obtain ⟨hS1, hL1, _⟩ :=
    (idle_tick s0 (gridAbsentAt 0 true (adc 0) (gridAdc 0) fmt) hS hW).1 hgp
  have hR1 := generatorRunning_tick s0 (gridAbsentAt 0 true (adc 0) (gridAdc 0) fmt)
    (by rw [hS]; decide) (by rw [hS]; decide)
  have hA1 := startAttempts_idle s0 (gridAbsentAt 0 true (adc 0) (gridAdc 0) fmt) hS
  rw [hR] at hR1
  rw [hA] at hA1
  rw [now_gridAbsentAt] at hL1
  clear hG hE hS hW hA hR G1 hgp e1
  generalize tick s0 (gridAbsentAt 0 true (adc 0) (gridAdc 0) fmt) = s1 at *
  -- tick at 300000 ms: `GRID_LOSS_DETECTED` to `START_POWER_ON`
  obtain ⟨hS2, hA2⟩ :=
    (gridLoss_tick s1 (gridAbsentAt 300000 true (adc 1) (gridAdc 1) fmt) hS1).1
      (by rw [now_gridAbsentAt, hL1]; decide)
  have hT2 := entered_at s1 (gridAbsentAt 300000 true (adc 1) (gridAdc 1) fmt) 300000
    (fun _ => rfl) (by rw [hS2, hS1]; decide)
  have hR2 := generatorRunning_tick s1 (gridAbsentAt 300000 true (adc 1) (gridAdc 1) fmt)
    (by rw [hS1]; decide) (by rw [hS1]; decide)
  rw [hR1] at hR2
  have E2 := tick_genDebouncer s1 (gridAbsentAt 300000 true (adc 1) (gridAdc 1) fmt)
  rw [E1, now_gridAbsentAt, genCheckIn_gridAbsentAt] at E2
  have e2 : Debouncer.observe ⟨false, 0, false, false⟩ (!true) (300000 % ULONG_SIZE)
    = ⟨false, 0, true, false⟩ := by decide
  rw [e2] at E2
  clear e2 E1 hL1
  generalize tick s1 (gridAbsentAt 300000 true (adc 1) (gridAdc 1) fmt) = s2 at *
  -- tick at 301000 ms: `START_POWER_ON` to `START_CHOKE_ON`
  have hS3 :=
    (((timedStart_tick s2 (gridAbsentAt 301000 true (adc 2) (gridAdc 2) fmt)).1 hS2).1).mpr
      (by rw [now_gridAbsentAt, hT2]; decide)
  have hA3 := startSeq_wait_tick s2 (gridAbsentAt 301000 true (adc 2) (gridAdc 2) fmt)
    (Or.inl hS2)
  rw [hA2] at hA3
  have hT3 := entered_at s2 (gridAbsentAt 301000 true (adc 2) (gridAdc 2) fmt) 301000
    (fun _ => rfl) (by rw [hS3, hS2]; decide)
  have hR3 := generatorRunning_tick s2 (gridAbsentAt 301000 true (adc 2) (gridAdc 2) fmt)
    (by rw [hS2]; decide) (by rw [hS2]; decide)
  rw [hR2] at hR3
  have E3 := tick_genDebouncer s2 (gridAbsentAt 301000 true (adc 2) (gridAdc 2) fmt)
  rw [E2, now_gridAbsentAt, genCheckIn_gridAbsentAt] at E3
  have e3 : Debouncer.observe ⟨false, 0, true, false⟩ (!true) (301000 % ULONG_SIZE)
    = ⟨false, 0, true, false⟩ := by decide
  rw [e3] at E3
  clear e3 E2 hT2
  generalize tick s2 (gridAbsentAt 301000 true (adc 2) (gridAdc 2) fmt) = s3 at *
  -- tick at 304000 ms: `START_CHOKE_ON` to `START_CRANKING`
  have hS4 :=
    (((timedStart_tick s3 (gridAbsentAt 304000 true (adc 3) (gridAdc 3) fmt)).2.1 hS3).1).mpr
      (by rw [now_gridAbsentAt, hT3]; decide)
  have hA4 := startSeq_wait_tick s3 (gridAbsentAt 304000 true (adc 3) (gridAdc 3) fmt)
    (Or.inr (Or.inl hS3))
  rw [hA3] at hA4
  have hT4 := entered_at s3 (gridAbsentAt 304000 true (adc 3) (gridAdc 3) fmt) 304000
    (fun _ => rfl) (by rw [hS4, hS3]; decide)
  have hR4 := generatorRunning_tick s3 (gridAbsentAt 304000 true (adc 3) (gridAdc 3) fmt)
    (by rw [hS3]; decide) (by rw [hS3]; decide)
  rw [hR3] at hR4
  have E4 := tick_genDebouncer s3 (gridAbsentAt 304000 true (adc 3) (gridAdc 3) fmt)
  rw [E3, now_gridAbsentAt, genCheckIn_gridAbsentAt] at E4
  have e4 : Debouncer.observe ⟨false, 0, true, false⟩ (!true) (304000 % ULONG_SIZE)
    = ⟨false, 0, true, false⟩ := by decide
  rw [e4] at E4
  clear e4 E3 hT3
  generalize tick s3 (gridAbsentAt 304000 true (adc 3) (gridAdc 3) fmt) = s4 at *
  -- tick at 307000 ms: `START_CRANKING` to `START_CHOKE_OFF`
  have hS5 :=
    (((timedStart_tick s4 (gridAbsentAt 307000 true (adc 4) (gridAdc 4) fmt)).2.2.1 hS4).1).mpr
      (by rw [now_gridAbsentAt, hT4]; decide)
  have hA5 := startSeq_wait_tick s4 (gridAbsentAt 307000 true (adc 4) (gridAdc 4) fmt)
    (Or.inr (Or.inr (Or.inl hS4)))
  rw [hA4] at hA5
  have hT5 := entered_at s4 (gridAbsentAt 307000 true (adc 4) (gridAdc 4) fmt) 307000
    (fun _ => rfl) (by rw [hS5, hS4]; decide)
  have hR5 := generatorRunning_tick s4 (gridAbsentAt 307000 true (adc 4) (gridAdc 4) fmt)
    (by rw [hS4]; decide) (by rw [hS4]; decide)
  rw [hR4] at hR5
  have E5 := tick_genDebouncer s4 (gridAbsentAt 307000 true (adc 4) (gridAdc 4) fmt)
  rw [E4, now_gridAbsentAt, genCheckIn_gridAbsentAt] at E5
  have e5 : Debouncer.observe ⟨false, 0, true, false⟩ (!true) (307000 % ULONG_SIZE)
    = ⟨false, 0, true, false⟩ := by decide
  rw [e5] at E5
  clear e5 E4 hT4
  generalize tick s4 (gridAbsentAt 307000 true (adc 4) (gridAdc 4) fmt) = s5 at *
  -- tick at 310500 ms: `START_CHOKE_OFF` to `CHECK_RUNNING`
  have hS6 :=
    (((timedStart_tick s5 (gridAbsentAt 310500 false (adc 5) (gridAdc 5) fmt)).2.2.2 hS5).1).mpr
      (by rw [now_gridAbsentAt, hT5]; decide)
  have hA6 := startSeq_wait_tick s5 (gridAbsentAt 310500 false (adc 5) (gridAdc 5) fmt)
    (Or.inr (Or.inr (Or.inr (Or.inl hS5))))
  rw [hA5] at hA6
  have hT6 := entered_at s5 (gridAbsentAt 310500 false (adc 5) (gridAdc 5) fmt) 310500
    (fun _ => rfl) (by rw [hS6, hS5]; decide)
  have hR6 := generatorRunning_tick s5 (gridAbsentAt 310500 false (adc 5) (gridAdc 5) fmt)
    (by rw [hS5]; decide) (by rw [hS5]; decide)
  rw [hR5] at hR6
  have E6 := tick_genDebouncer s5 (gridAbsentAt 310500 false (adc 5) (gridAdc 5) fmt)
  rw [E5, now_gridAbsentAt, genCheckIn_gridAbsentAt] at E6
  have e6 : Debouncer.observe ⟨false, 0, true, false⟩ (!false) (310500 % ULONG_SIZE)
    = ⟨true, 310500, false, false⟩ := by decide
  rw [e6] at E6
  clear e6 E5 hT5
  generalize tick s5 (gridAbsentAt 310500 false (adc 5) (gridAdc 5) fmt) = s6 at *
  -- tick at 315500 ms: `CHECK_RUNNING` to `RUNNING_WAIT_ATS`
  have E7 := tick_genDebouncer s6 (gridAbsentAt 315500 false (adc 6) (gridAdc 6) fmt)
  rw [E6, now_gridAbsentAt, genCheckIn_gridAbsentAt] at E7
  have e7 : Debouncer.observe ⟨true, 310500, false, false⟩ (!false) (315500 % ULONG_SIZE)
    = ⟨true, 310500, true, true⟩ := by decide
  rw [e7] at E7
  have hg7 : (sensed s6 (gridAbsentAt 315500 false (adc 6) (gridAdc 6) fmt)).generatorConfirmed
      = true := by
    rw [← tick_generatorConfirmed, ← genDebouncer_trusted, E7]
  obtain ⟨hS7, hA7, hR7⟩ :=
    checkRunning_confirmed_tick s6 (gridAbsentAt 315500 false (adc 6) (gridAdc 6) fmt) hS6
      (by rw [now_gridAbsentAt, hT6]; decide) hg7
  rw [hA6] at hA7
  rw [hS1, hA1, hR1, hS2, hA2, hR2, hS3, hA3, hR3, hS4, hA4, hR4, hS5, hA5, hR5, hS6, hA6,
    hR6, hS7, hA7, hR7]

/-- C15: in a run from power-up whose ticks have non-decreasing clock values, if the grid
reading is `v` at a tick `ij`, at every tick after it and at the last tick `ik`, and `ik`
comes more than 50 ms after `ij`, then after `ik` the grid debounce is marked stable and the
trusted grid value is `v`; the same holds for the generator.  A tick after which a debounce
is not stable leaves the trusted value of that sensor unchanged. -/
theorem debounce_adopts_quiet_signal (i0 : Inputs) (pre : List Inputs) (ij : Inputs)
    (mid : List Inputs) (ik : Inputs) (v : Bool)
    (hmono : List.Pairwise (fun a b => a.now ≤ b.now) (pre ++ ij :: mid ++ [ik]))
    (hgap : ij.now + 50 < ik.now) :
    ((∀ x ∈ ij :: mid ++ [ik], (!x.gridCheckIn) = v) →
        (run (initial i0) (pre ++ ij :: mid ++ [ik])).gridStateStable = true
          ∧ (run (initial i0) (pre ++ ij :: mid ++ [ik])).gridPresent = v)
      ∧ ((∀ x ∈ ij :: mid ++ [ik], (!x.genCheckIn) = v) →
        (run (initial i0) (pre ++ ij :: mid ++ [ik])).genStateStable = true
          ∧ (run (initial i0) (pre ++ ij :: mid ++ [ik])).generatorConfirmed = v)
      ∧ (∀ (s : Controller) (i : Inputs),
          ((tick s i).gridStateStable = false → (tick s i).gridPresent = s.gridPresent)
            ∧ ((tick s i).genStateStable = false →
              (tick s i).generatorConfirmed = s.generatorConfirmed)) := by
  refine ⟨?_, ?_, ?_⟩
  · intro hv
    exact quiet_adopted gridDebouncer (fun i => !i.gridCheckIn) tick_gridDebouncer
      (initial i0) rfl pre ij mid ik v hmono hgap hv
  · intro hv
    exact quiet_adopted genDebouncer (fun i => !i.genCheckIn) tick_genDebouncer
      (initial i0) rfl pre ij mid ik v hmono hgap hv
  · intro s i
    have g := (observe_spec (gridDebouncer s) (!i.gridCheckIn) i.now).2.2.1
    have n := (observe_spec (genDebouncer s) (!i.genCheckIn) i.now).2.2.1
    rw [← tick_gridDebouncer] at g
    rw [← tick_genDebouncer] at n
    exact ⟨g, n⟩

/-- Witness of C15: from power-up, after the start sequence of `waitAtsSchedule`, the
generator input reads running at 310500 ms and at 315500 ms; after the tick at 315500 ms the
generator debounce is stable and the generator is confirmed. -/
theorem debounce_adopts_quiet_signal_witness :
    List.Pairwise (fun a b => a.now ≤ b.now) waitAtsSchedule
      ∧ (run (initial powerUp) waitAtsSchedule).genStateStable = true
      ∧ (run (initial powerUp) waitAtsSchedule).generatorConfirmed = true :=
  ⟨by decide,
    (debounce_adopts_quiet_signal powerUp
      [inputsAt 0 true true 500, inputsAt 300000 true true 500,
       inputsAt 301000 true true 500, inputsAt 304000 true true 500,
       inputsAt 307000 true true 500]
      (inputsAt 310500 true false 500) [] (inputsAt 315500 true false 500) true
      (by decide) (by decide)).2.1 (by decide)⟩

/-- C16: in every state reachable from the state after `setup()`, by any ticks with any
clock values and any sensor and ADC inputs, the current state is not
`GRID_RESTORED_WAIT`. -/
theorem gridRestoredWait_unreachable (s : Controller) (h : Reachable s) :
    s.currentState ≠ .GRID_RESTORED_WAIT :=
  reachable_notRestoredWait s h

/-- Witness of C16: the state after `engagedSchedule` is reachable (it is in
`RUNNING_WITH_ATS`, the state from which the grid restoration is handled) and is not in
`GRID_RESTORED_WAIT`. -/
theorem gridRestoredWait_unreachable_witness :
    Reachable (run (initial powerUp) engagedSchedule)
      ∧ (run (initial powerUp) engagedSchedule).currentState = .RUNNING_WITH_ATS
      ∧ (run (initial powerUp) engagedSchedule).currentState ≠ .GRID_RESTORED_WAIT :=
  ⟨reachable_run _ _ (Reachable.init powerUp), by decide,
    gridRestoredWait_unreachable (run (initial powerUp) engagedSchedule)
      (reachable_run _ _ (Reachable.init powerUp))⟩

/-- C17: if a state was entered at counter value `stateStartTime` and the tick is taken
`d < 2^32` milliseconds later, so that the counter, which wraps at `2^32`, reads
`(stateStartTime + d) mod 2^32`, then the elapsed time that the tick compares against its
thresholds is `d`, and the timed states of the start sequence move on exactly when `d` has
reached their delay. -/
theorem elapsed_tolerates_wraparound (c : Controller) (i : Inputs) (d : Nat)
    (hd : d < ULONG_SIZE)
    (hclock : i.clock 0 = c.stateStartTime + d) :
    i.now = (c.stateStartTime + d) % 2 ^ 32
      ∧ usub (sensed c i).currentMillis (sensed c i).stateStartTime = d
      ∧ (c.currentState = .START_POWER_ON →
          ((tick c i).currentState = .START_CHOKE_ON ↔ d ≥ 1000))
      ∧ (c.currentState = .START_CHOKE_ON →
          ((tick c i).currentState = .START_CRANKING ↔ d ≥ 3000))
      ∧ (c.currentState = .START_CRANKING →
          ((tick c i).currentState = .START_CHOKE_OFF ↔ d ≥ 3000))
      ∧ (c.currentState = .START_CHOKE_OFF →
          ((tick c i).currentState = .CHECK_RUNNING ↔ d ≥ 3500)) := by
  have hnow : i.now = (c.stateStartTime + d) % ULONG_SIZE := by
    simp only [Inputs.now, hclock]
  have hel : usub i.now c.stateStartTime = d := by
    rw [hnow]; exact usub_add _ _ hd
  obtain ⟨h1, h2, h3, h4⟩ := timedStart_tick c i
  rw [hel] at h1 h2 h3 h4
  refine ⟨hnow, ?_, fun h => (h1 h).1, fun h => (h2 h).1, fun h => (h3 h).1,
    fun h => (h4 h).1⟩
  rw [sensed_now, sensed_stateStartTime, hel]

/-- Witness of C17: `START_POWER_ON` entered at counter value `2^32 - 500`.  The tick 1000
ms later reads the counter at 500 and moves to `START_CHOKE_ON`; the tick 999 ms later
reads it at 499 and stays in `START_POWER_ON`. -/
theorem elapsed_tolerates_wraparound_witness :
    beforeWrap.stateStartTime = 2 ^ 32 - 500
      ∧ (inputsAt (2 ^ 32 + 500) true true 0).now = 500
      ∧ (tick beforeWrap (inputsAt (2 ^ 32 + 500) true true 0)).currentState
          = .START_CHOKE_ON
      ∧ (inputsAt (2 ^ 32 + 499) true true 0).now = 499
      ∧ (tick beforeWrap (inputsAt (2 ^ 32 + 499) true true 0)).currentState
          = .START_POWER_ON :=
  ⟨by decide, by decide,
    ((elapsed_tolerates_wraparound beforeWrap (inputsAt (2 ^ 32 + 500) true true 0) 1000
      (by decide) (by decide)).2.2.1 (by decide)).2 (by decide),
    by decide, by decide⟩

/-- C18, as stated, fails: `START_POWER_ON` was entered at 300000 ms, where a status line
was logged; at the tick at 300001 ms the state stays `START_POWER_ON`, neither trusted
sensor value changes and no status line is due, and yet the tick stores an event in the
buffer, advances the write index and sends a line to `Serial` (line 322). -/
theorem log_written_while_powering_on :
    (run (initial powerUp) [powerUp, inputsAt 300000 true true 0]).currentState
        = .START_POWER_ON
      ∧ (tick (run (initial powerUp) [powerUp, inputsAt 300000 true true 0])
          (inputsAt 300001 true true 0)).currentState = .START_POWER_ON
      ∧ (tick (run (initial powerUp) [powerUp, inputsAt 300000 true true 0])
          (inputsAt 300001 true true 0)).gridPresent
          = (run (initial powerUp) [powerUp, inputsAt 300000 true true 0]).gridPresent
      ∧ (tick (run (initial powerUp) [powerUp, inputsAt 300000 true true 0])
          (inputsAt 300001 true true 0)).generatorConfirmed
          = (run (initial powerUp) [powerUp, inputsAt 300000 true true 0]).generatorConfirmed
      ∧ usub (inputsAt 300001 true true 0).now
          (run (initial powerUp) [powerUp, inputsAt 300000 true true 0]).lastLogTime < 60000
      ∧ (tick (run (initial powerUp) [powerUp, inputsAt 300000 true true 0])
          (inputsAt 300001 true true 0)).eventLogIndex
          ≠ (run (initial powerUp) [powerUp, inputsAt 300000 true true 0]).eventLogIndex
      ∧ (tick (run (initial powerUp) [powerUp, inputsAt 300000 true true 0])
          (inputsAt 300001 true true 0)).eventLog
          ≠ (run (initial powerUp) [powerUp, inputsAt 300000 true true 0]).eventLog
      ∧ (tick (run (initial powerUp) [powerUp, inputsAt 300000 true true 0])
          (inputsAt 300001 true true 0)).serial
          = ["0:5:0 - Powering on generator...".toList] := by
  decide

/-- C18, amended: a tick in which the state does not change, neither trusted sensor value
changes and no status line is due (`now - lastLogTime < 60000`), and which is neither taken
in `START_POWER_ON`, nor a failed evaluation of `CHECK_RUNNING`, nor taken in
`RUNNING_WAIT_ATS` at least 120000 ms after its entry, nor taken in `RUNNING_WITH_ATS` with
the trusted grid value present and `gridRestoreTime` unset, leaves the buffer of the event
log and its write index unchanged and sends no line to `Serial`. -/
theorem log_written_only_on_events (s : Controller) (i : Inputs)
    (hstate : (tick s i).currentState = s.currentState)
    (hgrid : (tick s i).gridPresent = s.gridPresent)
    (hgen : (tick s i).generatorConfirmed = s.generatorConfirmed)
    (hbeat : usub i.now s.lastLogTime < 60000)
    (hpo : s.currentState ≠ .START_POWER_ON)
    (hcr : ¬ failedEval s i)
    (hwa : ¬ (s.currentState = .RUNNING_WAIT_ATS ∧ usub i.now s.stateStartTime ≥ 120000))
    (hwi : ¬ (s.currentState = .RUNNING_WITH_ATS ∧ (sensed s i).gridPresent = true
      ∧ s.gridRestoreTime = 0)) :
    (tick s i).eventLog = s.eventLog ∧ (tick s i).eventLogIndex = s.eventLogIndex
      ∧ (tick s i).serial = [] := by
  rw [tick_eq] at *
  rw [stateMachine_gridPresent] at hgrid
  rw [stateMachine_generatorConfirmed] at hgen
  obtain ⟨a1, a2, a3⟩ := sensed_quiet s i hgrid hgen hbeat
  obtain ⟨b1, b2, b3⟩ := stateMachine_quiet i (sensed s i)
    (by rw [hstate, sensed_currentState])
    (by rw [sensed_currentState]; exact hpo)
    (by rw [sensed_currentState, sensed_now, sensed_stateStartTime]; exact hcr)
    (by rw [sensed_currentState, sensed_now, sensed_stateStartTime]; exact hwa)
    (by rw [sensed_currentState, sensed_gridRestoreTime]; exact hwi)
  exact ⟨b1.trans a1, b2.trans a2, b3.trans a3⟩

/-- Witness of C18, amended: after `lowVoltageSchedule` the controller waits in
`RUNNING_WAIT_ATS` since 315500 ms; the tick at 315600 ms changes neither the state nor a
trusted value, no status line is due, and nothing is logged. -/
theorem log_written_only_on_events_witness :
    (run (initial powerUp) lowVoltageSchedule).currentState = .RUNNING_WAIT_ATS
      ∧ (tick (run (initial powerUp) lowVoltageSchedule)
          (inputsAt 315600 true false 400)).currentState = .RUNNING_WAIT_ATS
      ∧ (tick (run (initial powerUp) lowVoltageSchedule)
          (inputsAt 315600 true false 400)).eventLog
          = (run (initial powerUp) lowVoltageSchedule).eventLog
      ∧ (tick (run (initial powerUp) lowVoltageSchedule)
          (inputsAt 315600 true false 400)).eventLogIndex
          = (run (initial powerUp) lowVoltageSchedule).eventLogIndex
      ∧ (tick (run (initial powerUp) lowVoltageSchedule)
          (inputsAt 315600 true false 400)).serial = [] :=
  ⟨by decide, by decide,
    log_written_only_on_events (run (initial powerUp) lowVoltageSchedule)
      (inputsAt 315600 true false 400) (by decide) (by decide) (by decide) (by decide)
      (by decide) (by decide) (by decide) (by decide)⟩

/-- C19: the code at the failing input.  After `engagedSchedule` the controller, reachable
from the state after `setup()`, is in `RUNNING_WITH_ATS` with the ATS engaged; the tick at
500051 ms debounces the generator as stopped and moves to `SHUTTING_DOWN`, the tick at
500052 ms returns to `IDLE`, and in `IDLE` `atsEngaged` is still set and the ATS relay is
still HIGH. -/
theorem ats_left_engaged_in_idle :
    Reachable (run (initial powerUp) (engagedSchedule
        ++ [inputsAt 500051 true true 500, inputsAt 500052 true true 500]))
      ∧ (run (initial powerUp) engagedSchedule).currentState = .RUNNING_WITH_ATS
      ∧ (run (initial powerUp) (engagedSchedule
          ++ [inputsAt 500051 true true 500])).currentState = .SHUTTING_DOWN
      ∧ (run (initial powerUp) (engagedSchedule
          ++ [inputsAt 500051 true true 500, inputsAt 500052 true true 500])).currentState
          = .IDLE
      ∧ (run (initial powerUp) (engagedSchedule
          ++ [inputsAt 500051 true true 500, inputsAt 500052 true true 500])).atsEngaged
          = true
      ∧ (run (initial powerUp) (engagedSchedule
          ++ [inputsAt 500051 true true 500, inputsAt 500052 true true 500])).atsRelay
          = true :=
  ⟨reachable_run _ _ (Reachable.init powerUp), by decide, by decide, by decide, by decide,
    by decide⟩

/-- C20: in every state reachable from the state after `setup()`, `gridWasLost` is true if
and only if the current state is not `IDLE`; hence in `IDLE` the guard `!gridWasLost` of
line 298 holds, and a tick taken in `IDLE` with the trusted grid value absent detects the
loss. -/
theorem gridWasLost_iff_not_idle (s : Controller) (h : Reachable s) :
    (s.gridWasLost = true ↔ s.currentState ≠ .IDLE)
      ∧ (s.currentState = .IDLE → s.gridWasLost = false)
      ∧ (s.currentState = .IDLE → ∀ i : Inputs, (sensed s i).gridPresent = false →
          (tick s i).currentState = .GRID_LOSS_DETECTED) := by
  have hl := reachable_lostInv s h
  unfold LostInv at hl
  have hidle : s.currentState = .IDLE → s.gridWasLost = false := by
    intro hs
    cases hw : s.gridWasLost
    · rfl
    · exact absurd hs (hl.mp hw)
  exact ⟨hl, hidle, fun hs i hg => ((idle_tick s i hs (hidle hs)).1 hg).1⟩

/-- Witness of C20: the state after a failed start and shutdown (`fastPollSchedule`
followed by the tick that returns to `IDLE`) is reachable, in `IDLE`, with `gridWasLost`
clear. -/
theorem gridWasLost_iff_not_idle_witness :
    Reachable (run (initial powerUp) (fastPollSchedule ++ [inputsAt 315503 true true 0]))
      ∧ (run (initial powerUp) (fastPollSchedule
          ++ [inputsAt 315503 true true 0])).currentState = .IDLE
      ∧ (run (initial powerUp) (fastPollSchedule
          ++ [inputsAt 315503 true true 0])).gridWasLost = false :=
  ⟨reachable_run _ _ (Reachable.init powerUp), by decide,
    (gridWasLost_iff_not_idle _ (reachable_run _ _ (Reachable.init powerUp))).2.1
      (by decide)⟩

end AutoGen
